import Mathlib

/-!
srsRAN CU-CP: identifier allocation and the PDU session resource setup routine

A shallow embedding of

* `include/srsran/cu_cp/cu_cp_types.h` (UE/DU index arithmetic), and
* `lib/cu_cp/routines/pdu_session_resource_setup_routine.cpp`
  (the bearer-setup routine of the CU-CP),

together with theorems about them.

Conventions of the embedding.

* Machine integers are natural numbers; a conversion to an unsigned type of
  width `w` is written `% 2 ^ w`.
* Enumerations over integers (`ue_index_t`, `du_index_t`, `pdu_session_id_t`,
  `drb_id_t`, `qos_flow_id_t`, `five_qi_t`) are the underlying integer.
* `optional<T>` is `Option T`.
-/

namespace srsran
namespace srs_cu_cp

/-! ## Identifier allocator (`cu_cp_types.h`) -/

/-- Maximum number of UEs per DU. -/
def MAX_NOF_UES_PER_DU : Nat := 1024

/-- Maximum number of DUs supported by the CU-CP. -/
def MAX_NOF_DUS : Nat := 2

/-- Maximum number of UEs supported by the CU-CP:
`#define MAX_NOF_CU_UES (MAX_NOF_DUS * MAX_NOF_UES_PER_DU)`. -/
def MAX_NOF_CU_UES : Nat := MAX_NOF_DUS * MAX_NOF_UES_PER_DU

/-- Maximum number of CU-UPs supported by the CU-CP. -/
def MAX_NOF_CU_UPS : Nat := 2

/-- The type `ue_index_t` is an `enum class` over `uint64_t`; the index
functions below are written over `Nat` directly. -/
abbrev ue_index_t := Nat

/-- The type `du_index_t` is an `enum class` over `uint16_t`. -/
abbrev du_index_t := Nat

/-- Enumerator `ue_index_t::invalid = MAX_NOF_CU_UES`. -/
def ue_index_t.invalid : Nat := MAX_NOF_CU_UES

/-- Enumerator `ue_index_t::max = MAX_NOF_CU_UES - 1`. -/
def ue_index_t.max : Nat := MAX_NOF_CU_UES - 1

/-- Enumerator `du_index_t::invalid = MAX_NOF_DUS`. -/
def du_index_t.invalid : Nat := MAX_NOF_DUS

/-- Enumerator `du_index_t::max = MAX_NOF_DUS - 1`. -/
def du_index_t.max : Nat := MAX_NOF_DUS - 1

/-- Convert `ue_index_t` to integer: `static_cast<uint64_t>(index)`. -/
def ue_index_to_uint (index : Nat) : Nat := index % 2 ^ 64

/-- Convert integer to `ue_index_t`: `static_cast<ue_index_t>(index)`,
the parameter being a `uint64_t`. -/
def uint_to_ue_index (index : Nat) : Nat := index % 2 ^ 64

/-- Convert integer to `du_index_t`: `static_cast<du_index_t>(index)`,
the parameter being a `uint16_t`. -/
def uint_to_du_index (index : Nat) : Nat := index % 2 ^ 16

/-- Convert `du_index_t` to integer: `static_cast<uint16_t>(du_index)`. -/
def du_index_to_uint (du_index : Nat) : Nat := du_index % 2 ^ 16

/-- Get DU index from UE index.
```
if (index == ue_index_t::invalid) { return du_index_t::invalid; }
return uint_to_du_index((ue_index_to_uint(index) / MAX_NOF_UES_PER_DU));
``` -/
def get_du_index_from_ue_index (index : Nat) : Nat :=
  if index = ue_index_t.invalid then du_index_t.invalid
  else uint_to_du_index (ue_index_to_uint index / MAX_NOF_UES_PER_DU)

/-- Generate a UE index from DU index and an index.
```
return uint_to_ue_index(du_index_to_uint(du_index) * MAX_NOF_UES_PER_DU + index);
```
Both operands of the product are `uint16_t` and are promoted to `int`; the
product is at most `65535 * 1024` and the sum at most `65535 * 1025`, so the
`int` arithmetic does not overflow. The parameter `index` is a `uint16_t`. -/
def generate_ue_index (du_index : Nat) (index : Nat) : Nat :=
  uint_to_ue_index (du_index_to_uint du_index * MAX_NOF_UES_PER_DU + index % 2 ^ 16)

/-! ## Common types (`cu_types.h`, `cu_cp_types.h`)

Payloads the routine only copies (`byte_buffer`, `up_transport_layer_info`,
`s_nssai_t`, keys, algorithm identifiers) are opaque values. -/

/-- The type `pdu_session_id_t` is an `enum class` over `uint16_t`. -/
abbrev pdu_session_id_t := Nat

/-- PDU session ID valid values are `0..255`. -/
def MAX_NOF_PDU_SESSIONS : Nat := 256

/-- Enumerator `pdu_session_id_t::invalid = MAX_NOF_PDU_SESSIONS`. -/
def pdu_session_id_t.invalid : pdu_session_id_t := MAX_NOF_PDU_SESSIONS

/-- The type `qos_flow_id_t` is an `enum class` over `uint8_t`. -/
abbrev qos_flow_id_t := Nat

/-- QoS flow ID valid values are `0..63`. -/
def MAX_NOF_QOS_FLOWS : Nat := 64

/-- Enumerator `qos_flow_id_t::invalid = MAX_NOF_QOS_FLOWS`. -/
def qos_flow_id_t.invalid : qos_flow_id_t := MAX_NOF_QOS_FLOWS

/-- The type `drb_id_t` (declared in `lcid.h`) identifies a data radio bearer. -/
abbrev drb_id_t := Nat

/-- The type `five_qi_t` (declared in `five_qi.h`) is a 5G QoS identifier. -/
abbrev five_qi_t := Nat

/-- Opaque byte string. -/
abbrev byte_buffer := List Nat

/-- Opaque transport-layer address and tunnel endpoint. -/
abbrev up_transport_layer_info := Nat

/-- Opaque slice identifier. -/
abbrev s_nssai_t := Nat

/-- Causes of `cause_t` the sources name. -/
inductive cause_t where
  | radio_network
  | protocol
  | nulltype
  deriving DecidableEq, Repr

/-- Container `slotted_id_vector<K, T>`, declared in
`srsran/adt/slotted_array.h`: a vector of elements addressed by an id, holding
at most one element per id. The entries are kept in iteration order, each with
the id it is stored under. -/
structure slotted_id_vector (T : Type) where
  entries : List (Nat × T) := []
  deriving DecidableEq, Repr

/-- Method `contains(id)`. -/
def slotted_id_vector.contains {T : Type} (v : slotted_id_vector T) (id : Nat) : Bool :=
  v.entries.any (fun e => e.1 == id)

/-- Lookup behind `operator[](id)`: the element stored under `id`, or `none`
where `operator[]` fails its assertion because no element is stored there. -/
def slotted_id_vector.find {T : Type} (v : slotted_id_vector T) (id : Nat) : Option T :=
  (v.entries.find? (fun e => e.1 == id)).map (fun e => e.2)

/-- Method `emplace(id, x)`: stores `x` under `id`, replacing the element
stored there if there is one. -/
def slotted_id_vector.emplace {T : Type} (v : slotted_id_vector T) (id : Nat) (x : T) :
    slotted_id_vector T :=
  if v.contains id then
    { entries := v.entries.map (fun e => if e.1 == id then (id, x) else e) }
  else
    { entries := v.entries ++ [(id, x)] }

/-- Method `empty()`. -/
def slotted_id_vector.empty {T : Type} (v : slotted_id_vector T) : Bool :=
  v.entries.isEmpty

/-- Elements in iteration order (range-based `for` over the container). -/
def slotted_id_vector.elems {T : Type} (v : slotted_id_vector T) : List T :=
  v.entries.map (fun e => e.2)

structure packet_error_rate_t where
  per_scalar : Nat := 0
  per_exponent : Nat := 0
  deriving DecidableEq, Repr

structure dyn_5qi_descriptor_t where
  qos_prio_level : Nat := 0
  packet_delay_budget : Nat := 0
  packet_error_rate : packet_error_rate_t := {}
  five_qi : Option five_qi_t := none
  delay_crit : Option String := none
  averaging_win : Option Nat := none
  max_data_burst_volume : Option Nat := none
  deriving DecidableEq, Repr

structure non_dyn_5qi_descriptor_t where
  five_qi : five_qi_t := 0
  qos_prio_level : Option Nat := none
  averaging_win : Option Nat := none
  max_data_burst_volume : Option Nat := none
  deriving DecidableEq, Repr

structure qos_characteristics_t where
  dyn_5qi : Option dyn_5qi_descriptor_t := none
  non_dyn_5qi : Option non_dyn_5qi_descriptor_t := none
  deriving DecidableEq, Repr

structure sdap_config_t where
  pdu_session : pdu_session_id_t := pdu_session_id_t.invalid
  sdap_hdr_dl : String := ""
  sdap_hdr_ul : String := ""
  default_drb : Bool := false
  mapped_qos_flows_to_add : List qos_flow_id_t := []
  mapped_qos_flows_to_release : List qos_flow_id_t := []
  deriving DecidableEq, Repr

/-- Values of `pdcp_discard_timer` (declared in `pdcp_config.h`): the
enumerator `not_configured` the routine tests for, or a configured duration. -/
inductive pdcp_discard_timer where
  | not_configured
  | ms (v : Nat)
  deriving DecidableEq, Repr

/-- Values of `pdcp_t_reordering` (declared in `pdcp_config.h`): the
enumerator `infinity` the routine tests for, or a configured duration. -/
inductive pdcp_t_reordering where
  | infinity
  | ms (v : Nat)
  deriving DecidableEq, Repr

/-- RLC mode of a PDCP entity (declared in `pdcp_config.h`). -/
inductive pdcp_rlc_mode where
  | um
  | am
  deriving DecidableEq, Repr

/-- RLC modes of `rlc_config.h` the sources name. -/
inductive rlc_mode where
  | um_bidir
  | am
  deriving DecidableEq, Repr

/-- Transmit side of `pdcp_config`: the fields the routine reads. -/
structure pdcp_config_tx where
  sn_size : Nat := 0
  discard_timer : pdcp_discard_timer := pdcp_discard_timer.not_configured
  deriving DecidableEq, Repr

/-- Receive side of `pdcp_config`: the fields the routine reads. -/
structure pdcp_config_rx where
  sn_size : Nat := 0
  t_reordering : pdcp_t_reordering := pdcp_t_reordering.infinity
  deriving DecidableEq, Repr

/-- PDCP configuration (declared in `pdcp_config.h`): the fields the routine
reads. -/
structure pdcp_config where
  rlc_mode : pdcp_rlc_mode := pdcp_rlc_mode.am
  tx : pdcp_config_tx := {}
  rx : pdcp_config_rx := {}
  deriving DecidableEq, Repr

structure cu_cp_alloc_and_retention_prio where
  prio_level_arp : Nat := 0
  pre_emption_cap : String := ""
  pre_emption_vulnerability : String := ""
  deriving DecidableEq, Repr

structure cu_cp_gbr_qos_info where
  max_flow_bit_rate_dl : Nat := 0
  max_flow_bit_rate_ul : Nat := 0
  guaranteed_flow_bit_rate_dl : Nat := 0
  guaranteed_flow_bit_rate_ul : Nat := 0
  notif_ctrl : Option String := none
  max_packet_loss_rate_dl : Option Nat := none
  max_packet_loss_rate_ul : Option Nat := none
  deriving DecidableEq, Repr

structure cu_cp_qos_flow_level_qos_params where
  qos_characteristics : qos_characteristics_t := {}
  alloc_and_retention_prio : cu_cp_alloc_and_retention_prio := {}
  gbr_qos_info : Option cu_cp_gbr_qos_info := none
  add_qos_flow_info : Option String := none
  reflective_qos_attribute : Option String := none
  deriving DecidableEq, Repr

structure qos_flow_setup_request_item where
  qos_flow_id : qos_flow_id_t := qos_flow_id_t.invalid
  qos_flow_level_qos_params : cu_cp_qos_flow_level_qos_params := {}
  erab_id : Option Nat := none
  deriving DecidableEq, Repr

structure cu_cp_pdu_session_res_setup_item where
  pdu_session_id : pdu_session_id_t := pdu_session_id_t.invalid
  pdu_session_nas_pdu : byte_buffer := []
  s_nssai : s_nssai_t := 0
  pdu_session_aggregate_maximum_bit_rate_dl : Nat := 0
  pdu_session_aggregate_maximum_bit_rate_ul : Nat := 0
  ul_ngu_up_tnl_info : up_transport_layer_info := 0
  pdu_session_type : String := ""
  qos_flow_setup_request_items : slotted_id_vector qos_flow_setup_request_item := {}
  deriving DecidableEq, Repr

structure cu_cp_pdu_session_resource_setup_request where
  ue_index : ue_index_t := ue_index_t.invalid
  pdu_session_res_setup_items : slotted_id_vector cu_cp_pdu_session_res_setup_item := {}
  ue_aggregate_maximum_bit_rate_dl : Nat := 0
  serving_plmn : String := ""
  deriving DecidableEq, Repr

structure cu_cp_associated_qos_flow where
  qos_flow_id : qos_flow_id_t := qos_flow_id_t.invalid
  qos_flow_map_ind : Option String := none
  deriving DecidableEq, Repr

structure cu_cp_qos_flow_failed_to_setup_item where
  qos_flow_id : qos_flow_id_t := qos_flow_id_t.invalid
  cause : cause_t := cause_t.nulltype
  deriving DecidableEq, Repr

structure cu_cp_qos_flow_per_tnl_information where
  up_tp_layer_info : up_transport_layer_info := 0
  associated_qos_flow_list : slotted_id_vector cu_cp_associated_qos_flow := {}
  deriving DecidableEq, Repr

structure security_result_t where
  confidentiality_protection_result : String := ""
  integrity_protection_result : String := ""
  deriving DecidableEq, Repr

structure cu_cp_pdu_session_resource_setup_response_transfer where
  add_dl_qos_flow_per_tnl_info : List cu_cp_qos_flow_per_tnl_information := []
  dlqos_flow_per_tnl_info : cu_cp_qos_flow_per_tnl_information := {}
  associated_qos_flow_list : slotted_id_vector cu_cp_associated_qos_flow := {}
  qos_flow_failed_to_setup_list : slotted_id_vector cu_cp_qos_flow_failed_to_setup_item := {}
  security_result : Option security_result_t := none
  deriving DecidableEq, Repr

structure cu_cp_pdu_session_res_setup_response_item where
  pdu_session_id : pdu_session_id_t := pdu_session_id_t.invalid
  pdu_session_resource_setup_response_transfer :
    cu_cp_pdu_session_resource_setup_response_transfer := {}
  deriving DecidableEq, Repr

/-- The optional `crit_diagnostics`, which the routine never sets, is left
out. -/
structure cu_cp_pdu_session_resource_setup_unsuccessful_transfer where
  cause : cause_t := cause_t.nulltype
  deriving DecidableEq, Repr

structure cu_cp_pdu_session_res_setup_failed_item where
  pdu_session_id : pdu_session_id_t := pdu_session_id_t.invalid
  pdu_session_resource_setup_unsuccessful_transfer :
    cu_cp_pdu_session_resource_setup_unsuccessful_transfer := {}
  deriving DecidableEq, Repr

/-- The optional `crit_diagnostics`, which the routine never sets, is left
out. -/
structure cu_cp_pdu_session_resource_setup_response where
  pdu_session_res_setup_response_items :
    slotted_id_vector cu_cp_pdu_session_res_setup_response_item := {}
  pdu_session_res_failed_to_setup_items :
    slotted_id_vector cu_cp_pdu_session_res_setup_failed_item := {}
  deriving DecidableEq, Repr

/-! ## F1AP UE context modification (`cu_cp_types.h`) -/

/-- Of `cu_cp_drb_info` the routine writes `drb_qos.qos_characteristics` only;
the other members keep their initial values and are left out. -/
structure cu_cp_drb_info where
  drb_qos : cu_cp_qos_flow_level_qos_params := {}
  deriving DecidableEq, Repr

/-- The optional `ul_cfg` and `dupl_activation`, which the routine never sets,
are left out. -/
structure cu_cp_drbs_to_be_setup_mod_item where
  drb_id : drb_id_t := 0
  qos_info : cu_cp_drb_info := {}
  ul_up_tnl_info_to_be_setup_list : List up_transport_layer_info := []
  rlc_mod : rlc_mode := rlc_mode.am
  deriving DecidableEq, Repr

/-- Of `cu_cp_ue_context_modification_request` the routine writes `ue_index`
and `drbs_to_be_setup_mod_list` only; the other members keep their initial
values and are left out. -/
structure cu_cp_ue_context_modification_request where
  ue_index : ue_index_t := ue_index_t.invalid
  drbs_to_be_setup_mod_list : slotted_id_vector cu_cp_drbs_to_be_setup_mod_item := {}
  deriving DecidableEq, Repr

structure cu_cp_du_to_cu_rrc_info where
  cell_group_cfg : byte_buffer := []
  meas_gap_cfg : byte_buffer := []
  requested_p_max_fr1 : byte_buffer := []
  deriving DecidableEq, Repr

structure cu_cp_dl_up_tnl_info_to_be_setup_item where
  dl_up_tnl_info : up_transport_layer_info := 0
  deriving DecidableEq, Repr

structure cu_cp_drbs_setup_modified_item where
  drb_id : drb_id_t := 0
  lcid : Option Nat := none
  dl_up_tnl_info_to_be_setup_list : List cu_cp_dl_up_tnl_info_to_be_setup_item := []
  deriving DecidableEq, Repr

structure cu_cp_drbs_failed_to_be_setup_modified_item where
  drb_id : drb_id_t := 0
  cause : Option cause_t := none
  deriving DecidableEq, Repr

/-- Of `cu_cp_ue_context_modification_response` the members the routine
reads. -/
structure cu_cp_ue_context_modification_response where
  success : Bool := false
  du_to_cu_rrc_info : cu_cp_du_to_cu_rrc_info := {}
  drbs_setup_mod_list : slotted_id_vector cu_cp_drbs_setup_modified_item := {}
  drbs_failed_to_be_setup_mod_list :
    slotted_id_vector cu_cp_drbs_failed_to_be_setup_modified_item := {}
  deriving DecidableEq, Repr

/-! ## RRC reconfiguration and UE capability transfer (`cu_cp_types.h`) -/

structure cu_cp_cn_assoc where
  eps_bearer_id : Option Nat := none
  sdap_cfg : Option sdap_config_t := none
  deriving DecidableEq, Repr

structure cu_cp_drb_to_add_mod where
  reestablish_pdcp_present : Bool := false
  recover_pdcp_present : Bool := false
  cn_assoc : Option cu_cp_cn_assoc := none
  drb_id : drb_id_t := 0
  pdcp_cfg : Option pdcp_config := none
  deriving DecidableEq, Repr

/-- The members `srb_to_add_mod_list` and `security_cfg`, which the routine
never sets, are left out. -/
structure cu_cp_radio_bearer_config where
  drb_to_add_mod_list : slotted_id_vector cu_cp_drb_to_add_mod := {}
  drb_to_release_list : List drb_id_t := []
  srb3_to_release_present : Bool := false
  deriving DecidableEq, Repr

/-- The optional `master_key_upd` and `other_cfg`, which the routine never
sets, are left out. -/
structure cu_cp_rrc_recfg_v1530_ies where
  full_cfg_present : Bool := false
  master_cell_group : byte_buffer := []
  ded_nas_msg_list : List byte_buffer := []
  ded_sib1_delivery : byte_buffer := []
  ded_sys_info_delivery : byte_buffer := []
  deriving DecidableEq, Repr

/-- The optional `meas_cfg`, which the routine never sets, is left out. -/
structure cu_cp_rrc_reconfiguration_procedure_request where
  radio_bearer_cfg : Option cu_cp_radio_bearer_config := none
  secondary_cell_group : byte_buffer := []
  non_crit_ext : Option cu_cp_rrc_recfg_v1530_ies := none
  deriving DecidableEq, Repr

/-- Empty for now but should include ratType and capabilityRequestFilter. -/
structure cu_cp_ue_capability_transfer_request where
  deriving DecidableEq, Repr

/-! ## E1AP bearer context messages

The structures below hold the members of the E1AP message types that the
routine and the test notifier `dummy_du_processor_e1ap_control_notifier` read
or write. -/

structure e1ap_security_algorithm where
  ciphering_algo : Nat := 0
  integrity_protection_algorithm : Nat := 0
  deriving DecidableEq, Repr

structure e1ap_up_security_key where
  encryption_key : byte_buffer := []
  integrity_protection_key : byte_buffer := []
  deriving DecidableEq, Repr

structure e1ap_security_info where
  security_algorithm : e1ap_security_algorithm := {}
  up_security_key : e1ap_up_security_key := {}
  deriving DecidableEq, Repr

structure e1ap_security_ind where
  integrity_protection_ind : String := ""
  confidentiality_protection_ind : String := ""
  deriving DecidableEq, Repr

structure e1ap_pdcp_config where
  pdcp_sn_size_ul : Nat := 0
  pdcp_sn_size_dl : Nat := 0
  rlc_mod : pdcp_rlc_mode := pdcp_rlc_mode.am
  discard_timer : Option pdcp_discard_timer := none
  t_reordering_timer : Option pdcp_t_reordering := none
  deriving DecidableEq, Repr

structure e1ap_cell_group_info_item where
  cell_group_id : Nat := 0
  deriving DecidableEq, Repr

structure e1ap_ng_ran_alloc_and_retention_prio where
  prio_level : Nat := 0
  pre_emption_cap : String := ""
  pre_emption_vulnerability : String := ""
  deriving DecidableEq, Repr

structure e1ap_qos_flow_level_qos_params where
  qos_characteristics : qos_characteristics_t := {}
  ng_ran_alloc_retention_prio : e1ap_ng_ran_alloc_and_retention_prio := {}
  deriving DecidableEq, Repr

structure e1ap_qos_flow_qos_param_item where
  qos_flow_id : qos_flow_id_t := qos_flow_id_t.invalid
  qos_flow_level_qos_params : e1ap_qos_flow_level_qos_params := {}
  deriving DecidableEq, Repr

structure e1ap_drb_to_setup_item_ng_ran where
  drb_id : drb_id_t := 0
  sdap_cfg : sdap_config_t := {}
  pdcp_cfg : e1ap_pdcp_config := {}
  cell_group_info : List e1ap_cell_group_info_item := []
  qos_flow_info_to_be_setup : slotted_id_vector e1ap_qos_flow_qos_param_item := {}
  drb_inactivity_timer : Option Nat := none
  deriving DecidableEq, Repr

structure e1ap_pdu_session_res_to_setup_item where
  pdu_session_id : pdu_session_id_t := pdu_session_id_t.invalid
  pdu_session_type : String := ""
  snssai : s_nssai_t := 0
  ng_ul_up_tnl_info : up_transport_layer_info := 0
  security_ind : e1ap_security_ind := {}
  drb_to_setup_list_ng_ran : slotted_id_vector e1ap_drb_to_setup_item_ng_ran := {}
  pdu_session_inactivity_timer : Option Nat := none
  deriving DecidableEq, Repr

structure e1ap_bearer_context_setup_request where
  ue_index : ue_index_t := ue_index_t.invalid
  security_info : e1ap_security_info := {}
  ue_dl_aggregate_maximum_bit_rate : Nat := 0
  serving_plmn : String := ""
  activity_notif_level : String := ""
  ue_inactivity_timer : Option Nat := none
  pdu_session_res_to_setup_list : slotted_id_vector e1ap_pdu_session_res_to_setup_item := {}
  deriving DecidableEq, Repr

structure e1ap_up_params_item where
  up_tnl_info : up_transport_layer_info := 0
  cell_group_id : Nat := 0
  deriving DecidableEq, Repr

structure e1ap_qos_flow_item where
  qos_flow_id : qos_flow_id_t := qos_flow_id_t.invalid
  deriving DecidableEq, Repr

structure e1ap_qos_flow_failed_item where
  qos_flow_id : qos_flow_id_t := qos_flow_id_t.invalid
  cause : cause_t := cause_t.nulltype
  deriving DecidableEq, Repr

structure e1ap_drb_setup_item_ng_ran where
  drb_id : drb_id_t := 0
  ul_up_transport_params : List e1ap_up_params_item := []
  flow_setup_list : slotted_id_vector e1ap_qos_flow_item := {}
  flow_failed_list : slotted_id_vector e1ap_qos_flow_failed_item := {}
  deriving DecidableEq, Repr

structure e1ap_drb_failed_item_ng_ran where
  drb_id : drb_id_t := 0
  cause : cause_t := cause_t.nulltype
  deriving DecidableEq, Repr

structure e1ap_pdu_session_resource_setup_modification_item where
  pdu_session_id : pdu_session_id_t := pdu_session_id_t.invalid
  ng_dl_up_tnl_info : up_transport_layer_info := 0
  drb_setup_list_ng_ran : slotted_id_vector e1ap_drb_setup_item_ng_ran := {}
  drb_failed_list_ng_ran : slotted_id_vector e1ap_drb_failed_item_ng_ran := {}
  deriving DecidableEq, Repr

structure e1ap_pdu_session_resource_failed_item where
  pdu_session_id : pdu_session_id_t := pdu_session_id_t.invalid
  cause : cause_t := cause_t.nulltype
  deriving DecidableEq, Repr

structure e1ap_bearer_context_setup_response where
  success : Bool := false
  pdu_session_resource_setup_list :
    slotted_id_vector e1ap_pdu_session_resource_setup_modification_item := {}
  pdu_session_resource_failed_list :
    slotted_id_vector e1ap_pdu_session_resource_failed_item := {}
  deriving DecidableEq, Repr

structure e1ap_drb_to_modify_item_ng_ran where
  drb_id : drb_id_t := 0
  dl_up_params : List e1ap_up_params_item := []
  deriving DecidableEq, Repr

structure e1ap_pdu_session_res_to_modify_item where
  pdu_session_id : pdu_session_id_t := pdu_session_id_t.invalid
  drb_to_modify_list_ng_ran : slotted_id_vector e1ap_drb_to_modify_item_ng_ran := {}
  deriving DecidableEq, Repr

structure e1ap_ng_ran_bearer_context_mod_request where
  pdu_session_res_to_modify_list : slotted_id_vector e1ap_pdu_session_res_to_modify_item := {}
  deriving DecidableEq, Repr

structure e1ap_bearer_context_modification_request where
  ue_index : ue_index_t := ue_index_t.invalid
  ng_ran_bearer_context_mod_request : Option e1ap_ng_ran_bearer_context_mod_request := none
  deriving DecidableEq, Repr

structure e1ap_bearer_context_modification_response where
  success : Bool := false
  deriving DecidableEq, Repr

/-! ## Collaborators of the routine -/

/-- Security configuration `security::sec_as_config`: the members the routine
reads. -/
structure sec_as_config where
  cipher_algo : Nat := 0
  integ_algo : Nat := 0
  k_up_enc : byte_buffer := []
  k_up_int : byte_buffer := []
  deriving DecidableEq, Repr

/-- UE configuration: the inactivity timer, in seconds. -/
structure ue_configuration where
  inactivity_timer : Nat := 0
  deriving DecidableEq, Repr

/-- Interface `drb_manager` of `drb_manager.h`, over a state `σ` of the
implementing object. The call `calculate_drb_to_add_list` may change that
state; the accessors read it. -/
structure drb_manager (σ : Type) where
  calculate_drb_to_add_list : σ → cu_cp_pdu_session_resource_setup_request → List drb_id_t × σ
  get_pdcp_config : σ → drb_id_t → pdcp_config
  get_sdap_config : σ → drb_id_t → sdap_config_t
  get_mapped_qos_flows_of_drb : σ → drb_id_t → List qos_flow_id_t
  get_mapped_qos_flows : σ → pdu_session_id_t → List qos_flow_id_t
  get_drbs : σ → pdu_session_id_t → List drb_id_t
  get_pdu_session_id : σ → drb_id_t → pdu_session_id_t
  get_s_nssai : σ → drb_id_t → s_nssai_t
  valid_5qi : σ → five_qi_t → Bool

/-- Interface `du_processor_e1ap_control_notifier`: each awaited call is the
response the CU-UP gives to the request. -/
structure du_processor_e1ap_control_notifier where
  on_bearer_context_setup_request :
    e1ap_bearer_context_setup_request → e1ap_bearer_context_setup_response
  on_bearer_context_modification_request :
    e1ap_bearer_context_modification_request → e1ap_bearer_context_modification_response

/-- Interface `du_processor_f1ap_ue_context_notifier`. -/
structure du_processor_f1ap_ue_context_notifier where
  on_ue_context_modification_request :
    cu_cp_ue_context_modification_request → cu_cp_ue_context_modification_response

/-- Interface `du_processor_rrc_ue_control_message_notifier`. -/
structure du_processor_rrc_ue_control_message_notifier where
  on_ue_capability_transfer_request : cu_cp_ue_capability_transfer_request → Bool
  on_rrc_reconfiguration_request : cu_cp_rrc_reconfiguration_procedure_request → Bool

/-! ## The routine (`pdu_session_resource_setup_routine.cpp`) -/

/-- The routine object: the arguments of its constructor, and the state of
the DRB manager object when the routine starts. -/
structure pdu_session_resource_setup_routine (σ : Type) where
  setup_msg : cu_cp_pdu_session_resource_setup_request
  ue_cfg : ue_configuration
  security_cfg : sec_as_config
  e1ap_ctrl_notifier : du_processor_e1ap_control_notifier
  f1ap_ue_ctxt_notifier : du_processor_f1ap_ue_context_notifier
  rrc_ue_notifier : du_processor_rrc_ue_control_message_notifier
  rrc_ue_drb_manager : drb_manager σ
  drb_manager_state : σ

/-- Outcome of a checking step of the routine: the step passes with a value;
or it takes `CORO_EARLY_RETURN(handle_pdu_session_resource_setup_result(false))`;
or execution stops being defined, because an `srsran_assert` fails,
`optional::value()` is called on an empty optional, or `operator[]` is applied
to an id the container does not hold. -/
inductive step_result (α : Type) where
  | ok (a : α)
  | failed
  | aborted
  deriving DecidableEq, Repr

/-- A loop whose body may leave the routine: the body runs on the elements in
order for as long as it passes. -/
def step_result.for_each {α β : Type} (body : β → α → step_result β) :
    β → List α → step_result β
  | b, [] => step_result.ok b
  | b, a :: rest =>
    match body b a with
    | step_result.ok b2 => step_result.for_each body b2 rest
    | step_result.failed => step_result.failed
    | step_result.aborted => step_result.aborted

/-- One awaited call to a peer: the request sent and the response received. -/
inductive peer_exchange where
  | ue_capability_transfer (request : cu_cp_ue_capability_transfer_request) (result : Bool)
  | bearer_context_setup (request : e1ap_bearer_context_setup_request)
      (response : e1ap_bearer_context_setup_response)
  | ue_context_modification (request : cu_cp_ue_context_modification_request)
      (response : cu_cp_ue_context_modification_response)
  | bearer_context_modification (request : e1ap_bearer_context_modification_request)
      (response : e1ap_bearer_context_modification_response)
  | rrc_reconfiguration (request : cu_cp_rrc_reconfiguration_procedure_request) (result : Bool)
  deriving DecidableEq, Repr

/-- A run of the routine's coroutine: the peer calls awaited, in order, and
the value returned; `none` where execution stopped being defined (see
`step_result.aborted`). -/
structure routine_run where
  exchanges : List peer_exchange
  response : Option cu_cp_pdu_session_resource_setup_response
  deriving DecidableEq, Repr

namespace pdu_session_resource_setup_routine

variable {σ : Type}

/-- Method `valid_5qi(flow)`. -/
def valid_5qi (r : pdu_session_resource_setup_routine σ) (flow : qos_flow_setup_request_item) :
    Bool :=
  match flow.qos_flow_level_qos_params.qos_characteristics.non_dyn_5qi with
  | some non_dyn => r.rrc_ue_drb_manager.valid_5qi r.drb_manager_state non_dyn.five_qi
  | none =>
    match flow.qos_flow_level_qos_params.qos_characteristics.dyn_5qi with
    | some dyn =>
      match dyn.five_qi with
      | some five_qi => r.rrc_ue_drb_manager.valid_5qi r.drb_manager_state five_qi
      | none => false
    | none => false

/-- Body of the inner loop of the initial sanity checks: the flow must have a
configured 5QI. On a flow that has not, the code fetches the 5QI for the log
line: when `dyn_5qi` has a value it reads `non_dyn_5qi.value()`. -/
def check_flow_5qi (r : pdu_session_resource_setup_routine σ)
    (flow_item : qos_flow_setup_request_item) : step_result Unit :=
  if r.valid_5qi flow_item = false then
    if flow_item.qos_flow_level_qos_params.qos_characteristics.dyn_5qi.isSome then
      match flow_item.qos_flow_level_qos_params.qos_characteristics.non_dyn_5qi with
      | some _ => step_result.failed
      | none => step_result.aborted
    else if flow_item.qos_flow_level_qos_params.qos_characteristics.non_dyn_5qi.isSome then
      step_result.failed
    else
      step_result.failed
  else
    step_result.ok ()

/-- Body of the outer loop of the initial sanity checks: the PDU session must
not exist already, and each of its flows must have a configured 5QI. -/
def check_setup_item (r : pdu_session_resource_setup_routine σ)
    (setup_item : cu_cp_pdu_session_res_setup_item) : step_result Unit :=
  if (r.rrc_ue_drb_manager.get_drbs r.drb_manager_state setup_item.pdu_session_id).isEmpty
      = false then
    step_result.failed
  else
    step_result.for_each (fun _ flow_item => r.check_flow_5qi flow_item) ()
      setup_item.qos_flow_setup_request_items.elems

/-- The initial sanity checks. -/
def initial_sanity_checks (r : pdu_session_resource_setup_routine σ) : step_result Unit :=
  step_result.for_each (fun _ setup_item => r.check_setup_item setup_item) ()
    r.setup_msg.pdu_session_res_setup_items.elems

/-- Member `drb_to_add_list`, as assigned from `calculate_drb_to_add_list`. -/
def drb_to_add_list (r : pdu_session_resource_setup_routine σ) : List drb_id_t :=
  (r.rrc_ue_drb_manager.calculate_drb_to_add_list r.drb_manager_state r.setup_msg).1

/-- State of the DRB manager after `calculate_drb_to_add_list`. -/
def planned_state (r : pdu_session_resource_setup_routine σ) : σ :=
  (r.rrc_ue_drb_manager.calculate_drb_to_add_list r.drb_manager_state r.setup_msg).2

/-- Response item of `handle_pdu_session_resource_setup_result` for a
requested PDU session that the bearer context setup response lists as
`acked`: the session id, the downlink transport info of the response, and the
flows the DRB manager maps to the session. -/
def setup_response_item (r : pdu_session_resource_setup_routine σ) (st : σ)
    (acked : e1ap_pdu_session_resource_setup_modification_item)
    (pdu_session_id : pdu_session_id_t) : cu_cp_pdu_session_res_setup_response_item :=
  { pdu_session_id := pdu_session_id
    pdu_session_resource_setup_response_transfer :=
      { dlqos_flow_per_tnl_info :=
          { up_tp_layer_info := acked.ng_dl_up_tnl_info
            associated_qos_flow_list :=
              (r.rrc_ue_drb_manager.get_mapped_qos_flows st pdu_session_id).foldl
                (fun l flow_id => l.emplace flow_id { qos_flow_id := flow_id }) {} } } }

/-- Failed item of `handle_pdu_session_resource_setup_result` for a requested
PDU session, with the given cause. -/
def setup_failed_item (cause : cause_t) (pdu_session_id : pdu_session_id_t) :
    cu_cp_pdu_session_res_setup_failed_item :=
  { pdu_session_id := pdu_session_id
    pdu_session_resource_setup_unsuccessful_transfer := { cause := cause } }

/-- Body of the loop of `handle_pdu_session_resource_setup_result(true)`. -/
def add_setup_result (r : pdu_session_resource_setup_routine σ) (st : σ)
    (bearer_context_setup_response : e1ap_bearer_context_setup_response)
    (response_msg : cu_cp_pdu_session_resource_setup_response)
    (setup_item : cu_cp_pdu_session_res_setup_item) :
    cu_cp_pdu_session_resource_setup_response :=
  match bearer_context_setup_response.pdu_session_resource_setup_list.find
      setup_item.pdu_session_id with
  | some acked =>
    { response_msg with
      pdu_session_res_setup_response_items :=
        response_msg.pdu_session_res_setup_response_items.emplace setup_item.pdu_session_id
          (r.setup_response_item st acked setup_item.pdu_session_id) }
  | none =>
    { response_msg with
      pdu_session_res_failed_to_setup_items :=
        response_msg.pdu_session_res_failed_to_setup_items.emplace setup_item.pdu_session_id
          (setup_failed_item cause_t.radio_network setup_item.pdu_session_id) }

/-- Body of the loop of `handle_pdu_session_resource_setup_result(false)`:
mark the PDU session as failed. -/
def add_setup_failure (response_msg : cu_cp_pdu_session_resource_setup_response)
    (setup_item : cu_cp_pdu_session_res_setup_item) :
    cu_cp_pdu_session_resource_setup_response :=
  { response_msg with
    pdu_session_res_failed_to_setup_items :=
      response_msg.pdu_session_res_failed_to_setup_items.emplace setup_item.pdu_session_id
        (setup_failed_item cause_t.protocol setup_item.pdu_session_id) }

/-- Method `handle_pdu_session_resource_setup_result(success)`, on the member
`bearer_context_setup_response` and the member `response_msg`, which is empty
when the method is called. -/
def handle_pdu_session_resource_setup_result (r : pdu_session_resource_setup_routine σ)
    (st : σ) (bearer_context_setup_response : e1ap_bearer_context_setup_response)
    (response_msg : cu_cp_pdu_session_resource_setup_response) (success : Bool) :
    cu_cp_pdu_session_resource_setup_response :=
  if success then
    r.setup_msg.pdu_session_res_setup_items.elems.foldl
      (r.add_setup_result st bearer_context_setup_response) response_msg
  else
    r.setup_msg.pdu_session_res_setup_items.elems.foldl add_setup_failure response_msg

/-- QoS flow item of the E1AP request, for one flow of the setup request. -/
def fill_e1ap_qos_flow_item (qos_item : qos_flow_setup_request_item) :
    e1ap_qos_flow_qos_param_item :=
  { qos_flow_id := qos_item.qos_flow_id
    qos_flow_level_qos_params :=
      { qos_characteristics :=
          match qos_item.qos_flow_level_qos_params.qos_characteristics.non_dyn_5qi with
          | some non_dyn => { non_dyn_5qi := some { five_qi := non_dyn.five_qi } }
          | none => {}
        ng_ran_alloc_retention_prio :=
          { prio_level := qos_item.qos_flow_level_qos_params.alloc_and_retention_prio.prio_level_arp
            pre_emption_cap :=
              qos_item.qos_flow_level_qos_params.alloc_and_retention_prio.pre_emption_cap
            pre_emption_vulnerability :=
              qos_item.qos_flow_level_qos_params.alloc_and_retention_prio.pre_emption_vulnerability
          } } }

/-- DRB item of the E1AP request, for one planned DRB listed under one PDU
session of the setup request. -/
def fill_e1ap_drb_item (r : pdu_session_resource_setup_routine σ)
    (activity_notif_level : String) (pdu_session_to_setup : cu_cp_pdu_session_res_setup_item)
    (drb_to_setup : drb_id_t) : e1ap_drb_to_setup_item_ng_ran :=
  let cu_cp_pdcp_cfg := r.rrc_ue_drb_manager.get_pdcp_config r.planned_state drb_to_setup
  { drb_id := drb_to_setup
    sdap_cfg := r.rrc_ue_drb_manager.get_sdap_config r.planned_state drb_to_setup
    pdcp_cfg :=
      { pdcp_sn_size_ul := cu_cp_pdcp_cfg.tx.sn_size
        pdcp_sn_size_dl := cu_cp_pdcp_cfg.rx.sn_size
        rlc_mod := cu_cp_pdcp_cfg.rlc_mode
        discard_timer :=
          if cu_cp_pdcp_cfg.tx.discard_timer ≠ pdcp_discard_timer.not_configured then
            some cu_cp_pdcp_cfg.tx.discard_timer
          else none
        t_reordering_timer :=
          if cu_cp_pdcp_cfg.rx.t_reordering ≠ pdcp_t_reordering.infinity then
            some cu_cp_pdcp_cfg.rx.t_reordering
          else none }
    cell_group_info := [{ cell_group_id := 0 }]
    qos_flow_info_to_be_setup :=
      pdu_session_to_setup.qos_flow_setup_request_items.elems.foldl
        (fun l qos_item => l.emplace qos_item.qos_flow_id (fill_e1ap_qos_flow_item qos_item)) {}
    drb_inactivity_timer :=
      if activity_notif_level == "drb" then some r.ue_cfg.inactivity_timer else none }

/-- PDU session item of the E1AP request, for one PDU session of the setup
request: the inner loop runs over the whole of `drb_to_add_list`. -/
def fill_e1ap_pdu_session_item (r : pdu_session_resource_setup_routine σ)
    (activity_notif_level : String) (pdu_session_to_setup : cu_cp_pdu_session_res_setup_item) :
    e1ap_pdu_session_res_to_setup_item :=
  { pdu_session_id := pdu_session_to_setup.pdu_session_id
    pdu_session_type := pdu_session_to_setup.pdu_session_type
    snssai := pdu_session_to_setup.s_nssai
    ng_ul_up_tnl_info := pdu_session_to_setup.ul_ngu_up_tnl_info
    security_ind :=
      { integrity_protection_ind := "not_needed"
        confidentiality_protection_ind := "not_needed" }
    drb_to_setup_list_ng_ran :=
      r.drb_to_add_list.foldl
        (fun l drb_to_setup =>
          l.emplace drb_to_setup
            (r.fill_e1ap_drb_item activity_notif_level pdu_session_to_setup drb_to_setup)) {}
    pdu_session_inactivity_timer :=
      if activity_notif_level == "pdu-session" then some r.ue_cfg.inactivity_timer else none }

/-- Method `fill_e1ap_bearer_context_setup_request(e1ap_request)`. -/
def fill_e1ap_bearer_context_setup_request (r : pdu_session_resource_setup_routine σ)
    (e1ap_request : e1ap_bearer_context_setup_request) : e1ap_bearer_context_setup_request :=
  let activity_notif_level := "ue"
  { e1ap_request with
    ue_index := r.setup_msg.ue_index
    security_info :=
      { security_algorithm :=
          { ciphering_algo := r.security_cfg.cipher_algo
            integrity_protection_algorithm := r.security_cfg.integ_algo }
        up_security_key :=
          { encryption_key := r.security_cfg.k_up_enc
            integrity_protection_key := r.security_cfg.k_up_int } }
    ue_dl_aggregate_maximum_bit_rate := r.setup_msg.ue_aggregate_maximum_bit_rate_dl
    serving_plmn := r.setup_msg.serving_plmn
    activity_notif_level := activity_notif_level
    ue_inactivity_timer :=
      if activity_notif_level == "ue" then some r.ue_cfg.inactivity_timer
      else e1ap_request.ue_inactivity_timer
    pdu_session_res_to_setup_list :=
      r.setup_msg.pdu_session_res_setup_items.elems.foldl
        (fun l pdu_session_to_setup =>
          l.emplace pdu_session_to_setup.pdu_session_id
            (r.fill_e1ap_pdu_session_item activity_notif_level pdu_session_to_setup))
        e1ap_request.pdu_session_res_to_setup_list }

/-- Member `bearer_context_setup_request` when it is sent. -/
def bearer_context_setup_request (r : pdu_session_resource_setup_routine σ) :
    e1ap_bearer_context_setup_request :=
  r.fill_e1ap_bearer_context_setup_request {}

/-- Member `bearer_context_setup_response`: what the CU-UP answers. -/
def bearer_context_setup_response (r : pdu_session_resource_setup_routine σ) :
    e1ap_bearer_context_setup_response :=
  r.e1ap_ctrl_notifier.on_bearer_context_setup_request r.bearer_context_setup_request

/-- Body of the loop "Add qos info" over the flows mapped to a planned DRB:
the QoS characteristics of the flow are looked up in the setup request with
`operator[]` under the DRB's session and the flow id, and the 5QI is read
with `non_dyn_5qi.value()`. -/
def add_qos_info (r : pdu_session_resource_setup_routine σ) (session : pdu_session_id_t)
    (drb_setup_mod_item : cu_cp_drbs_to_be_setup_mod_item) (qos_flow : qos_flow_id_t) :
    step_result cu_cp_drbs_to_be_setup_mod_item :=
  match r.setup_msg.pdu_session_res_setup_items.find session with
  | none => step_result.aborted
  | some setup_item =>
    match setup_item.qos_flow_setup_request_items.find qos_flow with
    | none => step_result.aborted
    | some flow_item =>
      match flow_item.qos_flow_level_qos_params.qos_characteristics.non_dyn_5qi with
      | none => step_result.aborted
      | some non_dyn =>
        step_result.ok
          { drb_setup_mod_item with
            qos_info :=
              { drb_qos :=
                  { drb_setup_mod_item.qos_info.drb_qos with
                    qos_characteristics :=
                      { flow_item.qos_flow_level_qos_params.qos_characteristics with
                        non_dyn_5qi := some { five_qi := non_dyn.five_qi } } } } }

/-- Body of the loop over `drb_to_add_list` that checks the bearer context
setup response and prepares the UE context modification request. -/
def add_drb_to_setup (r : pdu_session_resource_setup_routine σ)
    (ue_context_mod_request : cu_cp_ue_context_modification_request) (drb_to_add : drb_id_t) :
    step_result cu_cp_ue_context_modification_request :=
  let session := r.rrc_ue_drb_manager.get_pdu_session_id r.planned_state drb_to_add
  if session = pdu_session_id_t.invalid then step_result.aborted
  else
    match r.bearer_context_setup_response.pdu_session_resource_setup_list.find session with
    | none => step_result.failed
    | some acked =>
      match acked.drb_setup_list_ng_ran.find drb_to_add with
      | none => step_result.failed
      | some drb =>
        if acked.drb_failed_list_ng_ran.empty = false then step_result.failed
        else if drb.flow_failed_list.empty = false then step_result.failed
        else if drb.ul_up_transport_params.length ≠ 1 then step_result.failed
        else
          match step_result.for_each (r.add_qos_info session) { drb_id := drb_to_add }
              (r.rrc_ue_drb_manager.get_mapped_qos_flows_of_drb r.planned_state drb_to_add) with
          | step_result.aborted => step_result.aborted
          | step_result.failed => step_result.failed
          | step_result.ok drb_setup_mod_item =>
            step_result.ok
              { ue_context_mod_request with
                drbs_to_be_setup_mod_list :=
                  ue_context_mod_request.drbs_to_be_setup_mod_list.emplace drb_to_add
                    { drb_setup_mod_item with
                      ul_up_tnl_info_to_be_setup_list :=
                        drb_setup_mod_item.ul_up_tnl_info_to_be_setup_list ++
                          drb.ul_up_transport_params.map (fun p => p.up_tnl_info)
                      rlc_mod := rlc_mode.am } }

/-- The block "Register required DRB resources at DU", up to the call of the
F1AP notifier: member `ue_context_mod_request` when it is sent. -/
def prepare_ue_context_mod_request (r : pdu_session_resource_setup_routine σ) :
    step_result cu_cp_ue_context_modification_request :=
  step_result.for_each r.add_drb_to_setup { ue_index := r.setup_msg.ue_index } r.drb_to_add_list

/-- Method `fill_e1ap_bearer_context_modification_request(e1ap_request)`, on
the member `ue_context_modification_response`. -/
def fill_e1ap_bearer_context_modification_request (r : pdu_session_resource_setup_routine σ)
    (ue_context_modification_response : cu_cp_ue_context_modification_response)
    (e1ap_request : e1ap_bearer_context_modification_request) :
    e1ap_bearer_context_modification_request :=
  let e1ap_bearer_context_mod : e1ap_ng_ran_bearer_context_mod_request :=
    { pdu_session_res_to_modify_list :=
        r.bearer_context_setup_response.pdu_session_resource_setup_list.elems.foldl
          (fun l pdu_session =>
            l.emplace pdu_session.pdu_session_id
              { pdu_session_id := pdu_session.pdu_session_id
                drb_to_modify_list_ng_ran :=
                  ue_context_modification_response.drbs_setup_mod_list.elems.foldl
                    (fun d drb_item =>
                      d.emplace drb_item.drb_id
                        { drb_id := drb_item.drb_id
                          dl_up_params :=
                            drb_item.dl_up_tnl_info_to_be_setup_list.map
                              (fun dl_up_param =>
                                { up_tnl_info := dl_up_param.dl_up_tnl_info
                                  cell_group_id := 0 }) }) {} }) {} }
  { e1ap_request with
    ue_index := r.setup_msg.ue_index
    ng_ran_bearer_context_mod_request := some e1ap_bearer_context_mod }

/-- The block "prepare RRC Reconfiguration": member `rrc_reconfig_args` when
it is sent. Each turn of the loop over `drb_to_add_list` assigns
`radio_bearer_cfg` a radio bearer configuration constructed in that turn. -/
def prepare_rrc_reconfig_args (r : pdu_session_resource_setup_routine σ)
    (ue_context_modification_response : cu_cp_ue_context_modification_response)
    (rrc_reconfig_args : cu_cp_rrc_reconfiguration_procedure_request) :
    cu_cp_rrc_reconfiguration_procedure_request :=
  let with_bearers :=
    r.drb_to_add_list.foldl
      (fun (args : cu_cp_rrc_reconfiguration_procedure_request) drb_to_add =>
        let drb_to_add_mod : cu_cp_drb_to_add_mod :=
          { drb_id := drb_to_add
            pdcp_cfg := some (r.rrc_ue_drb_manager.get_pdcp_config r.planned_state drb_to_add)
            cn_assoc :=
              some
                { sdap_cfg :=
                    some (r.rrc_ue_drb_manager.get_sdap_config r.planned_state drb_to_add) } }
        let radio_bearer_config : cu_cp_radio_bearer_config :=
          { drb_to_add_mod_list :=
              ({} : slotted_id_vector cu_cp_drb_to_add_mod).emplace drb_to_add drb_to_add_mod }
        { args with radio_bearer_cfg := some radio_bearer_config })
      rrc_reconfig_args
  let rrc_recfg_v1530_ies : cu_cp_rrc_recfg_v1530_ies :=
    { master_cell_group := ue_context_modification_response.du_to_cu_rrc_info.cell_group_cfg
      ded_nas_msg_list :=
        r.setup_msg.pdu_session_res_setup_items.elems.map
          (fun pdu_session => pdu_session.pdu_session_nas_pdu) }
  { with_bearers with non_crit_ext := some rrc_recfg_v1530_ies }

/-- The coroutine `operator()`, run to its return. The result of
`handle_pdu_session_resource_setup_result(false)` reads neither the DRB
manager nor the bearer context setup response, so the one value `failure`
stands for it at every early return. -/
def run (r : pdu_session_resource_setup_routine σ) : routine_run :=
  let failure := r.handle_pdu_session_resource_setup_result r.drb_manager_state {} {} false
  match r.initial_sanity_checks with
  | step_result.aborted => { exchanges := [], response := none }
  | step_result.failed => { exchanges := [], response := some failure }
  | step_result.ok _ =>
    let ue_capability_transfer_result := r.rrc_ue_notifier.on_ue_capability_transfer_request {}
    let x1 := peer_exchange.ue_capability_transfer {} ue_capability_transfer_result
    if ue_capability_transfer_result = false then
      { exchanges := [x1], response := some failure }
    else
      let x2 :=
        peer_exchange.bearer_context_setup r.bearer_context_setup_request
          r.bearer_context_setup_response
      if r.bearer_context_setup_response.success = false then
        { exchanges := [x1, x2], response := some failure }
      else
        match r.prepare_ue_context_mod_request with
        | step_result.aborted => { exchanges := [x1, x2], response := none }
        | step_result.failed => { exchanges := [x1, x2], response := some failure }
        | step_result.ok ue_context_mod_request =>
          let ue_context_modification_response :=
            r.f1ap_ue_ctxt_notifier.on_ue_context_modification_request ue_context_mod_request
          let x3 :=
            peer_exchange.ue_context_modification ue_context_mod_request
              ue_context_modification_response
          if ue_context_modification_response.success = false then
            { exchanges := [x1, x2, x3], response := some failure }
          else if ue_context_modification_response.drbs_failed_to_be_setup_mod_list.empty
              = false then
            { exchanges := [x1, x2, x3], response := some failure }
          else
            let bearer_context_modification_request :=
              r.fill_e1ap_bearer_context_modification_request ue_context_modification_response {}
            let bearer_context_modification_response :=
              r.e1ap_ctrl_notifier.on_bearer_context_modification_request
                bearer_context_modification_request
            let x4 :=
              peer_exchange.bearer_context_modification bearer_context_modification_request
                bearer_context_modification_response
            if bearer_context_modification_response.success = false then
              { exchanges := [x1, x2, x3, x4], response := some failure }
            else
              let rrc_reconfig_args :=
                r.prepare_rrc_reconfig_args ue_context_modification_response {}
              let rrc_reconfig_result :=
                r.rrc_ue_notifier.on_rrc_reconfiguration_request rrc_reconfig_args
              let x5 := peer_exchange.rrc_reconfiguration rrc_reconfig_args rrc_reconfig_result
              if rrc_reconfig_result = false then
                { exchanges := [x1, x2, x3, x4, x5], response := some failure }
              else
                { exchanges := [x1, x2, x3, x4, x5]
                  response :=
                    some
                      (r.handle_pdu_session_resource_setup_result r.planned_state
                        r.bearer_context_setup_response {} true) }

end pdu_session_resource_setup_routine

/-! ## Observations on a run -/

/-- The five peer steps of the routine. -/
inductive peer_step where
  | ue_capability_transfer
  | bearer_context_setup
  | ue_context_modification
  | bearer_context_modification
  | rrc_reconfiguration
  deriving DecidableEq, Repr

/-- The peer step an exchange belongs to. -/
def peer_exchange.step : peer_exchange → peer_step
  | peer_exchange.ue_capability_transfer _ _ => peer_step.ue_capability_transfer
  | peer_exchange.bearer_context_setup _ _ => peer_step.bearer_context_setup
  | peer_exchange.ue_context_modification _ _ => peer_step.ue_context_modification
  | peer_exchange.bearer_context_modification _ _ => peer_step.bearer_context_modification
  | peer_exchange.rrc_reconfiguration _ _ => peer_step.rrc_reconfiguration

/-- Whether the peer answered an exchange with success, by the test the
routine applies to the response right after the call: the boolean result of
the RRC calls, the `success` member of the E1AP responses, and for the DU the
`success` member together with an empty `drbs_failed_to_be_setup_mod_list`. -/
def peer_exchange.successful : peer_exchange → Bool
  | peer_exchange.ue_capability_transfer _ result => result
  | peer_exchange.bearer_context_setup _ response => response.success
  | peer_exchange.ue_context_modification _ response =>
    response.success && response.drbs_failed_to_be_setup_mod_list.empty
  | peer_exchange.bearer_context_modification _ response => response.success
  | peer_exchange.rrc_reconfiguration _ result => result

/-- The peer steps in the order of the routine's text. -/
def peer_steps_in_order : List peer_step :=
  [peer_step.ue_capability_transfer, peer_step.bearer_context_setup,
   peer_step.ue_context_modification, peer_step.bearer_context_modification,
   peer_step.rrc_reconfiguration]

/-- The PDU session ids of a setup request, in iteration order. -/
def cu_cp_pdu_session_resource_setup_request.requested_sessions
    (msg : cu_cp_pdu_session_resource_setup_request) : List pdu_session_id_t :=
  msg.pdu_session_res_setup_items.elems.map (fun setup_item => setup_item.pdu_session_id)

/-- A response reports every PDU session of the request as failed and none as
set up. -/
def cu_cp_pdu_session_resource_setup_response.all_failed
    (resp : cu_cp_pdu_session_resource_setup_response)
    (msg : cu_cp_pdu_session_resource_setup_request) : Prop :=
  resp.pdu_session_res_setup_response_items.empty = true ∧
    ∀ id ∈ msg.requested_sessions, resp.pdu_session_res_failed_to_setup_items.contains id = true

/-! ## Test notifiers (`tests/unittests/cu_cp/test_helpers.h`) and example inputs -/

/-- Struct to configure Bearer Context Setup result content. -/
structure bearer_context_setup_outcome_t where
  outcome : Bool := false
  pdu_sessions_success_list : List Nat := []
  pdu_sessions_failed_list : List Nat := []
  deriving DecidableEq, Repr

structure bearer_context_modification_outcome_t where
  outcome : Bool := false
  deriving DecidableEq, Repr

/-- Enumerator `drb_id_t::drb1`. -/
def drb_id_t.drb1 : drb_id_t := 1

/-- Test notifier `dummy_du_processor_e1ap_control_notifier`, configured with
the outcome of the bearer context setup and of the bearer context
modification. On success the setup response lists each session of the success
list with a single DRB `drb1` carrying one UP transport item. -/
def dummy_du_processor_e1ap_control_notifier (first_e1ap_message : bearer_context_setup_outcome_t)
    (second_e1ap_message : bearer_context_modification_outcome_t) :
    du_processor_e1ap_control_notifier :=
  { on_bearer_context_setup_request := fun _ =>
      if first_e1ap_message.outcome then
        { success := true
          pdu_session_resource_setup_list :=
            first_e1ap_message.pdu_sessions_success_list.foldl
              (fun l id =>
                l.emplace (id % 2 ^ 16)
                  { pdu_session_id := id % 2 ^ 16
                    drb_setup_list_ng_ran :=
                      ({} : slotted_id_vector e1ap_drb_setup_item_ng_ran).emplace drb_id_t.drb1
                        { drb_id := drb_id_t.drb1, ul_up_transport_params := [{}] } }) {}
          pdu_session_resource_failed_list :=
            first_e1ap_message.pdu_sessions_failed_list.foldl
              (fun l id => l.emplace (id % 2 ^ 16) { pdu_session_id := id % 2 ^ 16 }) {} }
      else { success := false }
    on_bearer_context_modification_request := fun _ =>
      { success := second_e1ap_message.outcome } }

/-- Test notifier `dummy_du_processor_f1ap_ue_context_notifier`, configured
with the outcome of the UE context modification; the contents of the
successful response are generated elsewhere and left at their initial
values. -/
def dummy_du_processor_f1ap_ue_context_notifier (ue_context_modification_outcome : Bool) :
    du_processor_f1ap_ue_context_notifier :=
  { on_ue_context_modification_request := fun _ =>
      { success := ue_context_modification_outcome } }

/-- Test notifier `dummy_du_processor_rrc_ue_control_message_notifier`,
configured with the outcomes of the UE capability transfer and of the RRC
reconfiguration. -/
def dummy_du_processor_rrc_ue_control_message_notifier (ue_cap_transfer_outcome : Bool)
    (rrc_reconfiguration_outcome : Bool) : du_processor_rrc_ue_control_message_notifier :=
  { on_ue_capability_transfer_request := fun _ => ue_cap_transfer_outcome
    on_rrc_reconfiguration_request := fun _ => rrc_reconfiguration_outcome }

/-- An E1AP notifier for the examples that answers every bearer context setup
request with the given response and every modification request with
success. -/
def fixed_e1ap_control_notifier (response : e1ap_bearer_context_setup_response) :
    du_processor_e1ap_control_notifier :=
  { on_bearer_context_setup_request := fun _ => response
    on_bearer_context_modification_request := fun _ => { success := true } }

/-- A DRB held by the example DRB manager. -/
structure example_drb where
  drb_id : drb_id_t
  pdu_session_id : pdu_session_id_t
  flows : List qos_flow_id_t
  deriving DecidableEq, Repr

/-- State of the example DRB manager: the configured 5QIs and the DRBs. -/
structure example_drb_manager_state where
  five_qi_config : List five_qi_t := []
  drbs : List example_drb := []
  deriving DecidableEq, Repr

/-- An implementation of the `drb_manager` interface for the examples. It
plans one DRB per requested PDU session, numbered upwards from `drb1`, and
maps all requested flows of the session to it. -/
def example_drb_manager : drb_manager example_drb_manager_state :=
  { calculate_drb_to_add_list := fun st msg =>
      let planned :=
        msg.pdu_session_res_setup_items.elems.enum.map
          (fun p =>
            ({ drb_id := st.drbs.length + p.1 + 1
               pdu_session_id := p.2.pdu_session_id
               flows := p.2.qos_flow_setup_request_items.elems.map (fun f => f.qos_flow_id) } :
              example_drb))
      (planned.map (fun d => d.drb_id), { st with drbs := st.drbs ++ planned })
    get_pdcp_config := fun _ _ => {}
    get_sdap_config := fun st drb_id =>
      match st.drbs.find? (fun d => d.drb_id == drb_id) with
      | some d => { pdu_session := d.pdu_session_id, mapped_qos_flows_to_add := d.flows }
      | none => {}
    get_mapped_qos_flows_of_drb := fun st drb_id =>
      match st.drbs.find? (fun d => d.drb_id == drb_id) with
      | some d => d.flows
      | none => []
    get_mapped_qos_flows := fun st pdu_session_id =>
      ((st.drbs.filter (fun d => d.pdu_session_id == pdu_session_id)).map
        (fun d => d.flows)).flatten
    get_drbs := fun st pdu_session_id =>
      (st.drbs.filter (fun d => d.pdu_session_id == pdu_session_id)).map (fun d => d.drb_id)
    get_pdu_session_id := fun st drb_id =>
      match st.drbs.find? (fun d => d.drb_id == drb_id) with
      | some d => d.pdu_session_id
      | none => pdu_session_id_t.invalid
    get_s_nssai := fun _ _ => 0
    valid_5qi := fun st five_qi => st.five_qi_config.contains five_qi }

/-- A QoS flow with a non-dynamic 5QI descriptor. -/
def example_non_dyn_flow (qos_flow_id : qos_flow_id_t) (five_qi : five_qi_t) :
    qos_flow_setup_request_item :=
  { qos_flow_id := qos_flow_id
    qos_flow_level_qos_params :=
      { qos_characteristics := { non_dyn_5qi := some { five_qi := five_qi } } } }

/-- A QoS flow with a dynamic 5QI descriptor only, as the NGAP adapter builds
it for a flow whose QoS characteristics are of the dynamic kind. -/
def example_dyn_flow (qos_flow_id : qos_flow_id_t) (five_qi : Option five_qi_t) :
    qos_flow_setup_request_item :=
  { qos_flow_id := qos_flow_id
    qos_flow_level_qos_params :=
      { qos_characteristics := { dyn_5qi := some { five_qi := five_qi } } } }

/-- A PDU session setup item with the given flows, each stored under its
flow id. -/
def example_setup_item (pdu_session_id : pdu_session_id_t) (nas_pdu : byte_buffer)
    (flows : List qos_flow_setup_request_item) : cu_cp_pdu_session_res_setup_item :=
  { pdu_session_id := pdu_session_id
    pdu_session_nas_pdu := nas_pdu
    qos_flow_setup_request_items := flows.foldl (fun l f => l.emplace f.qos_flow_id f) {} }

/-- A setup request for UE 0 with the given items, each stored under its PDU
session id. -/
def example_setup_request (items : List cu_cp_pdu_session_res_setup_item) :
    cu_cp_pdu_session_resource_setup_request :=
  { ue_index := 0
    pdu_session_res_setup_items := items.foldl (fun l i => l.emplace i.pdu_session_id i) {} }

/-- A routine over the example DRB manager and the test notifiers. -/
def example_routine (setup_msg : cu_cp_pdu_session_resource_setup_request)
    (st : example_drb_manager_state) (ue_cap_transfer_outcome : Bool)
    (first_e1ap_message : bearer_context_setup_outcome_t)
    (ue_context_modification_outcome : Bool)
    (second_e1ap_message : bearer_context_modification_outcome_t)
    (rrc_reconfiguration_outcome : Bool) :
    pdu_session_resource_setup_routine example_drb_manager_state :=
  { setup_msg := setup_msg
    ue_cfg := { inactivity_timer := 10 }
    security_cfg := {}
    e1ap_ctrl_notifier :=
      dummy_du_processor_e1ap_control_notifier first_e1ap_message second_e1ap_message
    f1ap_ue_ctxt_notifier :=
      dummy_du_processor_f1ap_ue_context_notifier ue_context_modification_outcome
    rrc_ue_notifier :=
      dummy_du_processor_rrc_ue_control_message_notifier ue_cap_transfer_outcome
        rrc_reconfiguration_outcome
    rrc_ue_drb_manager := example_drb_manager
    drb_manager_state := st }

/-- Scenario A: PDU session 3 with one QoS flow of the configured 5QI 9; every
peer answers with success and the CU-UP sets up session 3 with one DRB. -/
def scenario_a : pdu_session_resource_setup_routine example_drb_manager_state :=
  example_routine (example_setup_request [example_setup_item 3 [7, 7] [example_non_dyn_flow 1 9]])
    { five_qi_config := [9] } true { outcome := true, pdu_sessions_success_list := [3] } true
    { outcome := true } true

/-- Scenario A with transport info that differs from the initial value: the
CU-UP answers that PDU session 3 is set up with downlink transport info 42 and
DRB `drb1` with uplink transport info 17. -/
def scenario_a_with_transport_info :
    pdu_session_resource_setup_routine example_drb_manager_state :=
  { scenario_a with
    e1ap_ctrl_notifier :=
      fixed_e1ap_control_notifier
        { success := true
          pdu_session_resource_setup_list :=
            ({} : slotted_id_vector e1ap_pdu_session_resource_setup_modification_item).emplace 3
              { pdu_session_id := 3
                ng_dl_up_tnl_info := 42
                drb_setup_list_ng_ran :=
                  ({} : slotted_id_vector e1ap_drb_setup_item_ng_ran).emplace drb_id_t.drb1
                    { drb_id := drb_id_t.drb1
                      ul_up_transport_params := [{ up_tnl_info := 17 }] } } } }

/-- Scenario A with the DU refusing the UE context modification, after the
CU-UP has set up session 3. -/
def scenario_du_failure : pdu_session_resource_setup_routine example_drb_manager_state :=
  example_routine (example_setup_request [example_setup_item 3 [7, 7] [example_non_dyn_flow 1 9]])
    { five_qi_config := [9] } true { outcome := true, pdu_sessions_success_list := [3] } false
    { outcome := true } true

/-- A request for PDU sessions 1 and 2 while session 2 already has DRB 1.
Session 1 comes first in the request and carries one QoS flow that has a
dynamic 5QI descriptor only, with the 5QI 5; the configured 5QI is 9. -/
def duplicate_session_behind_dynamic_flow :
    pdu_session_resource_setup_routine example_drb_manager_state :=
  example_routine
    (example_setup_request
      [example_setup_item 1 [] [example_dyn_flow 1 (some 5)],
       example_setup_item 2 [] [example_non_dyn_flow 1 9]])
    { five_qi_config := [9], drbs := [{ drb_id := 1, pdu_session_id := 2, flows := [1] }] }
    true { outcome := true, pdu_sessions_success_list := [1, 2] } true { outcome := true } true

/-- A request for PDU session 1 with one QoS flow that has a dynamic 5QI
descriptor only, with the 5QI 5; the configured 5QI is 9. -/
def unconfigured_dynamic_5qi : pdu_session_resource_setup_routine example_drb_manager_state :=
  example_routine (example_setup_request [example_setup_item 1 [] [example_dyn_flow 1 (some 5)]])
    { five_qi_config := [9] } true { outcome := true, pdu_sessions_success_list := [1] } true
    { outcome := true } true

/-! ## Observations on the bearer context setup response, and further example inputs -/

/-- Whether the bearer context setup response passes the checks the routine
applies for a planned DRB before it contacts the DU: the PDU session the DRB
manager associates with the DRB is listed, the DRB is listed under that
session, the session's failed-DRB list and the DRB's failed-flow list are
empty, and the DRB has exactly one uplink transport item. -/
def pdu_session_resource_setup_routine.drb_acknowledged {σ : Type}
    (r : pdu_session_resource_setup_routine σ) (drb_to_add : drb_id_t) : Bool :=
  match r.bearer_context_setup_response.pdu_session_resource_setup_list.find
      (r.rrc_ue_drb_manager.get_pdu_session_id r.planned_state drb_to_add) with
  | none => false
  | some acked =>
    match acked.drb_setup_list_ng_ran.find drb_to_add with
    | none => false
    | some drb =>
      acked.drb_failed_list_ng_ran.empty && drb.flow_failed_list.empty &&
        (drb.ul_up_transport_params.length == 1)

/-- Scenario B: as Scenario A, but the successful bearer context setup
response of the CU-UP omits session 3. -/
def scenario_b : pdu_session_resource_setup_routine example_drb_manager_state :=
  example_routine (example_setup_request [example_setup_item 3 [7, 7] [example_non_dyn_flow 1 9]])
    { five_qi_config := [9] } true { outcome := true, pdu_sessions_success_list := [] } true
    { outcome := true } true

/-- Scenario C: a request for PDU session 5, which already has DRB 2. -/
def scenario_c : pdu_session_resource_setup_routine example_drb_manager_state :=
  example_routine (example_setup_request [example_setup_item 5 [] [example_non_dyn_flow 1 9]])
    { five_qi_config := [9], drbs := [{ drb_id := 2, pdu_session_id := 5, flows := [1] }] }
    true { outcome := true, pdu_sessions_success_list := [5] } true { outcome := true } true

/-- A request for PDU session 1 with one QoS flow of the non-dynamic 5QI 5,
while the configured 5QI is 9. -/
def unconfigured_non_dynamic_5qi :
    pdu_session_resource_setup_routine example_drb_manager_state :=
  example_routine (example_setup_request [example_setup_item 1 [] [example_non_dyn_flow 1 5]])
    { five_qi_config := [9] } true { outcome := true, pdu_sessions_success_list := [1] } true
    { outcome := true } true

/-- Scenario A with the UE capability transfer failing. -/
def scenario_capability_failure :
    pdu_session_resource_setup_routine example_drb_manager_state :=
  example_routine (example_setup_request [example_setup_item 3 [7, 7] [example_non_dyn_flow 1 9]])
    { five_qi_config := [9] } false { outcome := true, pdu_sessions_success_list := [3] } true
    { outcome := true } true

/-- A DRB manager for the examples that has no DRB left to plan:
`calculate_drb_to_add_list` returns the empty list. -/
def exhausted_drb_manager : drb_manager example_drb_manager_state :=
  { example_drb_manager with calculate_drb_to_add_list := fun st _ => ([], st) }

/-- Scenario B over the DRB manager that plans no DRB: session 3 is requested,
no DRB is planned, and the successful bearer context setup response of the
CU-UP lists no session. -/
def scenario_no_planned_drb : pdu_session_resource_setup_routine example_drb_manager_state :=
  { scenario_b with rrc_ue_drb_manager := exhausted_drb_manager }

/-- A request for PDU sessions 3 and 4, one QoS flow of the configured 5QI 9
each. The example DRB manager plans DRB 1 for session 3 and DRB 2 for session
4; the CU-UP sets up both, with uplink transport info 17 and 18, and every
other peer answers with success. -/
def scenario_two_drbs : pdu_session_resource_setup_routine example_drb_manager_state :=
  { example_routine
      (example_setup_request
        [example_setup_item 3 [7] [example_non_dyn_flow 1 9],
         example_setup_item 4 [8] [example_non_dyn_flow 2 9]])
      { five_qi_config := [9] } true { outcome := true } true { outcome := true } true with
    e1ap_ctrl_notifier :=
      fixed_e1ap_control_notifier
        { success := true
          pdu_session_resource_setup_list :=
            (({} : slotted_id_vector e1ap_pdu_session_resource_setup_modification_item).emplace 3
              { pdu_session_id := 3
                ng_dl_up_tnl_info := 42
                drb_setup_list_ng_ran :=
                  ({} : slotted_id_vector e1ap_drb_setup_item_ng_ran).emplace 1
                    { drb_id := 1, ul_up_transport_params := [{ up_tnl_info := 17 }] } }).emplace
              4
              { pdu_session_id := 4
                ng_dl_up_tnl_info := 43
                drb_setup_list_ng_ran :=
                  ({} : slotted_id_vector e1ap_drb_setup_item_ng_ran).emplace 2
                    { drb_id := 2, ul_up_transport_params := [{ up_tnl_info := 18 }] } } } }

/-- An item of the UE context modification request carries, for a planned
DRB, the DRB id and as its uplink transport list the one transport info that
the bearer context setup response lists for the DRB under the PDU session of
the DRB. -/
def pdu_session_resource_setup_routine.carries_acknowledged_transport {σ : Type}
    (r : pdu_session_resource_setup_routine σ) (drb_to_add : drb_id_t)
    (item : cu_cp_drbs_to_be_setup_mod_item) : Prop :=
  item.drb_id = drb_to_add ∧
    ∃ acked drb up_params,
      r.bearer_context_setup_response.pdu_session_resource_setup_list.find
        (r.rrc_ue_drb_manager.get_pdu_session_id r.planned_state drb_to_add) = some acked ∧
      acked.drb_setup_list_ng_ran.find drb_to_add = some drb ∧
      drb.ul_up_transport_params = [up_params] ∧
      item.ul_up_tnl_info_to_be_setup_list = [up_params.up_tnl_info]

/-- The item of a UE context modification request for a DRB with one flow of
a non-dynamic 5QI and one uplink transport info. -/
def example_drb_setup_mod_item (drb_id : drb_id_t) (five_qi : five_qi_t)
    (ul_up_tnl_info : up_transport_layer_info) : cu_cp_drbs_to_be_setup_mod_item :=
  { drb_id := drb_id
    qos_info :=
      { drb_qos := { qos_characteristics := { non_dyn_5qi := some { five_qi := five_qi } } } }
    ul_up_tnl_info_to_be_setup_list := [ul_up_tnl_info]
    rlc_mod := rlc_mode.am }

/-- The UE context modification request that the routine sends to the DU for
the request for sessions 3 and 4: DRB 1 with uplink transport info 17 and
DRB 2 with uplink transport info 18. -/
def scenario_two_drbs_du_request : cu_cp_ue_context_modification_request :=
  { ue_index := 0
    drbs_to_be_setup_mod_list :=
      (({} : slotted_id_vector cu_cp_drbs_to_be_setup_mod_item).emplace 1
        (example_drb_setup_mod_item 1 9 17)).emplace 2 (example_drb_setup_mod_item 2 9 18) }

/-! ## The CU-CP top-level orchestrator

The class `cu_cp` is exercised by `tests/unittests/cu_cp/cu_cp_test.cpp`; its
member functions are modelled from the specification (section 4.4 and the
data model of section 3). -/

/-- Messages to the AMF that the tests look for. -/
inductive ngap_message where
  | init_ue_msg (ue_index : Nat)
  deriving DecidableEq, Repr

/-- Modelled from the spec: the state of the class `cu_cp`, whose source file
is missing. It holds what section 4.4 says the orchestrator owns and tracks:
the DU indexes and CU-UP indexes in use, the AMF connectivity as a boolean
gate, the UE indexes of the UE contexts, and the messages sent to the AMF. -/
structure cu_cp where
  du_db : List Nat := []
  cu_up_db : List Nat := []
  amf_connected : Bool := false
  ue_db : List Nat := []
  ngap_sent : List ngap_message := []
  deriving DecidableEq, Repr

/-- Modelled from the spec: the allocation of a dense index, missing with the
class `cu_cp`. Section 3 has the indexes bounded by a fixed capacity, with an
invalid sentinel equal to the capacity: the lowest index below the capacity
that is not in use, or the capacity when every index is in use. -/
def get_next_index (capacity : Nat) (used : List Nat) : Nat :=
  ((List.range capacity).find? (fun i => !used.contains i)).getD capacity

namespace cu_cp

/-- Modelled from the spec: the getter `get_nof_dus` of the class `cu_cp`,
the number of DUs connected. -/
def get_nof_dus (c : cu_cp) : Nat := c.du_db.length

/-- Modelled from the spec: the getter `get_nof_cu_ups` of the class `cu_cp`,
the number of CU-UPs connected. -/
def get_nof_cu_ups (c : cu_cp) : Nat := c.cu_up_db.length

/-- Modelled from the spec: the getter `get_nof_ues` of the class `cu_cp`, the
number of UE contexts. -/
def get_nof_ues (c : cu_cp) : Nat := c.ue_db.length

/-- Modelled from the spec: the getter `amf_is_connected` of the class
`cu_cp`. -/
def amf_is_connected (c : cu_cp) : Bool := c.amf_connected

/-- Modelled from the spec: `cu_cp::handle_new_du_connection`, missing with
the class. Section 4.4: new DU connections are accepted or rejected against
the fixed capacity `MAX_NOF_DUS`, and connections beyond capacity are silently
rejected (count unchanged). -/
def handle_new_du_connection (c : cu_cp) : cu_cp :=
  let du_index := get_next_index MAX_NOF_DUS c.du_db
  if du_index = du_index_t.invalid then c else { c with du_db := c.du_db ++ [du_index] }

/-- Modelled from the spec: `cu_cp::handle_du_remove_request`, missing with
the class. Section 3: a UE context is destroyed on DU disconnection. -/
def handle_du_remove_request (c : cu_cp) (du_index : Nat) : cu_cp :=
  { c with
    du_db := c.du_db.filter (fun i => i != du_index)
    ue_db := c.ue_db.filter (fun ue_index => get_du_index_from_ue_index ue_index != du_index) }

/-- Modelled from the spec: `cu_cp::handle_new_cu_up_connection`, missing
with the class. Section 4.4: new CU-UP connections are accepted or rejected
against the fixed capacity `MAX_NOF_CU_UPS`, and connections beyond capacity
are silently rejected (count unchanged). -/
def handle_new_cu_up_connection (c : cu_cp) : cu_cp :=
  let cu_up_index := get_next_index MAX_NOF_CU_UPS c.cu_up_db
  if cu_up_index = MAX_NOF_CU_UPS then c else { c with cu_up_db := c.cu_up_db ++ [cu_up_index] }

/-- Modelled from the spec: `cu_cp::handle_cu_up_remove_request`, missing
with the class. -/
def handle_cu_up_remove_request (c : cu_cp) (cu_up_index : Nat) : cu_cp :=
  { c with cu_up_db := c.cu_up_db.filter (fun i => i != cu_up_index) }

/-- Modelled from the spec: the handling of an NG Setup Response, missing with
the class `cu_cp`: the AMF is connected. -/
def handle_ng_setup_response (c : cu_cp) : cu_cp := { c with amf_connected := true }

/-- Modelled from the spec: `cu_cp::handle_amf_connection_drop`, missing with
the class. Section 4.4: on AMF disconnection, UEs that are already attached
are not torn down. -/
def handle_amf_connection_drop (c : cu_cp) : cu_cp := { c with amf_connected := false }

/-- Modelled from the spec: the handling of an Initial UL RRC message from a
DU, the attach attempt of a new UE, missing with the class `cu_cp`. Section
4.4: while the AMF is disconnected, new UE attach attempts are rejected.
Section 3: a UE context is created on the first uplink signalling indication
from a DU, under the UE index derived from the DU index and a slot of the
DU. -/
def handle_initial_ul_rrc_message (c : cu_cp) (du_index : Nat) : cu_cp :=
  if c.amf_connected = false then c
  else if c.du_db.contains du_index = false then c
  else
    let slot :=
      get_next_index MAX_NOF_UES_PER_DU
        ((List.range MAX_NOF_UES_PER_DU).filter
          (fun i => c.ue_db.contains (generate_ue_index du_index i)))
    if slot = MAX_NOF_UES_PER_DU then c
    else { c with ue_db := c.ue_db ++ [generate_ue_index du_index slot] }

/-- Modelled from the spec: the handling of an UL RRC message that carries the
RRC Setup Complete of a UE, missing with the class `cu_cp`. For a UE that has
a context the Initial UE Message goes to the AMF; section 4.4: while the AMF
is disconnected, UE signalling that requires the AMF is dropped. -/
def handle_rrc_setup_complete (c : cu_cp) (ue_index : Nat) : cu_cp :=
  if c.amf_connected = false then c
  else if c.ue_db.contains ue_index = false then c
  else { c with ngap_sent := c.ngap_sent ++ [ngap_message.init_ue_msg ue_index] }

/-- Modelled from the spec: the handling of a UE Context Release Complete,
missing with the class `cu_cp`. Section 3: a UE context is destroyed on UE
context release completion. -/
def handle_ue_context_release_complete (c : cu_cp) (ue_index : Nat) : cu_cp :=
  { c with ue_db := c.ue_db.filter (fun i => i != ue_index) }

end cu_cp

/-- The calls and messages the CU-CP handles in the tests. -/
inductive cu_cp_event where
  | new_du_connection
  | du_remove_request (du_index : Nat)
  | new_cu_up_connection
  | cu_up_remove_request (cu_up_index : Nat)
  | ng_setup_response
  | amf_connection_drop
  | initial_ul_rrc_message (du_index : Nat)
  | rrc_setup_complete (ue_index : Nat)
  | ue_context_release_complete (ue_index : Nat)
  deriving DecidableEq, Repr

/-- Modelled from the spec: the dispatch of a call or message to its handler
in the class `cu_cp`. -/
def cu_cp.handle (c : cu_cp) : cu_cp_event → cu_cp
  | cu_cp_event.new_du_connection => c.handle_new_du_connection
  | cu_cp_event.du_remove_request du_index => c.handle_du_remove_request du_index
  | cu_cp_event.new_cu_up_connection => c.handle_new_cu_up_connection
  | cu_cp_event.cu_up_remove_request cu_up_index => c.handle_cu_up_remove_request cu_up_index
  | cu_cp_event.ng_setup_response => c.handle_ng_setup_response
  | cu_cp_event.amf_connection_drop => c.handle_amf_connection_drop
  | cu_cp_event.initial_ul_rrc_message du_index => c.handle_initial_ul_rrc_message du_index
  | cu_cp_event.rrc_setup_complete ue_index => c.handle_rrc_setup_complete ue_index
  | cu_cp_event.ue_context_release_complete ue_index =>
    c.handle_ue_context_release_complete ue_index

/-- The CU-CP after it has handled a sequence of calls and messages, starting
from its state after construction. -/
def cu_cp.after (events : List cu_cp_event) : cu_cp :=
  events.foldl cu_cp.handle {}

/-- Whether a call or message belongs to the attach attempt of a UE: the
Initial UL RRC message, or the RRC Setup Complete that follows it. -/
def cu_cp_event.is_attach_attempt : cu_cp_event → Bool
  | cu_cp_event.initial_ul_rrc_message _ => true
  | cu_cp_event.rrc_setup_complete _ => true
  | _ => false

/-! ## The per-UE task queue

`du_ue_manager::schedule_async_task` (`du_ue_manager.h`, lines 51-55) hands a
task to the sequencer of its UE: `ue_ctrl_loop[ue_index].schedule(task)`.  The
class `async_task_sequencer` itself (`async_task_loop.h`) is missing; what it
does with the tasks is modelled from the specification (sections 4.3 and 5).  A task is represented by the peer exchanges it makes and the
response it returns, which is what `run` computes for the routine. -/

/-- Modelled from the spec: a task held by an `async_task_sequencer`, a class
whose source (`async_task_loop.h`) is missing.  The task carries the ticket
`task_id` it was given when scheduled, the peer exchanges it has yet to make
and the response it returns when it reaches its terminal state. -/
structure scheduled_task where
  task_id : Nat
  calls : List peer_exchange
  response : Option cu_cp_pdu_session_resource_setup_response
  deriving DecidableEq, Repr

/-- Modelled from the spec: what can be observed of a task of the class
`async_task_sequencer`, whose source is missing: it is scheduled, it issues a
peer request and awaits the response, it returns its response. -/
inductive task_event where
  | scheduled (task_id : Nat)
  | peer_request (task_id : Nat) (call : peer_exchange)
  | returned (task_id : Nat) (response : Option cu_cp_pdu_session_resource_setup_response)
  deriving DecidableEq, Repr

namespace task_event

/-- Ticket of the task an event belongs to. -/
def task_id : task_event → Nat
  | scheduled task_id => task_id
  | peer_request task_id _ => task_id
  | returned task_id _ => task_id

/-- Whether the event is a step of a running task (a peer request or the
return of the response), as opposed to its scheduling. -/
def is_run : task_event → Bool
  | scheduled _ => false
  | peer_request _ _ => true
  | returned _ _ => true

end task_event

/-- Modelled from the spec: the class `async_task_sequencer`, whose source
(`async_task_loop.h`) is missing: "a dedicated per-UE task queue (bounded
depth, e.g., 16 pending)".  The head of `tasks` is the task that runs, the
tail are the pending tasks in arrival order. -/
structure async_task_sequencer where
  queue_size : Nat
  tasks : List scheduled_task := []
  deriving DecidableEq, Repr

namespace async_task_sequencer

/-- Modelled from the spec: `async_task_sequencer::schedule`, whose source is
missing: the task is queued behind those already there (FIFO); it is refused
when `queue_size` tasks are pending. -/
def schedule (q : async_task_sequencer) (task : scheduled_task) :
    Bool × async_task_sequencer :=
  if q.tasks.tail.length < q.queue_size then
    (true, { q with tasks := q.tasks ++ [task] })
  else
    (false, q)

/-- Modelled from the spec: one resumption of the loop of the class
`async_task_sequencer`, whose source is missing: "runs one coroutine-style saga
at a time".  Only the task at the head runs: it issues its next peer request
(a suspension point), or, having none left, returns its response and leaves
the queue, so that "a queued task cannot start until the one ahead of it
completes". -/
def resume (q : async_task_sequencer) : Option task_event × async_task_sequencer :=
  match q.tasks with
  | [] => (none, q)
  | task :: pending =>
    match task.calls with
    | call :: calls =>
      (some (task_event.peer_request task.task_id call),
        { q with tasks := { task with calls := calls } :: pending })
    | [] =>
      (some (task_event.returned task.task_id task.response), { q with tasks := pending })

end async_task_sequencer

/-- The task event loops indexed by `ue_index` (member `ue_ctrl_loop` of
`du_ue_manager`, each constructed with 16 pending tasks as in
`test_helpers.h`), with two observation fields: the ticket of the next task
and the events so far, each with the index of its UE, oldest first. -/
structure ue_task_scheduler where
  ue_ctrl_loop : Nat → async_task_sequencer := fun _ => { queue_size := 16 }
  next_id : Nat := 0
  log : List (Nat × task_event) := []

namespace ue_task_scheduler

/-- Embedding of `du_ue_manager::schedule_async_task`:
`ue_ctrl_loop[ue_index].schedule(std::move(task))`. -/
def schedule_async_task (s : ue_task_scheduler) (ue_index : Nat) (task : routine_run) :
    ue_task_scheduler :=
  match (s.ue_ctrl_loop ue_index).schedule
      { task_id := s.next_id, calls := task.exchanges, response := task.response } with
  | (true, q) =>
    { ue_ctrl_loop := fun u => if u = ue_index then q else s.ue_ctrl_loop u
      next_id := s.next_id + 1
      log := s.log ++ [(ue_index, task_event.scheduled s.next_id)] }
  | (false, _) => s

/-- Modelled from the spec: the executor resumes the loop of one UE ("each
suspension point is a yield point where the engine may run sagas of other UEs
concurrently"); the source of the executor is missing. -/
def resume (s : ue_task_scheduler) (ue_index : Nat) : ue_task_scheduler :=
  match (s.ue_ctrl_loop ue_index).resume with
  | (some event, q) =>
    { ue_ctrl_loop := fun u => if u = ue_index then q else s.ue_ctrl_loop u
      next_id := s.next_id
      log := s.log ++ [(ue_index, event)] }
  | (none, _) => s

/-- Tickets of the tasks in the queue of a UE, the running one first. -/
def queued_ids (s : ue_task_scheduler) (ue_index : Nat) : List Nat :=
  (s.ue_ctrl_loop ue_index).tasks.map (fun task => task.task_id)

end ue_task_scheduler

/-- What happens to the task queues: a task is scheduled for a UE, or the
loop of a UE is resumed. -/
inductive scheduler_event where
  | schedule_async_task (ue_index : Nat) (task : routine_run)
  | resume (ue_index : Nat)
  deriving DecidableEq, Repr

namespace ue_task_scheduler

/-- Effect of one event on the task queues. -/
def handle (s : ue_task_scheduler) : scheduler_event → ue_task_scheduler
  | scheduler_event.schedule_async_task ue_index task => s.schedule_async_task ue_index task
  | scheduler_event.resume ue_index => s.resume ue_index

/-- The task queues after a sequence of events, starting with empty queues. -/
def after (events : List scheduler_event) : ue_task_scheduler :=
  events.foldl handle {}

/-- Invariant of the task queues: tickets in a queue increase, every ticket in
a queue or in the log is below `next_id`, a step of a task of a UE is logged
with a ticket no larger than those in the queue of that UE, a task that was
scheduled is in the queue or has returned, a task issues a peer request only
once the tasks of its UE with a smaller ticket have returned, and the log is
in ticket order, for the steps of one UE and for the schedulings. -/
structure consistent (s : ue_task_scheduler) : Prop where
  queue_sorted : ∀ ue, (s.queued_ids ue).Pairwise (fun a b => a < b)
  queue_lt : ∀ ue, ∀ a ∈ s.queued_ids ue, a < s.next_id
  log_lt : ∀ e ∈ s.log, e.2.task_id < s.next_id
  run_le : ∀ ue ev, (ue, ev) ∈ s.log → ev.is_run = true →
    ∀ a ∈ s.queued_ids ue, ev.task_id ≤ a
  scheduled_kept : ∀ ue a, (ue, task_event.scheduled a) ∈ s.log →
    a ∈ s.queued_ids ue ∨ ∃ r, (ue, task_event.returned a r) ∈ s.log
  serialized : ∀ ue pre b call post,
    s.log = pre ++ (ue, task_event.peer_request b call) :: post →
    ∀ a, a < b → (ue, task_event.scheduled a) ∈ s.log →
      ∃ r, (ue, task_event.returned a r) ∈ pre
  run_sorted : s.log.Pairwise (fun e1 e2 => e1.1 = e2.1 → e1.2.is_run = true →
    e2.2.is_run = true → e1.2.task_id ≤ e2.2.task_id)
  scheduled_sorted : s.log.Pairwise (fun e1 e2 => e1.2.is_run = false →
    e2.2.is_run = false → e1.2.task_id < e2.2.task_id)

end ue_task_scheduler

/-- Two setup requests for UE 0 (the runs of `scenario_a` and of
`scenario_du_failure`) and one for UE 1, scheduled before any of them runs;
the loop of UE 1 is resumed between two resumptions of the loop of UE 0. -/
def two_setup_requests_for_one_ue : List scheduler_event :=
  [scheduler_event.schedule_async_task 0 scenario_a.run,
    scheduler_event.schedule_async_task 0 scenario_du_failure.run,
    scheduler_event.schedule_async_task 1 scenario_a.run] ++
  List.replicate 4 (scheduler_event.resume 0) ++ [scheduler_event.resume 1] ++
  List.replicate 6 (scheduler_event.resume 0)

/-! ## Further example inputs: answers of the DU, dynamic 5QI -/

/-- An F1AP notifier for the examples that answers every UE context
modification request with the given response. -/
def fixed_f1ap_ue_context_notifier (response : cu_cp_ue_context_modification_response) :
    du_processor_f1ap_ue_context_notifier :=
  { on_ue_context_modification_request := fun _ => response }

/-- A successful answer of the DU that lists DRB 1 with the downlink transport
info 50 and DRB 2 with the downlink transport infos 51 and 52. -/
def example_du_response : cu_cp_ue_context_modification_response :=
  { success := true
    drbs_setup_mod_list :=
      (({} : slotted_id_vector cu_cp_drbs_setup_modified_item).emplace 1
        { drb_id := 1, dl_up_tnl_info_to_be_setup_list := [{ dl_up_tnl_info := 50 }] }).emplace 2
        { drb_id := 2
          dl_up_tnl_info_to_be_setup_list := [{ dl_up_tnl_info := 51 }, { dl_up_tnl_info := 52 }] } }

/-- The request for session 3 over the DRB manager that plans no DRB, with a
CU-UP that lists no session in its successful bearer context setup response,
and a DU that answers the (empty) UE context modification request with
`example_du_response`. -/
def scenario_du_reports_drbs_without_session :
    pdu_session_resource_setup_routine example_drb_manager_state :=
  { scenario_no_planned_drb with
    f1ap_ue_ctxt_notifier := fixed_f1ap_ue_context_notifier example_du_response }

/-- The request for sessions 3 and 4 of `scenario_two_drbs`, with a DU that
answers the UE context modification request for DRB 1 and DRB 2 with
`example_du_response`. -/
def scenario_two_drbs_du_answers : pdu_session_resource_setup_routine example_drb_manager_state :=
  { scenario_two_drbs with
    f1ap_ue_ctxt_notifier := fixed_f1ap_ue_context_notifier example_du_response }

/-- A request for PDU session 1 with one QoS flow that has a dynamic 5QI
descriptor only, with the configured 5QI 9; every peer answers with success
and the CU-UP sets up session 1 with one DRB. -/
def configured_dynamic_5qi : pdu_session_resource_setup_routine example_drb_manager_state :=
  example_routine (example_setup_request [example_setup_item 1 [] [example_dyn_flow 1 (some 9)]])
    { five_qi_config := [9] } true { outcome := true, pdu_sessions_success_list := [1] } true
    { outcome := true } true

/-- The request of `scenario_two_drbs` for a UE with a user-plane security
context (NEA2, NIA1 and two keys), an aggregate maximum bit rate and a serving
PLMN; session 3 is of type `ipv4` with S-NSSAI 1 and uplink NG-U transport
info 70, session 4 of type `ipv6` with S-NSSAI 2 and transport info 71. -/
def scenario_with_security_context :
    pdu_session_resource_setup_routine example_drb_manager_state :=
  { scenario_two_drbs with
    security_cfg := { cipher_algo := 2, integ_algo := 1, k_up_enc := [1, 2], k_up_int := [3, 4] }
    setup_msg :=
      { example_setup_request
          [{ example_setup_item 3 [7] [example_non_dyn_flow 1 9] with
             s_nssai := 1, ul_ngu_up_tnl_info := 70, pdu_session_type := "ipv4" },
           { example_setup_item 4 [8] [example_non_dyn_flow 2 9] with
             s_nssai := 2, ul_ngu_up_tnl_info := 71, pdu_session_type := "ipv6" }] with
        ue_aggregate_maximum_bit_rate_dl := 1000
        serving_plmn := "00101" } }

/-- A DRB manager for the examples that plans a DRB for the first requested
PDU session only. -/
def first_session_drb_manager : drb_manager example_drb_manager_state :=
  { example_drb_manager with
    calculate_drb_to_add_list := fun st msg =>
      example_drb_manager.calculate_drb_to_add_list st
        { msg with
          pdu_session_res_setup_items :=
            { entries := msg.pdu_session_res_setup_items.entries.take 1 } } }

/-- A request for PDU sessions 3 and 4 for which a DRB is planned for session
3 only: the CU-UP sets up session 3 with one DRB and does not list session 4,
and every peer answers with success. -/
def scenario_partial_setup : pdu_session_resource_setup_routine example_drb_manager_state :=
  { example_routine
      (example_setup_request
        [example_setup_item 3 [7] [example_non_dyn_flow 1 9],
         example_setup_item 4 [8] [example_non_dyn_flow 2 9]])
      { five_qi_config := [9] } true { outcome := true, pdu_sessions_success_list := [3] } true
      { outcome := true } true with
    rrc_ue_drb_manager := first_session_drb_manager }

/-- A request for PDU sessions 1 and 2, while the configured 5QI is 9: the one
QoS flow of session 1 has the non-dynamic 5QI 9, and the one QoS flow of
session 2 has the non-dynamic 5QI 5. -/
def unconfigured_5qi_in_second_session :
    pdu_session_resource_setup_routine example_drb_manager_state :=
  example_routine
    (example_setup_request
      [example_setup_item 1 [] [example_non_dyn_flow 1 9],
       example_setup_item 2 [] [example_non_dyn_flow 1 5]])
    { five_qi_config := [9] } true { outcome := true, pdu_sessions_success_list := [1, 2] } true
    { outcome := true } true

/-- A request for PDU session 1 with one QoS flow that has a dynamic 5QI
descriptor only, which carries no 5QI value. -/
def dynamic_5qi_without_value : pdu_session_resource_setup_routine example_drb_manager_state :=
  example_routine (example_setup_request [example_setup_item 1 [] [example_dyn_flow 1 none]])
    { five_qi_config := [9] } true { outcome := true, pdu_sessions_success_list := [1] } true
    { outcome := true } true

end srs_cu_cp

/-! ## DU UE manager (`lib/du_manager/du_ue/du_ue_manager.h`, `du_ue_manager.cpp`)

The constants `MAX_NOF_DU_UES` and `INVALID_RNTI` of the header `du_types.h`
are arguments of the functions below, so that what is proved about them holds
for every value of the two. -/

namespace srs_du

abbrev du_ue_index_t := Nat

abbrev rnti_t := Nat

abbrev drb_id_t := Nat

abbrev lcid_t := Nat

abbrev up_transport_layer_info := Nat

/-- Test `is_du_ue_index_valid(ue_index)`: the index is below
`MAX_NOF_DU_UES`. -/
def is_du_ue_index_valid (MAX_NOF_DU_UES : Nat) (ue_index : du_ue_index_t) : Bool :=
  decide (ue_index < MAX_NOF_DU_UES)

/-- Of `du_ue_drb` (`du_bearer.h`) the data members; the RLC entity, the F1-U
bearer and the connector are left out. -/
structure du_ue_drb where
  drb_id : drb_id_t
  lcid : lcid_t := 0
  uluptnl_info_list : List up_transport_layer_info := []
  dluptnl_info_list : List up_transport_layer_info := []
  deriving DecidableEq, Repr

/-- Of `du_ue_bearer_manager` (`du_bearer.h`) the member `drbs_`, a `std::map`
from DRB id to DRB. -/
structure du_ue_bearer_manager where
  drbs_ : List (drb_id_t × du_ue_drb) := []
  deriving DecidableEq, Repr

namespace du_ue_bearer_manager

/-- The call `drbs().count(drb_id)`. -/
def drbs_count (b : du_ue_bearer_manager) (drb_id : drb_id_t) : Nat :=
  (b.drbs_.filter (fun e => e.1 == drb_id)).length

/-- The call `drbs().at(drb_id)`; `none` where `at` throws. -/
def drbs_at (b : du_ue_bearer_manager) (drb_id : drb_id_t) : Option du_ue_drb :=
  (b.drbs_.find? (fun e => e.1 == drb_id)).map (fun e => e.2)

/-- Method `add_drb(drb)`: the DRB is stored under its id, unless the map has
an element under that id already. -/
def add_drb (b : du_ue_bearer_manager) (drb : du_ue_drb) : du_ue_bearer_manager :=
  if b.drbs_count drb.drb_id > 0 then b else { drbs_ := b.drbs_ ++ [(drb.drb_id, drb)] }

end du_ue_bearer_manager

/-- Of the UE context `du_ue` the members that the UE manager and the UE
configuration procedure read. -/
structure du_ue where
  ue_index : du_ue_index_t
  rnti : rnti_t
  pcell_index : Nat := 0
  bearers : du_ue_bearer_manager := {}
  deriving DecidableEq, Repr

/-- The message `ul_ccch_indication_message`, which the UE manager passes on
to the UE creation procedure without reading it. -/
structure ul_ccch_indication_message where
  subpdu : List Nat := []
  deriving DecidableEq, Repr

/-- A task scheduled on the control loop of a UE: the UE creation procedure,
or the task that `remove_ue` schedules. -/
inductive du_ue_task where
  | ue_creation_procedure (ue_index : du_ue_index_t) (msg : ul_ccch_indication_message)
  | ue_removal (ue_index : du_ue_index_t)
  deriving DecidableEq, Repr

/-- The members of `du_ue_manager`: the UE database `ue_db` (an id table, one
context per UE index), the map `rnti_to_ue_index` (one UE index per RNTI), and
the array `ue_ctrl_loop` of task loops, each represented by the tasks in its
queue, oldest first, so that `empty()` is that the list is empty. -/
structure du_ue_manager where
  ue_db : List (du_ue_index_t × du_ue) := []
  rnti_to_ue_index : List (rnti_t × du_ue_index_t) := []
  ue_ctrl_loop : List (List du_ue_task) := []
  deriving DecidableEq, Repr

namespace du_ue_manager

/-- The constructor: a control loop for every UE index below
`MAX_NOF_DU_UES`. -/
def init (MAX_NOF_DU_UES : Nat) : du_ue_manager :=
  { ue_ctrl_loop := List.replicate MAX_NOF_DU_UES [] }

/-- The call `ue_db.contains(ue_index)`. -/
def ue_db_contains (s : du_ue_manager) (ue_index : du_ue_index_t) : Bool :=
  s.ue_db.any (fun e => e.1 == ue_index)

/-- The access `ue_db[ue_index]`; `none` where no context is stored under the
index. -/
def ue_db_find (s : du_ue_manager) (ue_index : du_ue_index_t) : Option du_ue :=
  (s.ue_db.find? (fun e => e.1 == ue_index)).map (fun e => e.2)

/-- The search of `handle_ue_create_request` for an unallocated UE index with
no pending events: whether index `i` is one. -/
def is_free (s : du_ue_manager) (i : Nat) : Bool :=
  !s.ue_db_contains i &&
    (match s.ue_ctrl_loop.get? i with
     | some loop => loop.isEmpty
     | none => false)

/-- The variable `ue_idx_candidate` of `handle_ue_create_request` after the
search loop: the first free index below `ue_ctrl_loop.size()`, and
`MAX_NOF_DU_UES` when the loop ends without a `break`. -/
def ue_idx_candidate (MAX_NOF_DU_UES : Nat) (s : du_ue_manager) : Nat :=
  match (List.range s.ue_ctrl_loop.length).find? (fun i => s.is_free i) with
  | some ue_index => ue_index
  | none => MAX_NOF_DU_UES

/-- Method `handle_ue_create_request(msg)`: the UE creation procedure is
scheduled on `ue_ctrl_loop[ue_idx_candidate]`. The result is `none` where the
array has no element at that index. -/
def handle_ue_create_request (MAX_NOF_DU_UES : Nat) (s : du_ue_manager)
    (msg : ul_ccch_indication_message) : Option du_ue_manager :=
  let ue_idx_candidate := s.ue_idx_candidate MAX_NOF_DU_UES
  match s.ue_ctrl_loop.get? ue_idx_candidate with
  | none => none
  | some loop =>
    some
      { s with
        ue_ctrl_loop :=
          s.ue_ctrl_loop.set ue_idx_candidate
            (loop ++ [du_ue_task.ue_creation_procedure ue_idx_candidate msg]) }

/-- Method `find_rnti(rnti)`. The outer `none` is where execution stops being
defined: `it->second` is read in the assertion before `it` is compared with
`end()`, and the assertion fails when the UE database has no context under
the index. The inner option is the pointer returned. -/
def find_rnti (s : du_ue_manager) (rnti : rnti_t) : Option (Option du_ue) :=
  match s.rnti_to_ue_index.find? (fun e => e.1 == rnti) with
  | none => none
  | some it => if s.ue_db_contains it.2 then some (s.ue_db_find it.2) else none

/-- Method `add_ue(ue_ctx)`: the pointer returned (`none` for `nullptr`) and
the members afterwards. -/
def add_ue (MAX_NOF_DU_UES : Nat) (INVALID_RNTI : rnti_t) (s : du_ue_manager)
    (ue_ctx : du_ue) : Option du_ue × du_ue_manager :=
  if !is_du_ue_index_valid MAX_NOF_DU_UES ue_ctx.ue_index || ue_ctx.rnti == INVALID_RNTI then
    (none, s)
  else if s.ue_db_contains ue_ctx.ue_index ||
      decide ((s.rnti_to_ue_index.filter (fun e => e.1 == ue_ctx.rnti)).length > 0) then
    (none, s)
  else
    (some ue_ctx,
      { s with
        ue_db := s.ue_db ++ [(ue_ctx.ue_index, ue_ctx)]
        rnti_to_ue_index := s.rnti_to_ue_index ++ [(ue_ctx.rnti, ue_ctx.ue_index)] })

/-- The task that `remove_ue(ue_index)` schedules, when it runs: `none` where
its assertion fails. -/
def ue_removal_task (s : du_ue_manager) (ue_index : du_ue_index_t) : Option du_ue_manager :=
  match s.ue_db_find ue_index with
  | none => none
  | some u =>
    some
      { s with
        rnti_to_ue_index := s.rnti_to_ue_index.filter (fun e => !(e.1 == u.rnti))
        ue_db := s.ue_db.filter (fun e => !(e.1 == ue_index)) }

end du_ue_manager

/-- What changes the UE store: a call of `add_ue`, or a run of the removal
task of a UE. -/
inductive ue_store_event where
  | add_ue (ue_ctx : du_ue)
  | ue_removal_task (ue_index : du_ue_index_t)
  deriving DecidableEq, Repr

namespace du_ue_manager

/-- Effect of one event on the UE store; `none` where the removal task fails
its assertion. -/
def handle (MAX_NOF_DU_UES : Nat) (INVALID_RNTI : rnti_t) (s : du_ue_manager) :
    ue_store_event → Option du_ue_manager
  | ue_store_event.add_ue ue_ctx => some (s.add_ue MAX_NOF_DU_UES INVALID_RNTI ue_ctx).2
  | ue_store_event.ue_removal_task ue_index => s.ue_removal_task ue_index

/-- The UE store after a sequence of events, oldest first, from the
constructed manager. -/
def after (MAX_NOF_DU_UES : Nat) (INVALID_RNTI : rnti_t) (events : List ue_store_event) :
    Option du_ue_manager :=
  events.foldl (fun s e => s.bind (fun s => s.handle MAX_NOF_DU_UES INVALID_RNTI e))
    (some (init MAX_NOF_DU_UES))

/-- The two indexes of the UE store describe the same UEs: each entry of the
RNTI map leads to a UE index of the database whose context has that RNTI,
each context of the database has exactly one entry in the RNTI map, and the
database holds one context per UE index, stored under its own index, and the
map one entry per RNTI. -/
structure indexes_consistent (s : du_ue_manager) : Prop where
  rnti_entry_has_ue : ∀ rnti ue_index, (rnti, ue_index) ∈ s.rnti_to_ue_index →
    ∃ u, (ue_index, u) ∈ s.ue_db ∧ u.rnti = rnti
  ue_has_one_rnti_entry : ∀ ue_index u, (ue_index, u) ∈ s.ue_db →
    s.rnti_to_ue_index.filter (fun e => e.2 == ue_index) = [(u.rnti, ue_index)]
  ue_under_own_index : ∀ ue_index u, (ue_index, u) ∈ s.ue_db → u.ue_index = ue_index
  ue_db_ids_distinct : (s.ue_db.map (fun e => e.1)).Nodup
  rntis_distinct : (s.rnti_to_ue_index.map (fun e => e.1)).Nodup

end du_ue_manager

/-- A manager for four UE indexes in which every index is taken: UEs 0 and 1
are in the database, and the loops of indexes 2 and 3 have a UE creation
procedure pending. -/
def full_du_ue_manager : du_ue_manager :=
  { ue_db := [(0, { ue_index := 0, rnti := 17921 }), (1, { ue_index := 1, rnti := 17922 })]
    rnti_to_ue_index := [(17921, 0), (17922, 1)]
    ue_ctrl_loop :=
      [[], [], [du_ue_task.ue_creation_procedure 2 {}], [du_ue_task.ue_creation_procedure 3 {}]] }

/-- A manager for four UE indexes with UE 0 in the database, a task pending on
the loop of index 1, and indexes 2 and 3 free. -/
def example_du_ue_manager : du_ue_manager :=
  { ue_db := [(0, { ue_index := 0, rnti := 17921 })]
    rnti_to_ue_index := [(17921, 0)]
    ue_ctrl_loop := [[], [du_ue_task.ue_removal 1], [], []] }

/-- Two UEs are added to the UE store, then the removal task of the first one
runs. -/
def example_ue_store_events : List ue_store_event :=
  [ue_store_event.add_ue { ue_index := 0, rnti := 17921 },
   ue_store_event.add_ue { ue_index := 1, rnti := 17922 },
   ue_store_event.ue_removal_task 0]

/-- The UE store that `example_ue_store_events` lead to, with four UE indexes:
UE 1 with its RNTI. -/
def example_ue_store : du_ue_manager :=
  { ue_db := [(1, { ue_index := 1, rnti := 17922 })]
    rnti_to_ue_index := [(17922, 1)]
    ue_ctrl_loop := [[], [], [], []] }

end srs_du

/-! ## UE configuration procedure of the DU (`ue_configuration_procedure.cpp`) -/

namespace srs_du

/-- Of `f1ap_drb_to_setup` the members the procedure reads. -/
structure f1ap_drb_to_setup where
  drb_id : drb_id_t
  uluptnl_info_list : List up_transport_layer_info := []
  deriving DecidableEq, Repr

/-- An element of `drbs_setup` in the response. -/
structure f1ap_drb_setup where
  drb_id : drb_id_t := 0
  dluptnl_info_list : List up_transport_layer_info := []
  deriving DecidableEq, Repr

/-- Of `f1ap_ue_context_update_request` the UE index and the DRBs to set
up. -/
structure f1ap_ue_context_update_request where
  ue_index : du_ue_index_t
  drbs_to_setup : List f1ap_drb_to_setup := []
  deriving DecidableEq, Repr

/-- Of `f1ap_ue_context_update_response` the result and the two DRB lists. -/
structure f1ap_ue_context_update_response where
  result : Bool := false
  drbs_setup : List f1ap_drb_setup := []
  drbs_failed_to_setup : List drb_id_t := []
  deriving DecidableEq, Repr

/-- Of `rlc_bearer_config` the logical channel id and the DRB id, which SRBs
do not have. -/
structure rlc_bearer_config where
  lcid : lcid_t
  drb_id : Option drb_id_t := none
  deriving DecidableEq, Repr

/-- The procedure object at the point where `update_ue_context` starts to
create the DU UE DRB objects (line 117): the request, the UE context, the RLC
bearers of the UE's resources, and the function `create_drb` of `du_bearer.h`,
whose result is `none` for a null pointer. -/
structure ue_configuration_procedure where
  request : f1ap_ue_context_update_request
  ue : du_ue
  rlc_bearers : List rlc_bearer_config := []
  create_drb : du_ue_index_t → Nat → drb_id_t → lcid_t → List up_transport_layer_info →
    Option du_ue_drb

namespace ue_configuration_procedure

/-- Body of the loop "Create DU UE DRB objects" of `update_ue_context` (lines
118-142), on the UE context: `none` where the assertion on the RLC
configuration fails. -/
def create_du_ue_drb (p : ue_configuration_procedure) (ue : du_ue)
    (drbtoadd : f1ap_drb_to_setup) : Option du_ue :=
  if drbtoadd.uluptnl_info_list.isEmpty then some ue
  else if ue.bearers.drbs_count drbtoadd.drb_id > 0 then some ue
  else
    match p.rlc_bearers.find? (fun e => e.drb_id == some drbtoadd.drb_id) with
    | none => none
    | some it =>
      match p.create_drb ue.ue_index ue.pcell_index drbtoadd.drb_id it.lcid
          drbtoadd.uluptnl_info_list with
      | none => some ue
      | some drb => some { ue with bearers := ue.bearers.add_drb drb }

/-- The loop "Create DU UE DRB objects" of `update_ue_context`: the UE context
afterwards. -/
def create_du_ue_drbs (p : ue_configuration_procedure) : Option du_ue :=
  p.request.drbs_to_setup.foldlM p.create_du_ue_drb p.ue

/-- Body of the loop of `make_ue_config_response` over the requested DRBs;
`none` where `drbs().at(drb_id)` throws. -/
def add_drb_to_response (ue : du_ue) (resp : f1ap_ue_context_update_response)
    (drb_req : f1ap_drb_to_setup) : Option f1ap_ue_context_update_response :=
  if ue.bearers.drbs_count drb_req.drb_id == 0 then
    some { resp with drbs_failed_to_setup := resp.drbs_failed_to_setup ++ [drb_req.drb_id] }
  else
    match ue.bearers.drbs_at drb_req.drb_id with
    | none => none
    | some drb_added =>
      some
        { resp with
          drbs_setup :=
            resp.drbs_setup ++
              [{ drb_id := drb_added.drb_id, dluptnl_info_list := drb_added.dluptnl_info_list }] }

/-- Method `make_ue_config_response()`, on the UE context as
`update_ue_context` left it: the result and the two DRB lists. -/
def make_ue_config_response (request : f1ap_ue_context_update_request) (ue : du_ue) :
    Option f1ap_ue_context_update_response :=
  request.drbs_to_setup.foldlM (add_drb_to_response ue) { result := true }

/-- The procedure from the creation of the DRB objects to its response. -/
def run (p : ue_configuration_procedure) : Option f1ap_ue_context_update_response :=
  p.create_du_ue_drbs.bind (fun ue => make_ue_config_response p.request ue)

end ue_configuration_procedure

/-- A `create_drb` for the examples that always creates the DRB, with the
downlink transport info 100 + the DRB id. -/
def example_create_drb : du_ue_index_t → Nat → drb_id_t → lcid_t →
    List up_transport_layer_info → Option du_ue_drb :=
  fun _ _ drb_id lcid uluptnl_info_list =>
    some
      { drb_id := drb_id
        lcid := lcid
        uluptnl_info_list := uluptnl_info_list
        dluptnl_info_list := [100 + drb_id] }

/-- UE 0 already has DRB 1 (uplink transport info 5, downlink 6), and the CU
asks to set up DRB 1 again, with uplink transport info 9, and DRB 2 with the
uplink transport info 10. -/
def drb_setup_for_existing_drb : ue_configuration_procedure :=
  { request :=
      { ue_index := 0
        drbs_to_setup :=
          [{ drb_id := 1, uluptnl_info_list := [9] }, { drb_id := 2, uluptnl_info_list := [10] }] }
    ue :=
      { ue_index := 0
        rnti := 17921
        bearers :=
          { drbs_ :=
              [(1, { drb_id := 1, lcid := 4, uluptnl_info_list := [5], dluptnl_info_list := [6] })] } }
    rlc_bearers := [{ lcid := 4, drb_id := some 1 }, { lcid := 5, drb_id := some 2 }]
    create_drb := example_create_drb }

/-- UE 0 has no DRB, and the CU asks to set up DRB 1 without uplink transport
info, DRB 2 with the uplink transport info 10, and DRB 3, which `create_drb`
does not create. -/
def drb_setup_with_failures : ue_configuration_procedure :=
  { request :=
      { ue_index := 0
        drbs_to_setup :=
          [{ drb_id := 1, uluptnl_info_list := [] }, { drb_id := 2, uluptnl_info_list := [10] },
           { drb_id := 3, uluptnl_info_list := [11] }] }
    ue := { ue_index := 0, rnti := 17921 }
    rlc_bearers :=
      [{ lcid := 4, drb_id := some 1 }, { lcid := 5, drb_id := some 2 },
       { lcid := 6, drb_id := some 3 }]
    create_drb := fun ue_index pcell_index drb_id lcid uluptnl_info_list =>
      if drb_id = 3 then none
      else example_create_drb ue_index pcell_index drb_id lcid uluptnl_info_list }

end srs_du

/-! ## DCI payload sizes (`lib/ran/pdcch/dci_packing.cpp`)

Sizes are of type `units::bits`, an unsigned number of bits, and the
configuration members are `unsigned`. A product of configuration members is
taken modulo `2 ^ 32`, and so is the subtraction that truncates a field; the
sums of field sizes are sums of numbers below 40 and are not reduced. An
`Option` result is `none` where an `srsran_assert` fails or `value()` is
called on an empty optional. -/

/-- Maximum number of resource blocks of a carrier (`MAX_RB` of the resource
block header). The theorems below hold for every value of it. -/
def MAX_RB : Nat := 275

/-- Maximum number of resource block groups per BWP. -/
def MAX_NOF_RBGS : Nat := 18

/-- The function `log2_ceil(value)` on 32-bit unsigned values: the least `n`
with `value ≤ 2 ^ n`. -/
def log2_ceil (value : Nat) : Nat :=
  ((List.range 32).find? (fun n => decide (value ≤ 2 ^ n))).getD 32

inductive resource_allocation where
  | resource_allocation_type_0
  | resource_allocation_type_1
  | dynamic_switch
  deriving DecidableEq, Repr

inductive dmrs_config_type where
  | type1
  | type2
  deriving DecidableEq, Repr

inductive dmrs_max_length where
  | len1
  | len2
  deriving DecidableEq, Repr

inductive pdsch_harq_ack_codebook where
  | semistatic
  | dynamic
  deriving DecidableEq, Repr

/-- The members of `dci_size_config` that `dci_packing.cpp` reads; `cb_subset`
is represented by the number of its enumerator. -/
structure dci_size_config where
  dci_0_0_and_1_0_ue_ss : Bool := false
  dci_0_1_and_1_1_ue_ss : Bool := false
  dl_bwp_initial_bw : Nat := 0
  dl_bwp_active_bw : Nat := 0
  ul_bwp_initial_bw : Nat := 0
  ul_bwp_active_bw : Nat := 0
  coreset0_bw : Nat := 0
  sul_configured : Bool := false
  cross_carrier_configured : Bool := false
  pdsch_harq_ack_cb : pdsch_harq_ack_codebook := pdsch_harq_ack_codebook.semistatic
  nof_ul_bwp_rrc : Nat := 0
  nof_ul_time_domain_res : Nat := 0
  report_trigger_size : Nat := 0
  frequency_hopping_configured : Bool := false
  tx_config_non_codebook : Bool := false
  ptrs_uplink_configured : Bool := false
  dynamic_beta_offsets : Bool := false
  transform_precoding_enabled : Bool := false
  pusch_res_allocation_type : resource_allocation :=
    resource_allocation.resource_allocation_type_1
  nof_ul_rb_groups : Option Nat := none
  pusch_dmrs_A_type : Option dmrs_config_type := none
  pusch_dmrs_A_max_len : Option dmrs_max_length := none
  pusch_dmrs_B_type : Option dmrs_config_type := none
  pusch_dmrs_B_max_len : Option dmrs_max_length := none
  max_rank : Option Nat := none
  nof_srs_ports : Option Nat := none
  cb_subset : Option Nat := none
  nof_srs_resources : Nat := 0
  pusch_max_layers : Option Nat := none
  dynamic_dual_harq_ack_cb : Option Bool := none
  max_cbg_tb_pusch : Option Nat := none
  nof_dl_bwp_rrc : Nat := 0
  nof_dl_time_domain_res : Nat := 0
  nof_aperiodic_zp_csi : Nat := 0
  nof_pdsch_ack_timings : Nat := 0
  dynamic_prb_bundling : Bool := false
  rm_pattern_group1 : Bool := false
  rm_pattern_group2 : Bool := false
  pdsch_two_codewords : Bool := false
  multiple_scells : Bool := false
  pdsch_tci : Bool := false
  cbg_flush_indicator : Bool := false
  pdsch_res_allocation_type : resource_allocation :=
    resource_allocation.resource_allocation_type_1
  nof_dl_rb_groups : Option Nat := none
  interleaved_vrb_prb_mapping : Option Bool := none
  pdsch_dmrs_A_type : Option dmrs_config_type := none
  pdsch_dmrs_A_max_len : Option dmrs_max_length := none
  pdsch_dmrs_B_type : Option dmrs_config_type := none
  pdsch_dmrs_B_max_len : Option dmrs_max_length := none
  max_cbg_tb_pdsch : Option Nat := none
  deriving DecidableEq, Repr

structure dci_0_0_size where
  total : Nat := 0
  frequency_resource : Nat := 0
  padding_incl_ul_sul : Nat := 0
  deriving DecidableEq, Repr

structure dci_1_0_size where
  total : Nat := 0
  frequency_resource : Nat := 0
  padding : Nat := 0
  deriving DecidableEq, Repr

structure dci_0_1_size where
  total : Nat := 0
  carrier_indicator : Nat := 0
  ul_sul_indicator : Nat := 0
  bwp_indicator : Nat := 0
  frequency_resource : Nat := 0
  time_resource : Nat := 0
  freq_hopping_flag : Nat := 0
  first_dl_assignment_idx : Nat := 0
  second_dl_assignment_idx : Nat := 0
  srs_resource_indicator : Nat := 0
  antenna_ports : Nat := 0
  srs_request : Nat := 0
  csi_request : Nat := 0
  cbg_transmission_info : Nat := 0
  beta_offset_indicator : Nat := 0
  dmrs_seq_initialization : Nat := 0
  padding : Nat := 0
  deriving DecidableEq, Repr

structure dci_1_1_size where
  total : Nat := 0
  carrier_indicator : Nat := 0
  bwp_indicator : Nat := 0
  frequency_resource : Nat := 0
  time_resource : Nat := 0
  vrb_prb_mapping : Nat := 0
  prb_bundling_size_indicator : Nat := 0
  rate_matching_indicator : Nat := 0
  zp_csi_rs_trigger : Nat := 0
  tb2_modulation_coding_scheme : Nat := 0
  tb2_new_data_indicator : Nat := 0
  tb2_redundancy_version : Nat := 0
  downlink_assignment_index : Nat := 0
  pdsch_harq_fb_timing_indicator : Nat := 0
  antenna_ports : Nat := 0
  tx_config_indication : Nat := 0
  srs_request : Nat := 0
  cbg_transmission_info : Nat := 0
  cbg_flushing_info : Nat := 0
  padding : Nat := 0
  deriving DecidableEq, Repr

structure dci_sizes where
  format0_0_common_size : dci_0_0_size := {}
  format1_0_common_size : dci_1_0_size := {}
  format0_0_ue_size : Option dci_0_0_size := none
  format1_0_ue_size : Option dci_1_0_size := none
  format0_1_ue_size : Option dci_0_1_size := none
  format1_1_ue_size : Option dci_1_1_size := none
  deriving DecidableEq, Repr

/-- Number of information bits before padding of a DCI format 0_0 message. -/
def dci_f0_0_bits_before_padding (N_rb_ul_bwp : Nat) : dci_0_0_size :=
  let frequency_resource := log2_ceil (N_rb_ul_bwp * (N_rb_ul_bwp + 1) % 2 ^ 32 / 2)
  { total := 1 + frequency_resource + 4 + 1 + 5 + 1 + 2 + 4 + 2
    frequency_resource := frequency_resource }

/-- Number of information bits before padding of a DCI format 1_0 message. -/
def dci_f1_0_bits_before_padding (N_rb_dl_bwp : Nat) : dci_1_0_size :=
  let frequency_resource := log2_ceil (N_rb_dl_bwp * (N_rb_dl_bwp + 1) % 2 ^ 32 / 2)
  { total := 28 + frequency_resource
    frequency_resource := frequency_resource }

/-- BWP indicator field size of the DCI formats 0_1 and 1_1. -/
def bwp_indicator_size (nof_bwp_rrc : Nat) : Option Nat :=
  if nof_bwp_rrc > 0 then
    let n_bwp := if nof_bwp_rrc ≤ 3 then nof_bwp_rrc + 1 else nof_bwp_rrc
    let bwp_ind_size := log2_ceil n_bwp
    if bwp_ind_size ≤ 2 then some bwp_ind_size else none
  else some 0

/-- Size of the frequency domain resource assignment field of the DCI formats
0_1 and 1_1. -/
def freq_resource_assignment_size (res_allocation_type : resource_allocation)
    (nof_rb_groups : Option Nat) (nof_prb_bwp : Nat) : Option Nat :=
  match res_allocation_type with
  | resource_allocation.resource_allocation_type_0 => nof_rb_groups
  | resource_allocation.resource_allocation_type_1 =>
    some (log2_ceil (nof_prb_bwp * (nof_prb_bwp + 1) % 2 ^ 32 / 2))
  | resource_allocation.dynamic_switch =>
    match nof_rb_groups with
    | none => none
    | some groups =>
      some (1 + max groups (log2_ceil (nof_prb_bwp * (nof_prb_bwp + 1) % 2 ^ 32 / 2)))

/-- UL antenna ports field size of one DM-RS configuration; `none` at
`srsran_assertion_failure`. -/
def ul_dmrs_ports_size (dmrs_type : dmrs_config_type) (dmrs_len : dmrs_max_length)
    (transform_precoding : Bool) : Option Nat :=
  if transform_precoding && dmrs_type == dmrs_config_type.type1 &&
      dmrs_len == dmrs_max_length.len1 then some 2
  else if transform_precoding && dmrs_type == dmrs_config_type.type1 &&
      dmrs_len == dmrs_max_length.len2 then some 4
  else if !transform_precoding && dmrs_type == dmrs_config_type.type1 &&
      dmrs_len == dmrs_max_length.len1 then some 3
  else if !transform_precoding && dmrs_type == dmrs_config_type.type1 &&
      dmrs_len == dmrs_max_length.len2 then some 4
  else if !transform_precoding && dmrs_type == dmrs_config_type.type2 &&
      dmrs_len == dmrs_max_length.len1 then some 4
  else if !transform_precoding && dmrs_type == dmrs_config_type.type2 &&
      dmrs_len == dmrs_max_length.len2 then some 5
  else none

/-- DL antenna ports field size of one DM-RS configuration. -/
def dl_dmrs_ports_size (dmrs_type : dmrs_config_type) (dmrs_len : dmrs_max_length) : Nat :=
  4 + (if dmrs_type == dmrs_config_type.type2 then 1 else 0) +
    (if dmrs_len == dmrs_max_length.len2 then 1 else 0)

/-- Antenna ports field size of the DCI format 0_1. -/
def ul_ports_size (dmrs_A_type : Option dmrs_config_type)
    (dmrs_A_max_len : Option dmrs_max_length) (dmrs_B_type : Option dmrs_config_type)
    (dmrs_B_max_len : Option dmrs_max_length) (transform_precoding_enabled : Bool) :
    Option Nat :=
  let pusch_dmrs_A_ports_size : Option Nat :=
    match dmrs_A_type, dmrs_A_max_len with
    | some t, some l => ul_dmrs_ports_size t l transform_precoding_enabled
    | _, _ => some 0
  let pusch_dmrs_B_ports_size : Option Nat :=
    match dmrs_B_type, dmrs_B_max_len with
    | some t, some l => ul_dmrs_ports_size t l transform_precoding_enabled
    | _, _ => some 0
  match pusch_dmrs_A_ports_size, pusch_dmrs_B_ports_size with
  | some a, some b => some (max a b)
  | _, _ => none

/-- Antenna ports field size of the DCI format 1_1. -/
def dl_ports_size (dmrs_A_type : Option dmrs_config_type)
    (dmrs_A_max_len : Option dmrs_max_length) (dmrs_B_type : Option dmrs_config_type)
    (dmrs_B_max_len : Option dmrs_max_length) : Nat :=
  let pdsch_dmrs_A_ports_size :=
    match dmrs_A_type, dmrs_A_max_len with
    | some t, some l => dl_dmrs_ports_size t l
    | _, _ => 0
  let pdsch_dmrs_B_ports_size :=
    match dmrs_B_type, dmrs_B_max_len with
    | some t, some l => dl_dmrs_ports_size t l
    | _, _ => 0
  max pdsch_dmrs_A_ports_size pdsch_dmrs_B_ports_size

/-- SRS resource indicator field size of the DCI format 0_1. -/
def srs_resource_indicator_size (dci_config : dci_size_config) : Nat :=
  if dci_config.tx_config_non_codebook then
    if dci_config.nof_srs_resources = 1 then 0
    else if dci_config.nof_srs_resources = 2 then 1
    else 2
  else log2_ceil dci_config.nof_srs_resources

/-- Number of information bits before padding of a DCI format 0_1 message. -/
def dci_f0_1_bits_before_padding (dci_config : dci_size_config) : Option dci_0_1_size := do
  let carrier_indicator := if dci_config.cross_carrier_configured then 3 else 0
  let ul_sul_indicator := if dci_config.sul_configured then 1 else 0
  let bwp_indicator ← bwp_indicator_size dci_config.nof_ul_bwp_rrc
  let frequency_resource ←
    freq_resource_assignment_size dci_config.pusch_res_allocation_type
      dci_config.nof_ul_rb_groups dci_config.ul_bwp_active_bw
  let time_resource := log2_ceil dci_config.nof_ul_time_domain_res
  let freq_hopping_flag :=
    if dci_config.pusch_res_allocation_type ≠ resource_allocation.resource_allocation_type_0 ∧
        dci_config.frequency_hopping_configured = true then 1
    else 0
  let first_dl_assignment_idx :=
    if dci_config.pdsch_harq_ack_cb = pdsch_harq_ack_codebook.dynamic then 2 else 1
  let second_dl_assignment_idx ←
    if dci_config.pdsch_harq_ack_cb = pdsch_harq_ack_codebook.dynamic then
      dci_config.dynamic_dual_harq_ack_cb.map (fun dual => if dual then 2 else 0)
    else some 0
  let srs_resource_indicator := srs_resource_indicator_size dci_config
  let antenna_ports ←
    ul_ports_size dci_config.pusch_dmrs_A_type dci_config.pusch_dmrs_A_max_len
      dci_config.pusch_dmrs_B_type dci_config.pusch_dmrs_B_max_len
      dci_config.transform_precoding_enabled
  let srs_request := if dci_config.sul_configured then 3 else 2
  let csi_request := dci_config.report_trigger_size
  let cbg_transmission_info := dci_config.max_cbg_tb_pusch.getD 0
  let beta_offset_indicator := if dci_config.dynamic_beta_offsets then 2 else 0
  let dmrs_seq_initialization := if dci_config.transform_precoding_enabled then 0 else 1
  pure
    { total :=
        1 + carrier_indicator + ul_sul_indicator + bwp_indicator + frequency_resource +
          time_resource + freq_hopping_flag + 5 + 1 + 2 + 4 + first_dl_assignment_idx +
          second_dl_assignment_idx + 2 + srs_resource_indicator + antenna_ports + srs_request +
          csi_request + cbg_transmission_info + beta_offset_indicator +
          dmrs_seq_initialization + 1
      carrier_indicator := carrier_indicator
      ul_sul_indicator := ul_sul_indicator
      bwp_indicator := bwp_indicator
      frequency_resource := frequency_resource
      time_resource := time_resource
      freq_hopping_flag := freq_hopping_flag
      first_dl_assignment_idx := first_dl_assignment_idx
      second_dl_assignment_idx := second_dl_assignment_idx
      srs_resource_indicator := srs_resource_indicator
      antenna_ports := antenna_ports
      srs_request := srs_request
      csi_request := csi_request
      cbg_transmission_info := cbg_transmission_info
      beta_offset_indicator := beta_offset_indicator
      dmrs_seq_initialization := dmrs_seq_initialization }

/-- Number of information bits before padding of a DCI format 1_1 message.
The flag `interleaved_vrb_prb_mapping` is an optional in a boolean context:
what counts is that it has a value. -/
def dci_f1_1_bits_before_padding (dci_config : dci_size_config) : Option dci_1_1_size := do
  let carrier_indicator := if dci_config.cross_carrier_configured then 3 else 0
  let bwp_indicator ← bwp_indicator_size dci_config.nof_dl_bwp_rrc
  let frequency_resource ←
    freq_resource_assignment_size dci_config.pdsch_res_allocation_type
      dci_config.nof_dl_rb_groups dci_config.dl_bwp_active_bw
  let time_resource := log2_ceil dci_config.nof_dl_time_domain_res
  let vrb_prb_mapping :=
    if dci_config.pdsch_res_allocation_type ≠ resource_allocation.resource_allocation_type_0 ∧
        dci_config.interleaved_vrb_prb_mapping.isSome = true then 1
    else 0
  let prb_bundling_size_indicator := if dci_config.dynamic_prb_bundling then 1 else 0
  let rate_matching_indicator :=
    (if dci_config.rm_pattern_group1 then 1 else 0) +
      (if dci_config.rm_pattern_group2 then 1 else 0)
  let zp_csi_rs_trigger := log2_ceil ((dci_config.nof_aperiodic_zp_csi + 1) % 2 ^ 32)
  let tb2_modulation_coding_scheme := if dci_config.pdsch_two_codewords then 5 else 0
  let tb2_new_data_indicator := if dci_config.pdsch_two_codewords then 1 else 0
  let tb2_redundancy_version := if dci_config.pdsch_two_codewords then 2 else 0
  let downlink_assignment_index :=
    if dci_config.pdsch_harq_ack_cb = pdsch_harq_ack_codebook.dynamic then
      (if dci_config.multiple_scells then 4 else 2)
    else 0
  let pdsch_harq_fb_timing_indicator := log2_ceil dci_config.nof_pdsch_ack_timings
  let antenna_ports :=
    dl_ports_size dci_config.pdsch_dmrs_A_type dci_config.pdsch_dmrs_A_max_len
      dci_config.pdsch_dmrs_B_type dci_config.pdsch_dmrs_B_max_len
  let tx_config_indication := if dci_config.pdsch_tci then 3 else 0
  let srs_request := if dci_config.sul_configured then 3 else 2
  let cbg_transmission_info := dci_config.max_cbg_tb_pdsch.getD 0
  let cbg_flushing_info := if dci_config.cbg_flush_indicator then 1 else 0
  pure
    { total :=
        1 + carrier_indicator + bwp_indicator + frequency_resource + time_resource +
          vrb_prb_mapping + prb_bundling_size_indicator + rate_matching_indicator +
          zp_csi_rs_trigger + 5 + 1 + 2 + tb2_modulation_coding_scheme +
          tb2_new_data_indicator + tb2_redundancy_version + 4 + downlink_assignment_index + 2 +
          3 + pdsch_harq_fb_timing_indicator + antenna_ports + tx_config_indication +
          srs_request + cbg_transmission_info + cbg_flushing_info + 1
      carrier_indicator := carrier_indicator
      bwp_indicator := bwp_indicator
      frequency_resource := frequency_resource
      time_resource := time_resource
      vrb_prb_mapping := vrb_prb_mapping
      prb_bundling_size_indicator := prb_bundling_size_indicator
      rate_matching_indicator := rate_matching_indicator
      zp_csi_rs_trigger := zp_csi_rs_trigger
      tb2_modulation_coding_scheme := tb2_modulation_coding_scheme
      tb2_new_data_indicator := tb2_new_data_indicator
      tb2_redundancy_version := tb2_redundancy_version
      downlink_assignment_index := downlink_assignment_index
      pdsch_harq_fb_timing_indicator := pdsch_harq_fb_timing_indicator
      antenna_ports := antenna_ports
      tx_config_indication := tx_config_indication
      srs_request := srs_request
      cbg_transmission_info := cbg_transmission_info
      cbg_flushing_info := cbg_flushing_info }

/-- A value is one of the maximum numbers of CBGs per TB: 2, 4, 6 or 8. -/
def valid_max_cbg (value : Nat) : Bool :=
  value == 2 || value == 4 || value == 6 || value == 8

/-- The assertions of `assert_dci_size_config` "for all DCI formats". -/
def assert_all_formats (config : dci_size_config) : Bool :=
  (decide (config.dl_bwp_initial_bw > 0) && decide (config.dl_bwp_initial_bw ≤ MAX_RB)) &&
  (decide (config.ul_bwp_initial_bw > 0) && decide (config.ul_bwp_initial_bw ≤ MAX_RB)) &&
  decide (config.coreset0_bw ≤ MAX_RB) &&
  !config.sul_configured

/-- The assertions of `assert_dci_size_config` "for fallback DCI formats on a
UE-specific search space". -/
def assert_fallback_ue_ss (config : dci_size_config) : Bool :=
  (decide (config.dl_bwp_active_bw > 0) && decide (config.dl_bwp_active_bw ≤ MAX_RB)) &&
  (decide (config.ul_bwp_active_bw > 0) && decide (config.ul_bwp_active_bw ≤ MAX_RB))

/-- The assertions of `assert_dci_size_config` on the number of RBGs, made
when the resource allocation type is not type 1. -/
def assert_rb_groups (res_allocation_type : resource_allocation)
    (nof_rb_groups : Option Nat) : Bool :=
  if res_allocation_type ≠ resource_allocation.resource_allocation_type_1 then
    match nof_rb_groups with
    | none => false
    | some groups => decide (groups > 0) && decide (groups ≤ MAX_NOF_RBGS)
  else true

/-- The assertions of `assert_dci_size_config` "for non-codebook based
transmission" and "for codebook-based transmission". -/
def assert_tx_config (config : dci_size_config) : Bool :=
  if config.tx_config_non_codebook then
    match config.pusch_max_layers with
    | none => false
    | some pusch_max_layers =>
      (decide (pusch_max_layers > 0) && decide (pusch_max_layers ≤ 4)) &&
      (decide (config.nof_srs_resources > 0) && decide (config.nof_srs_resources ≤ 4)) &&
      pusch_max_layers == 1
  else
    match config.max_rank with
    | none => false
    | some max_rank =>
      (decide (max_rank > 0) && decide (max_rank ≤ 4)) &&
      (match config.nof_srs_ports with
       | none => false
       | some nof_srs_ports =>
         (nof_srs_ports == 1 || nof_srs_ports == 2 || nof_srs_ports == 4) &&
         decide (max_rank ≤ nof_srs_ports) &&
         (decide (config.nof_srs_resources > 0) && decide (config.nof_srs_resources ≤ 2)) &&
         (nof_srs_ports == 1 || config.cb_subset.isSome) &&
         nof_srs_ports == 1)

/-- The assertion of `assert_dci_size_config` on PT-RS; `max_rank.value()` is
read when PT-RS is configured without transform precoding and the
transmission is codebook based. -/
def assert_ptrs (config : dci_size_config) : Bool :=
  !config.ptrs_uplink_configured || config.transform_precoding_enabled ||
    (!config.tx_config_non_codebook &&
      (match config.max_rank with
       | none => false
       | some max_rank => max_rank == 1))

/-- The assertions of `assert_dci_size_config` "for non-fallback DCI
formats". -/
def assert_non_fallback (config : dci_size_config) : Bool :=
  decide (config.nof_ul_bwp_rrc ≤ 4) &&
  decide (config.nof_dl_bwp_rrc ≤ 4) &&
  (decide (config.nof_ul_time_domain_res > 0) && decide (config.nof_ul_time_domain_res ≤ 16)) &&
  (decide (config.nof_dl_time_domain_res > 0) && decide (config.nof_dl_time_domain_res ≤ 16)) &&
  decide (config.nof_aperiodic_zp_csi ≤ 3) &&
  (decide (config.nof_pdsch_ack_timings > 0) && decide (config.nof_pdsch_ack_timings ≤ 8)) &&
  decide (config.report_trigger_size ≤ 6) &&
  (match config.max_cbg_tb_pusch with
   | none => true
   | some value => valid_max_cbg value) &&
  (match config.max_cbg_tb_pdsch with
   | none => true
   | some value => valid_max_cbg value) &&
  (!config.transform_precoding_enabled || !config.pusch_dmrs_A_type.isSome ||
    config.pusch_dmrs_A_type != some dmrs_config_type.type2) &&
  (!config.transform_precoding_enabled || !config.pusch_dmrs_B_type.isSome ||
    config.pusch_dmrs_B_type != some dmrs_config_type.type2) &&
  (config.pdsch_harq_ack_cb != pdsch_harq_ack_codebook.dynamic ||
    config.dynamic_dual_harq_ack_cb.isSome) &&
  assert_rb_groups config.pusch_res_allocation_type config.nof_ul_rb_groups &&
  assert_rb_groups config.pdsch_res_allocation_type config.nof_dl_rb_groups &&
  (config.pdsch_res_allocation_type == resource_allocation.resource_allocation_type_0 ||
    config.interleaved_vrb_prb_mapping.isSome) &&
  assert_tx_config config &&
  assert_ptrs config &&
  ((config.pusch_dmrs_A_type.isSome && config.pusch_dmrs_A_max_len.isSome) ||
    (config.pusch_dmrs_B_type.isSome && config.pusch_dmrs_B_max_len.isSome)) &&
  ((config.pdsch_dmrs_A_type.isSome && config.pdsch_dmrs_A_max_len.isSome) ||
    (config.pdsch_dmrs_B_type.isSome && config.pdsch_dmrs_B_max_len.isSome))

/-- The function `assert_dci_size_config`: whether every assertion holds. -/
def assert_dci_size_config (config : dci_size_config) : Bool :=
  assert_all_formats config &&
  (if config.dci_0_0_and_1_0_ue_ss then assert_fallback_ue_ss config else true) &&
  (if config.dci_0_1_and_1_1_ue_ss then assert_non_fallback config else true)

/-- The variable `nof_truncated_bits` of Step 0 of `get_dci_sizes`: the number
of bits by which the frequency domain resource assignment field of the format
0_0 of the common search space is truncated; 0 when the branch is not
taken. -/
def format0_0_common_truncated_bits (config : dci_size_config) : Nat :=
  let format0_0_info_bits_common := dci_f0_0_bits_before_padding config.ul_bwp_initial_bw
  let format1_0_info_bits_common :=
    dci_f1_0_bits_before_padding
      (if config.coreset0_bw ≠ 0 then config.coreset0_bw else config.dl_bwp_initial_bw)
  if format0_0_info_bits_common.total < format1_0_info_bits_common.total then 0
  else if format0_0_info_bits_common.total > format1_0_info_bits_common.total then
    format0_0_info_bits_common.total - format1_0_info_bits_common.total
  else 0

/-- Step 0 of `get_dci_sizes`, for the format 0_0 of the common search space:
padding up to the size of the format 1_0, or truncation of the frequency
domain resource assignment field down to it. -/
def format0_0_common_size (config : dci_size_config) : dci_0_0_size :=
  let format0_0_info_bits_common := dci_f0_0_bits_before_padding config.ul_bwp_initial_bw
  let format1_0_info_bits_common :=
    dci_f1_0_bits_before_padding
      (if config.coreset0_bw ≠ 0 then config.coreset0_bw else config.dl_bwp_initial_bw)
  if format0_0_info_bits_common.total < format1_0_info_bits_common.total then
    let padding_incl_ul_sul :=
      format1_0_info_bits_common.total - format0_0_info_bits_common.total
    { format0_0_info_bits_common with
      padding_incl_ul_sul := padding_incl_ul_sul
      total := format0_0_info_bits_common.total + padding_incl_ul_sul }
  else if format0_0_info_bits_common.total > format1_0_info_bits_common.total then
    let nof_truncated_bits :=
      format0_0_info_bits_common.total - format1_0_info_bits_common.total
    { format0_0_info_bits_common with
      frequency_resource :=
        (format0_0_info_bits_common.frequency_resource + 2 ^ 32 - nof_truncated_bits) % 2 ^ 32
      total := format0_0_info_bits_common.total - nof_truncated_bits }
  else format0_0_info_bits_common

/-- Step 1 of `get_dci_sizes`: the fallback formats of the UE-specific search
space, the smaller one padded to the size of the larger one. -/
def fallback_ue_sizes (config : dci_size_config) : dci_0_0_size × dci_1_0_size :=
  let format0_0_info_bits_ue := dci_f0_0_bits_before_padding config.ul_bwp_active_bw
  let format1_0_info_bits_ue := dci_f1_0_bits_before_padding config.dl_bwp_active_bw
  if format0_0_info_bits_ue.total < format1_0_info_bits_ue.total then
    let nof_padding_bits_incl_ul_sul :=
      format1_0_info_bits_ue.total - format0_0_info_bits_ue.total
    ({ format0_0_info_bits_ue with
        padding_incl_ul_sul := nof_padding_bits_incl_ul_sul
        total := format0_0_info_bits_ue.total + nof_padding_bits_incl_ul_sul },
      format1_0_info_bits_ue)
  else if format1_0_info_bits_ue.total < format0_0_info_bits_ue.total then
    let nof_padding_bits := format0_0_info_bits_ue.total - format1_0_info_bits_ue.total
    (format0_0_info_bits_ue,
      { format1_0_info_bits_ue with
        padding := nof_padding_bits
        total := format1_0_info_bits_ue.total + nof_padding_bits })
  else (format0_0_info_bits_ue, format1_0_info_bits_ue)

/-- The function `get_dci_sizes`; `none` where an assertion fails or an empty
optional is read. -/
def get_dci_sizes (config : dci_size_config) : Option dci_sizes := do
  if assert_dci_size_config config = false then none
  -- Step 0.
  let final_sizes : dci_sizes :=
    { format0_0_common_size := format0_0_common_size config
      format1_0_common_size :=
        dci_f1_0_bits_before_padding
          (if config.coreset0_bw ≠ 0 then config.coreset0_bw else config.dl_bwp_initial_bw) }
  if final_sizes.format1_0_common_size.total ≠ final_sizes.format0_0_common_size.total then none
  -- Step 1.
  let final_sizes ←
    if config.dci_0_0_and_1_0_ue_ss then
      let ue_sizes := fallback_ue_sizes config
      if ue_sizes.2.total ≠ ue_sizes.1.total then none
      else
        some
          { final_sizes with
            format0_0_ue_size := some ue_sizes.1
            format1_0_ue_size := some ue_sizes.2 }
    else some final_sizes
  -- Step 2.
  let final_sizes ←
    if config.dci_0_1_and_1_1_ue_ss then do
      let format0_1_ue_size ← dci_f0_1_bits_before_padding config
      let format1_1_ue_size ← dci_f1_1_bits_before_padding config
      let format0_1_ue_size ←
        if config.dci_0_0_and_1_0_ue_ss then
          final_sizes.format0_0_ue_size.map
            (fun format0_0_ue_size =>
              if format0_1_ue_size.total = format0_0_ue_size.total then
                { format0_1_ue_size with padding := 1, total := format0_1_ue_size.total + 1 }
              else format0_1_ue_size)
        else some format0_1_ue_size
      let format1_1_ue_size ←
        if config.dci_0_0_and_1_0_ue_ss then
          final_sizes.format1_0_ue_size.map
            (fun format1_0_ue_size =>
              if format1_1_ue_size.total = format1_0_ue_size.total then
                { format1_1_ue_size with padding := 1, total := format1_1_ue_size.total + 1 }
              else format1_1_ue_size)
        else some format1_1_ue_size
      some
        { final_sizes with
          format0_1_ue_size := some format0_1_ue_size
          format1_1_ue_size := some format1_1_ue_size }
    else some final_sizes
  -- Step 3.
  let unique_dci_sizes : List Nat :=
    ([final_sizes.format0_0_common_size.total] ++
      (if config.dci_0_0_and_1_0_ue_ss then
        (final_sizes.format0_0_ue_size.map (fun s => s.total)).toList
       else []) ++
      (if config.dci_0_1_and_1_1_ue_ss then
        (final_sizes.format0_1_ue_size.map (fun s => s.total)).toList ++
          (final_sizes.format1_1_ue_size.map (fun s => s.total)).toList
       else [])).dedup
  let nof_c_rnti_dci_sizes := unique_dci_sizes.length
  -- Step 4.
  if nof_c_rnti_dci_sizes > 3 then
    some
      { final_sizes with
        format0_0_ue_size := some final_sizes.format0_0_common_size
        format1_0_ue_size := some final_sizes.format1_0_common_size }
  else some final_sizes

/-- The checks of `validate_dci_size_config` that come after the one on the
transmission configuration: PT-RS, DM-RS mappings and maximum numbers of CBGs.
Where `max_rank.value()` is read the transmission is codebook based and
`max_rank` has a value. -/
def validate_after_tx_config (config : dci_size_config) : Bool :=
  if config.ptrs_uplink_configured && !config.transform_precoding_enabled &&
      (config.tx_config_non_codebook ||
        (match config.max_rank with
         | none => false
         | some max_rank => decide (max_rank > 1))) then false
  else if (!config.pusch_dmrs_A_type.isSome || !config.pusch_dmrs_A_max_len.isSome) &&
      (!config.pusch_dmrs_B_type.isSome || !config.pusch_dmrs_B_max_len.isSome) then false
  else if (!config.pdsch_dmrs_A_type.isSome || !config.pdsch_dmrs_A_max_len.isSome) &&
      (!config.pdsch_dmrs_B_type.isSome || !config.pdsch_dmrs_B_max_len.isSome) then false
  else if (match config.max_cbg_tb_pusch with
      | none => false
      | some value => !valid_max_cbg value) then false
  else if (match config.max_cbg_tb_pdsch with
      | none => false
      | some value => !valid_max_cbg value) then false
  else true

/-- The checks of `validate_dci_size_config` "for non-codebook based
transmission" and "for codebook based transmission", and what follows
them. -/
def validate_tx_config (config : dci_size_config) : Bool :=
  if config.tx_config_non_codebook then
    if (match config.pusch_max_layers with
        | none => true
        | some pusch_max_layers => pusch_max_layers != 1) then false
    else if config.nof_srs_resources == 0 || decide (config.nof_srs_resources > 4) then false
    else validate_after_tx_config config
  else
    match config.max_rank with
    | none => false
    | some max_rank =>
      if max_rank == 0 || decide (max_rank > 4) then false
      else
        match config.nof_srs_ports with
        | none => false
        | some nof_srs_ports =>
          if config.nof_srs_resources == 0 || decide (config.nof_srs_resources > 2) then false
          else if max_rank > nof_srs_ports then false
          else if nof_srs_ports = 1 then validate_after_tx_config config
          else false

/-- The checks of `validate_dci_size_config` on a number of RBGs, made when
the resource allocation type is not type 1: whether they pass. -/
def validate_rb_groups (res_allocation_type : resource_allocation)
    (nof_rb_groups : Option Nat) : Bool :=
  if res_allocation_type ≠ resource_allocation.resource_allocation_type_1 then
    match nof_rb_groups with
    | none => false
    | some groups => !(decide (groups > MAX_NOF_RBGS) || groups == 0)
  else true

/-- The checks of `validate_dci_size_config` "pertaining to non-fallback DCI
formats". -/
def validate_non_fallback (config : dci_size_config) : Bool :=
  if decide (config.nof_ul_bwp_rrc > 4) || decide (config.nof_dl_bwp_rrc > 4) then false
  else if config.nof_ul_time_domain_res == 0 || decide (config.nof_ul_time_domain_res > 16)
    then false
  else if config.nof_dl_time_domain_res == 0 || decide (config.nof_dl_time_domain_res > 16)
    then false
  else if config.report_trigger_size > 6 then false
  else if config.nof_aperiodic_zp_csi > 3 then false
  else if config.nof_pdsch_ack_timings == 0 || decide (config.nof_pdsch_ack_timings > 8)
    then false
  else if config.transform_precoding_enabled &&
      (config.pusch_dmrs_A_type.isSome &&
        config.pusch_dmrs_A_type == some dmrs_config_type.type2) then false
  else if config.transform_precoding_enabled &&
      (config.pusch_dmrs_B_type.isSome &&
        config.pusch_dmrs_B_type == some dmrs_config_type.type2) then false
  else if config.pdsch_harq_ack_cb == pdsch_harq_ack_codebook.dynamic &&
      !config.dynamic_dual_harq_ack_cb.isSome then false
  else if !validate_rb_groups config.pusch_res_allocation_type config.nof_ul_rb_groups
    then false
  else if !validate_rb_groups config.pdsch_res_allocation_type config.nof_dl_rb_groups
    then false
  else if config.pdsch_res_allocation_type != resource_allocation.resource_allocation_type_0 &&
      !config.interleaved_vrb_prb_mapping.isSome then false
  else validate_tx_config config

/-- The function `validate_dci_size_config`. -/
def validate_dci_size_config (config : dci_size_config) : Bool :=
  if decide (config.dl_bwp_initial_bw > MAX_RB) || decide (config.ul_bwp_initial_bw > MAX_RB) ||
      decide (config.coreset0_bw > MAX_RB) then false
  else if config.dl_bwp_initial_bw == 0 || config.ul_bwp_initial_bw == 0 then false
  else if config.sul_configured then false
  else if (config.dci_0_0_and_1_0_ue_ss || config.dci_0_1_and_1_1_ue_ss) &&
      (config.dl_bwp_active_bw == 0 || decide (config.dl_bwp_active_bw > MAX_RB) ||
        config.ul_bwp_active_bw == 0 || decide (config.ul_bwp_active_bw > MAX_RB)) then false
  else if config.dci_0_1_and_1_1_ue_ss then validate_non_fallback config
  else true

/-- A configuration with an initial UL BWP of 275 resource blocks and an
initial DL BWP of 11, without CORESET 0, and fallback formats in a UE-specific
search space with active BWPs of 52 and 106 resource blocks: the format 0_0 of
the common search space has more bits than the format 1_0. -/
def wide_uplink_dci_size_config : dci_size_config :=
  { dci_0_0_and_1_0_ue_ss := true
    dl_bwp_initial_bw := 11
    ul_bwp_initial_bw := 275
    dl_bwp_active_bw := 106
    ul_bwp_active_bw := 52 }

/-- The fallback configuration `wide_uplink_dci_size_config` with the
non-fallback formats as well: codebook based transmission with one SRS port
and rank 1, DM-RS type 1 of length 1 on mapping type A in both directions,
resource allocation type 1. -/
def non_fallback_dci_size_config : dci_size_config :=
  { wide_uplink_dci_size_config with
    dci_0_1_and_1_1_ue_ss := true
    nof_ul_bwp_rrc := 1
    nof_dl_bwp_rrc := 1
    nof_ul_time_domain_res := 16
    nof_dl_time_domain_res := 16
    nof_pdsch_ack_timings := 8
    max_rank := some 1
    nof_srs_ports := some 1
    nof_srs_resources := 1
    interleaved_vrb_prb_mapping := some false
    pusch_dmrs_A_type := some dmrs_config_type.type1
    pusch_dmrs_A_max_len := some dmrs_max_length.len1
    pdsch_dmrs_A_type := some dmrs_config_type.type1
    pdsch_dmrs_A_max_len := some dmrs_max_length.len1 }

namespace srs_cu_cp

/-! ## Theorems: identifier allocator -/

/-- On `uint16_t` arguments the index arithmetic of `generate_ue_index` is
exact: no conversion in it truncates. -/
theorem generate_ue_index_eq (du slot : Nat) (hdu : du < 2 ^ 16) (hs : slot < 2 ^ 16) :
    generate_ue_index du slot = du * 1024 + slot := by
  unfold generate_ue_index uint_to_ue_index du_index_to_uint MAX_NOF_UES_PER_DU
  rw [Nat.mod_eq_of_lt hdu, Nat.mod_eq_of_lt hs]
  apply Nat.mod_eq_of_lt
  omega

/-- On a UE index other than the sentinel and below `2 ^ 26`,
`get_du_index_from_ue_index` is the integer quotient by `MAX_NOF_UES_PER_DU`. -/
theorem get_du_index_from_ue_index_eq (ue : Nat) (hne : ue ≠ 2048) (hlt : ue < 2 ^ 26) :
    get_du_index_from_ue_index ue = ue / 1024 := by
  unfold get_du_index_from_ue_index uint_to_du_index ue_index_to_uint
  have hne2 : ¬ (ue = ue_index_t.invalid) := hne
  rw [if_neg hne2]
  have h2 : ue % 2 ^ 64 = ue := Nat.mod_eq_of_lt (by omega)
  rw [h2]
  unfold MAX_NOF_UES_PER_DU
  exact Nat.mod_eq_of_lt (by omega)

/-- C4: for every DU index below `MAX_NOF_DUS` and every slot below
`MAX_NOF_UES_PER_DU`, splitting the generated UE index gives the DU index
back. -/
theorem du_index_of_generated_ue_index (du slot : Nat)
    (hdu : du < MAX_NOF_DUS) (hslot : slot < MAX_NOF_UES_PER_DU) :
    get_du_index_from_ue_index (generate_ue_index du slot) = du := by
  have hdu2 : du < 2 := hdu
  have hs2 : slot < 1024 := hslot
  rw [generate_ue_index_eq du slot (by omega) (by omega),
    get_du_index_from_ue_index_eq _ (by omega) (by omega)]
  omega

/-- C4 at DU 1, slot 1023 (the largest valid UE index). -/
theorem du_index_of_generated_ue_index_witness :
    get_du_index_from_ue_index (generate_ue_index 1 1023) = 1 :=
  du_index_of_generated_ue_index 1 1023 (by decide) (by decide)

/-- C5: on valid inputs `generate_ue_index` is
`du_index * MAX_NOF_UES_PER_DU + slot`, lands in the UE index range and is
never the sentinel; distinct valid pairs give distinct UE indexes; and every
UE index of the range is produced by exactly one valid pair. -/
theorem generate_ue_index_bijection :
    (∀ du slot : Nat, du < MAX_NOF_DUS → slot < MAX_NOF_UES_PER_DU →
      generate_ue_index du slot = du * MAX_NOF_UES_PER_DU + slot ∧
      generate_ue_index du slot < MAX_NOF_DUS * MAX_NOF_UES_PER_DU ∧
      generate_ue_index du slot ≠ ue_index_t.invalid) ∧
    (∀ du slot du2 slot2 : Nat, du < MAX_NOF_DUS → slot < MAX_NOF_UES_PER_DU →
      du2 < MAX_NOF_DUS → slot2 < MAX_NOF_UES_PER_DU →
      generate_ue_index du slot = generate_ue_index du2 slot2 → du = du2 ∧ slot = slot2) ∧
    (∀ ue : Nat, ue < MAX_NOF_DUS * MAX_NOF_UES_PER_DU →
      ∃! p : Nat × Nat, p.1 < MAX_NOF_DUS ∧ p.2 < MAX_NOF_UES_PER_DU ∧
        generate_ue_index p.1 p.2 = ue) := by
  simp only [MAX_NOF_UES_PER_DU, MAX_NOF_DUS, MAX_NOF_CU_UES, ue_index_t.invalid]
  refine ⟨?_, ?_, ?_⟩
  · intro du slot hdu hslot
    rw [generate_ue_index_eq du slot (by omega) (by omega)]
    omega
  · intro du slot du2 slot2 hdu hslot hdu2 hslot2 h
    rw [generate_ue_index_eq du slot (by omega) (by omega),
      generate_ue_index_eq du2 slot2 (by omega) (by omega)] at h
    omega
  · intro ue hue
    refine ⟨(ue / 1024, ue % 1024), ?_, ?_⟩
    · have h1 : ue / 1024 < 2 := by omega
      have h2 : ue % 1024 < 1024 := by omega
      refine ⟨h1, h2, ?_⟩
      show generate_ue_index (ue / 1024) (ue % 1024) = ue
      rw [generate_ue_index_eq _ _ (by omega) (by omega)]
      omega
    · rintro ⟨d, s⟩ ⟨hd, hs, hg⟩
      simp only at hd hs hg
      rw [generate_ue_index_eq d s (by omega) (by omega)] at hg
      have h1 : d = ue / 1024 := by omega
      have h2 : s = ue % 1024 := by omega
      rw [h1, h2]

/-- C5 at DU 1, slot 5: the generated UE index is `1 * 1024 + 5`, in range and
not the sentinel. -/
theorem generate_ue_index_bijection_witness :
    generate_ue_index 1 5 = 1 * MAX_NOF_UES_PER_DU + 5 ∧
      generate_ue_index 1 5 < MAX_NOF_DUS * MAX_NOF_UES_PER_DU ∧
      generate_ue_index 1 5 ≠ ue_index_t.invalid :=
  generate_ue_index_bijection.1 1 5 (by decide) (by decide)

/-- C6, refuted as stated: slot `1024 = MAX_NOF_UES_PER_DU` of DU 0 is an
out-of-range input, yet `generate_ue_index` returns `1024`, which is not the
sentinel but the valid UE index of slot 0 of DU 1. -/
theorem generate_ue_index_out_of_range_not_invalid :
    (0 ≥ MAX_NOF_DUS ∨ 1024 ≥ MAX_NOF_UES_PER_DU) ∧
      generate_ue_index 0 1024 ≠ ue_index_t.invalid ∧
      generate_ue_index 0 1024 = generate_ue_index 1 0 := by
  decide

/-- C6, amended: `generate_ue_index` performs no bounds check. For every
`uint16_t` pair it returns `du_index * MAX_NOF_UES_PER_DU + slot`; the result
is the sentinel exactly when that sum is `MAX_NOF_CU_UES` (as for
`du_index = MAX_NOF_DUS`, slot 0); and for `du_index ≥ MAX_NOF_DUS` the result
is never a valid UE index (it is at or above the sentinel). -/
theorem generate_ue_index_unchecked (du slot : Nat) (hdu : du < 2 ^ 16) (hs : slot < 2 ^ 16) :
    generate_ue_index du slot = du * MAX_NOF_UES_PER_DU + slot ∧
      (generate_ue_index du slot = ue_index_t.invalid ↔
        du * MAX_NOF_UES_PER_DU + slot = MAX_NOF_CU_UES) ∧
      (MAX_NOF_DUS ≤ du → ue_index_t.invalid ≤ generate_ue_index du slot) ∧
      generate_ue_index MAX_NOF_DUS 0 = ue_index_t.invalid := by
  have h0 : generate_ue_index MAX_NOF_DUS 0 = ue_index_t.invalid := by decide
  simp only [MAX_NOF_UES_PER_DU, MAX_NOF_DUS, MAX_NOF_CU_UES, ue_index_t.invalid] at h0 ⊢
  rw [generate_ue_index_eq du slot hdu hs]
  refine ⟨rfl, Iff.rfl, ?_, h0⟩
  intro h
  omega

/-- C6 amended, at `du_index = 3`, slot 7: the result is `3 * 1024 + 7`, above
the sentinel. -/
theorem generate_ue_index_unchecked_witness :
    generate_ue_index 3 7 = 3 * MAX_NOF_UES_PER_DU + 7 ∧
      (generate_ue_index 3 7 = ue_index_t.invalid ↔
        3 * MAX_NOF_UES_PER_DU + 7 = MAX_NOF_CU_UES) ∧
      (MAX_NOF_DUS ≤ 3 → ue_index_t.invalid ≤ generate_ue_index 3 7) ∧
      generate_ue_index MAX_NOF_DUS 0 = ue_index_t.invalid :=
  generate_ue_index_unchecked 3 7 (by decide) (by decide)

/-- C7: for every UE index of the range `[0, MAX_NOF_DUS * MAX_NOF_UES_PER_DU)`
`get_du_index_from_ue_index` returns a DU index below `MAX_NOF_DUS`, equal to
the integer quotient by `MAX_NOF_UES_PER_DU`; for the sentinel
`ue_index_t::invalid` it returns `du_index_t::invalid`. -/
theorem get_du_index_from_ue_index_spec :
    (∀ ue : Nat, ue < MAX_NOF_DUS * MAX_NOF_UES_PER_DU →
      get_du_index_from_ue_index ue < MAX_NOF_DUS ∧
      get_du_index_from_ue_index ue = ue / MAX_NOF_UES_PER_DU) ∧
    get_du_index_from_ue_index ue_index_t.invalid = du_index_t.invalid := by
  refine ⟨?_, by decide⟩
  simp only [MAX_NOF_UES_PER_DU, MAX_NOF_DUS]
  intro ue hue
  rw [get_du_index_from_ue_index_eq ue (by omega) (by omega)]
  omega

/-- C7 at UE index 2047: the DU index is `2047 / 1024 = 1`. -/
theorem get_du_index_from_ue_index_spec_witness :
    get_du_index_from_ue_index 2047 < MAX_NOF_DUS ∧
      get_du_index_from_ue_index 2047 = 2047 / MAX_NOF_UES_PER_DU :=
  get_du_index_from_ue_index_spec.1 2047 (by decide)

/-! ## Theorems: the container `slotted_id_vector` -/

namespace slotted_id_vector

variable {T : Type}

theorem contains_empty (id : Nat) : ({} : slotted_id_vector T).contains id = false := rfl

theorem find_empty (id : Nat) : ({} : slotted_id_vector T).find id = none := rfl

theorem contains_eq_isSome_find (v : slotted_id_vector T) (id : Nat) :
    v.contains id = (v.find id).isSome := by
  unfold contains find
  induction v.entries with
  | nil => rfl
  | cons e rest ih =>
    simp only [List.any_cons, List.find?_cons]
    cases h : (e.1 == id) <;> simp [ih]

theorem find_map_replace (l : List (Nat × T)) (id : Nat) (x : T)
    (h : l.any (fun e => e.1 == id) = true) :
    List.find? (fun e => e.1 == id) (l.map (fun e => if e.1 == id then (id, x) else e))
      = some (id, x) := by
  induction l with
  | nil => simp at h
  | cons e rest ih =>
    simp only [List.map_cons, List.find?_cons]
    cases he : (e.1 == id)
    · simp only [Bool.false_eq_true, if_false, he]
      simp only [List.any_cons, he, Bool.false_or] at h
      exact ih h
    · simp

theorem find_map_replace_ne (l : List (Nat × T)) (id : Nat) (x : T) (k : Nat) (hk : k ≠ id) :
    Option.map (fun e => e.2)
      (List.find? (fun e => e.1 == k) (l.map (fun e => if e.1 == id then (id, x) else e)))
      = Option.map (fun e => e.2) (List.find? (fun e => e.1 == k) l) := by
  have hne : (id == k) = false := by simpa using Ne.symm hk
  induction l with
  | nil => rfl
  | cons e rest ih =>
    simp only [List.map_cons, List.find?_cons]
    cases he : (e.1 == id)
    · simp only [Bool.false_eq_true, if_false]
      cases hek : (e.1 == k)
      · exact ih
      · rfl
    · have he1 : e.1 = id := by simpa using he
      have hne2 : (e.1 == k) = false := by rw [he1]; exact hne
      simp only [if_true, hne, hne2]
      exact ih

theorem find_append_single (l : List (Nat × T)) (id : Nat) (x : T) (k : Nat) :
    Option.map (fun e => e.2) (List.find? (fun e => e.1 == k) (l ++ [(id, x)]))
      = if l.any (fun e => e.1 == k) then
          Option.map (fun e => e.2) (List.find? (fun e => e.1 == k) l)
        else if id == k then some x else none := by
  induction l with
  | nil =>
    simp only [List.nil_append, List.find?_cons, List.any_nil, Bool.false_eq_true, if_false]
    cases (id == k) <;> rfl
  | cons e rest ih =>
    simp only [List.cons_append, List.find?_cons, List.any_cons]
    cases hek : (e.1 == k)
    · simp only [Bool.false_or]
      exact ih
    · simp

theorem find_emplace_self (v : slotted_id_vector T) (id : Nat) (x : T) :
    (v.emplace id x).find id = some x := by
  unfold emplace
  split
  · rename_i h
    unfold find
    simp only
    rw [find_map_replace v.entries id x h]
    rfl
  · rename_i h
    unfold find
    simp only
    rw [find_append_single]
    have h2 : v.entries.any (fun e => e.1 == id) = false := by
      unfold contains at h
      exact Bool.eq_false_iff.mpr h
    simp [h2]

theorem find_emplace_ne (v : slotted_id_vector T) (id : Nat) (x : T) (k : Nat) (hk : k ≠ id) :
    (v.emplace id x).find k = v.find k := by
  have hne : (id == k) = false := by simpa using Ne.symm hk
  unfold emplace
  split
  · unfold find
    simp only
    exact find_map_replace_ne v.entries id x k hk
  · unfold find
    simp only
    rw [find_append_single]
    cases hany : v.entries.any (fun e => e.1 == k)
    · simp only [Bool.false_eq_true, if_false, hne]
      have : List.find? (fun e => e.1 == k) v.entries = none := by
        rw [List.find?_eq_none]
        intro e he
        have := List.any_eq_false.mp hany e he
        simpa using this
      rw [this]
      rfl
    · simp

theorem find_emplace (v : slotted_id_vector T) (id : Nat) (x : T) (k : Nat) :
    (v.emplace id x).find k = if k = id then some x else v.find k := by
  by_cases hk : k = id
  · rw [if_pos hk, hk]
    exact find_emplace_self v id x
  · rw [if_neg hk]
    exact find_emplace_ne v id x k hk

theorem contains_emplace (v : slotted_id_vector T) (id : Nat) (x : T) (k : Nat) :
    (v.emplace id x).contains k = (k == id || v.contains k) := by
  rw [contains_eq_isSome_find, contains_eq_isSome_find, find_emplace]
  by_cases hk : k = id
  · simp [hk]
  · have : (k == id) = false := by simpa using hk
    simp [hk, this]

theorem empty_eq_true_iff (v : slotted_id_vector T) : v.empty = true ↔ v.entries = [] := by
  unfold empty
  exact List.isEmpty_iff

theorem emplace_not_empty (v : slotted_id_vector T) (id : Nat) (x : T) :
    (v.emplace id x).empty = false := by
  have h := find_emplace_self v id x
  cases he : (v.emplace id x).empty
  · rfl
  · rw [empty_eq_true_iff] at he
    unfold find at h
    rw [he] at h
    simp at h

end slotted_id_vector

namespace slotted_id_vector

variable {T : Type}

/-- The method `emplace` keeps the ids of a container distinct. -/
theorem nodup_ids_emplace (v : slotted_id_vector T) (id : Nat) (x : T)
    (h : (v.entries.map (fun e => e.1)).Nodup) :
    ((v.emplace id x).entries.map (fun e => e.1)).Nodup := by
  unfold emplace
  split
  · have hmap : (v.entries.map (fun e => if e.1 == id then (id, x) else e)).map (fun e => e.1)
        = v.entries.map (fun e => e.1) := by
      rw [List.map_map]
      apply List.map_congr_left
      intro e _
      simp only [Function.comp]
      split
      · rename_i he
        exact (beq_iff_eq.mp he).symm
      · rfl
    simp only
    rw [hmap]
    exact h
  · rename_i hc
    simp only [List.map_append, List.map_cons, List.map_nil]
    apply List.Nodup.append h (List.nodup_singleton id)
    intro k hk hk2
    rw [List.mem_singleton] at hk2
    subst hk2
    apply hc
    unfold contains
    rw [List.any_eq_true]
    obtain ⟨e, he, hek⟩ := List.mem_map.mp hk
    exact ⟨e, he, by simpa using hek⟩

end slotted_id_vector

/-! ## Theorems: loops that fill a container -/

namespace slotted_id_vector

variable {T : Type}

/-- Lookup in a container filled by a loop of `emplace`: the element built
from the last item of the loop that has the id, or what was stored before. -/
theorem find_foldl_emplace {α : Type} (key : α → Nat) (f : α → T) (l : List α)
    (v0 : slotted_id_vector T) (k : Nat) :
    (l.foldl (fun v x => v.emplace (key x) (f x)) v0).find k =
      match l.reverse.find? (fun x => key x == k) with
      | some x => some (f x)
      | none => v0.find k := by
  induction l using List.reverseRecOn with
  | nil => rfl
  | append_singleton xs x ih =>
    rw [List.foldl_append, List.reverse_append]
    simp only [List.foldl_cons, List.foldl_nil, List.reverse_cons, List.reverse_nil,
      List.nil_append, List.singleton_append, List.find?_cons]
    rw [find_emplace]
    by_cases hk : k = key x
    · subst hk
      simp
    · have hne : (key x == k) = false := by simpa using Ne.symm hk
      rw [if_neg hk, hne]
      exact ih

/-- The ids stored by a loop of `emplace`. -/
theorem contains_foldl_emplace {α : Type} (key : α → Nat) (f : α → T) (l : List α)
    (v0 : slotted_id_vector T) (k : Nat) :
    (l.foldl (fun v x => v.emplace (key x) (f x)) v0).contains k = true ↔
      k ∈ l.map key ∨ v0.contains k = true := by
  induction l generalizing v0 with
  | nil => simp
  | cons x rest ih =>
    rw [List.foldl_cons, ih, contains_emplace]
    simp only [List.map_cons, List.mem_cons, Bool.or_eq_true, beq_iff_eq]
    constructor
    · rintro (h | h | h)
      · exact Or.inl (Or.inr h)
      · exact Or.inl (Or.inl h)
      · exact Or.inr h
    · rintro ((h | h) | h)
      · exact Or.inr (Or.inl h)
      · exact Or.inl h
      · exact Or.inr (Or.inr h)

/-- A loop of `emplace` keeps the ids of a container distinct. -/
theorem nodup_ids_foldl_emplace {α : Type} (key : α → Nat) (f : α → T) (l : List α)
    (v0 : slotted_id_vector T) (h : (v0.entries.map (fun e => e.1)).Nodup) :
    ((l.foldl (fun v x => v.emplace (key x) (f x)) v0).entries.map (fun e => e.1)).Nodup := by
  induction l generalizing v0 with
  | nil => exact h
  | cons x rest ih =>
    rw [List.foldl_cons]
    exact ih _ (nodup_ids_emplace v0 _ _ h)

/-- Among items with distinct ids, the search for the id of an item finds
that item. -/
theorem find?_key_of_nodup {α : Type} (key : α → Nat) (l l2 : List α)
    (hn : (l.map key).Nodup) (hsub : ∀ y ∈ l2, y ∈ l) (x : α) (hx : x ∈ l2) :
    l2.find? (fun y => key y == key x) = some x := by
  cases h : l2.find? (fun y => key y == key x) with
  | none =>
    rw [List.find?_eq_none] at h
    have := h x hx
    simp at this
  | some y =>
    have hy : y ∈ l2 := List.mem_of_find?_eq_some h
    have hk : key y = key x := by
      have := List.find?_some h
      simpa using this
    rw [List.inj_on_of_nodup_map hn (hsub y hy) (hsub x hx) hk]

/-- A loop of `emplace` over items with distinct ids stores, under the id of
each item, the element built from that item. -/
theorem find_foldl_emplace_of_nodup {α : Type} (key : α → Nat) (f : α → T) (l : List α)
    (v0 : slotted_id_vector T) (hn : (l.map key).Nodup) (x : α) (hx : x ∈ l) :
    (l.foldl (fun v x => v.emplace (key x) (f x)) v0).find (key x) = some (f x) := by
  rw [find_foldl_emplace]
  rw [find?_key_of_nodup key l l.reverse hn (fun y hy => List.mem_reverse.mp hy) x
    (List.mem_reverse.mpr hx)]

/-- A loop of `emplace` over items with distinct ids, none of them stored
before, appends one entry per item, in the order of the loop. -/
theorem entries_foldl_emplace_of_nodup {α : Type} (key : α → Nat) (f : α → T) (l : List α)
    (v0 : slotted_id_vector T) (hn : (l.map key).Nodup)
    (hnew : ∀ x ∈ l, v0.contains (key x) = false) :
    (l.foldl (fun v x => v.emplace (key x) (f x)) v0).entries =
      v0.entries ++ l.map (fun x => (key x, f x)) := by
  induction l generalizing v0 with
  | nil => simp
  | cons x rest ih =>
    rw [List.foldl_cons]
    rw [List.map_cons, List.nodup_cons] at hn
    have hx : v0.contains (key x) = false := hnew x (List.mem_cons_self _ _)
    have hemp : (v0.emplace (key x) (f x)).entries = v0.entries ++ [(key x, f x)] := by
      unfold emplace
      rw [hx]
      rfl
    rw [ih _ hn.2, hemp]
    · simp
    · intro y hy
      rw [← Bool.not_eq_true, contains_emplace]
      simp only [Bool.or_eq_true, beq_iff_eq, not_or]
      constructor
      · intro hk
        apply hn.1
        rw [← hk]
        exact List.mem_map_of_mem key hy
      · rw [Bool.not_eq_true]
        exact hnew y (List.mem_cons_of_mem _ hy)

/-- An element found under an id is an element of the container. -/
theorem mem_elems_of_find (v : slotted_id_vector T) (id : Nat) (x : T)
    (h : v.find id = some x) : x ∈ v.elems := by
  unfold find at h
  unfold elems
  obtain ⟨e, he, rfl⟩ := Option.map_eq_some'.mp h
  exact List.mem_map_of_mem _ (List.mem_of_find?_eq_some he)

/-- An entry of a container after `emplace` was there before or is the
emplaced one. -/
theorem mem_entries_emplace (v : slotted_id_vector T) (id : Nat) (x : T) (e : Nat × T)
    (h : e ∈ (v.emplace id x).entries) : e ∈ v.entries ∨ e = (id, x) := by
  unfold emplace at h
  split at h
  · simp only [List.mem_map] at h
    obtain ⟨e0, he0, hy⟩ := h
    split at hy
    · exact Or.inr hy.symm
    · exact Or.inl (hy ▸ he0)
  · simp only [List.mem_append, List.mem_singleton] at h
    exact h

/-- An entry of a container filled by a loop of `emplace` was there before or
is the one built from an item of the loop. -/
theorem mem_entries_foldl_emplace {α : Type} (key : α → Nat) (f : α → T) (l : List α)
    (v0 : slotted_id_vector T) (e : Nat × T)
    (h : e ∈ (l.foldl (fun v x => v.emplace (key x) (f x)) v0).entries) :
    e ∈ v0.entries ∨ ∃ x ∈ l, e = (key x, f x) := by
  induction l generalizing v0 with
  | nil => exact Or.inl h
  | cons a rest ih =>
    rw [List.foldl_cons] at h
    rcases ih _ h with h1 | ⟨x, hx, he⟩
    · rcases mem_entries_emplace _ _ _ _ h1 with h2 | h2
      · exact Or.inl h2
      · exact Or.inr ⟨a, List.mem_cons_self _ _, h2⟩
    · exact Or.inr ⟨x, List.mem_cons_of_mem _ hx, he⟩

end slotted_id_vector

/-! ## Theorems: the PDU session resource setup routine -/

namespace pdu_session_resource_setup_routine

variable {σ : Type}

/-- The loop of `handle_pdu_session_resource_setup_result(false)` leaves the
setup list as it was and stores a failed item with cause `protocol` under the
id of each item. -/
theorem failure_fold (l : List cu_cp_pdu_session_res_setup_item)
    (init : cu_cp_pdu_session_resource_setup_response) :
    (l.foldl add_setup_failure init).pdu_session_res_setup_response_items
      = init.pdu_session_res_setup_response_items ∧
    ∀ k, (l.foldl add_setup_failure init).pdu_session_res_failed_to_setup_items.find k =
      if k ∈ l.map (fun i => i.pdu_session_id) then some (setup_failed_item cause_t.protocol k)
      else init.pdu_session_res_failed_to_setup_items.find k := by
  induction l generalizing init with
  | nil => simp
  | cons a rest ih =>
    simp only [List.foldl_cons, List.map_cons, List.mem_cons]
    refine ⟨by rw [(ih _).1]; rfl, ?_⟩
    intro k
    rw [(ih _).2 k]
    by_cases hk : k ∈ rest.map (fun i => i.pdu_session_id)
    · simp [hk]
    · simp only [hk, if_false, or_false]
      unfold add_setup_failure
      rw [slotted_id_vector.find_emplace]
      by_cases hka : k = a.pdu_session_id
      · simp [hka]
      · simp [hka]

/-- The response of a failed run reports every requested PDU session as
failed, with cause `protocol`, and none as set up. -/
theorem failure_response (r : pdu_session_resource_setup_routine σ) (st : σ)
    (resp : e1ap_bearer_context_setup_response) :
    (r.handle_pdu_session_resource_setup_result st resp {} false).all_failed r.setup_msg ∧
    ∀ id ∈ r.setup_msg.requested_sessions,
      (r.handle_pdu_session_resource_setup_result st resp {}
        false).pdu_session_res_failed_to_setup_items.find id =
        some (setup_failed_item cause_t.protocol id) := by
  unfold handle_pdu_session_resource_setup_result
    cu_cp_pdu_session_resource_setup_response.all_failed
    cu_cp_pdu_session_resource_setup_request.requested_sessions
  simp only [Bool.false_eq_true, if_false]
  have h := failure_fold r.setup_msg.pdu_session_res_setup_items.elems {}
  refine ⟨⟨?_, ?_⟩, ?_⟩
  · rw [h.1]
    rfl
  · intro id hid
    rw [slotted_id_vector.contains_eq_isSome_find, h.2 id, if_pos hid]
    rfl
  · intro id hid
    rw [h.2 id, if_pos hid]

/-- The failed list after the loop of
`handle_pdu_session_resource_setup_result(false)` is the failed list before
the loop with one `emplace` per item of the request. -/
theorem failure_fold_failed_items (l : List cu_cp_pdu_session_res_setup_item)
    (init : cu_cp_pdu_session_resource_setup_response) :
    (l.foldl add_setup_failure init).pdu_session_res_failed_to_setup_items =
      l.foldl
        (fun v (i : cu_cp_pdu_session_res_setup_item) =>
          v.emplace i.pdu_session_id (setup_failed_item cause_t.protocol i.pdu_session_id))
        init.pdu_session_res_failed_to_setup_items := by
  induction l generalizing init with
  | nil => rfl
  | cons a rest ih =>
    simp only [List.foldl_cons]
    rw [ih]
    rfl

/-- What the result of `handle_pdu_session_resource_setup_result(false)`
holds, item by item: the setup list is empty; every requested PDU session has
a failed item, found under its id, that carries this id and the cause
`protocol`; every failed item carries the id of a requested session and the
cause `protocol`; and no two failed items carry the same session id. -/
theorem failure_response_report (r : pdu_session_resource_setup_routine σ) (st : σ)
    (cu_up_response : e1ap_bearer_context_setup_response)
    (resp : cu_cp_pdu_session_resource_setup_response)
    (hresp : resp = r.handle_pdu_session_resource_setup_result st cu_up_response {} false) :
    resp.pdu_session_res_setup_response_items.elems = [] ∧
    (∀ id ∈ r.setup_msg.requested_sessions,
      ∃ item, resp.pdu_session_res_failed_to_setup_items.find id = some item ∧
        item.pdu_session_id = id ∧
        item.pdu_session_resource_setup_unsuccessful_transfer.cause = cause_t.protocol) ∧
    (∀ item ∈ resp.pdu_session_res_failed_to_setup_items.elems,
      item.pdu_session_id ∈ r.setup_msg.requested_sessions ∧
        item.pdu_session_resource_setup_unsuccessful_transfer.cause = cause_t.protocol) ∧
    (resp.pdu_session_res_failed_to_setup_items.elems.map
      (fun item => item.pdu_session_id)).Nodup := by
  subst hresp
  have hent : ∀ e ∈ (r.handle_pdu_session_resource_setup_result st cu_up_response {}
      false).pdu_session_res_failed_to_setup_items.entries,
      ∃ i ∈ r.setup_msg.pdu_session_res_setup_items.elems,
        e = (i.pdu_session_id, setup_failed_item cause_t.protocol i.pdu_session_id) := by
    intro e he
    unfold handle_pdu_session_resource_setup_result at he
    simp only [Bool.false_eq_true, if_false] at he
    rw [failure_fold_failed_items] at he
    rcases slotted_id_vector.mem_entries_foldl_emplace _ _ _ _ e he with h0 | h1
    · cases h0
    · exact h1
  refine ⟨?_, ?_, ?_, ?_⟩
  · unfold handle_pdu_session_resource_setup_result
    simp only [Bool.false_eq_true, if_false]
    rw [(failure_fold _ _).1]
    rfl
  · intro id hid
    exact ⟨_, (failure_response r st cu_up_response).2 id hid, rfl, rfl⟩
  · intro item hitem
    obtain ⟨e, he, rfl⟩ := List.mem_map.mp hitem
    obtain ⟨i, hi, rfl⟩ := hent e he
    exact ⟨List.mem_map_of_mem (fun i => i.pdu_session_id) hi, rfl⟩
  · have hmap : (r.handle_pdu_session_resource_setup_result st cu_up_response {}
        false).pdu_session_res_failed_to_setup_items.elems.map (fun item => item.pdu_session_id)
        = (r.handle_pdu_session_resource_setup_result st cu_up_response {}
          false).pdu_session_res_failed_to_setup_items.entries.map (fun e => e.1) := by
      unfold slotted_id_vector.elems
      rw [List.map_map]
      apply List.map_congr_left
      intro e he
      obtain ⟨i, _, rfl⟩ := hent e he
      rfl
    rw [hmap]
    unfold handle_pdu_session_resource_setup_result
    simp only [Bool.false_eq_true, if_false]
    rw [failure_fold_failed_items]
    exact slotted_id_vector.nodup_ids_foldl_emplace _ _ _ _ List.nodup_nil

/-- The loop of `handle_pdu_session_resource_setup_result(true)`: under the
id of each item it stores a response item if the bearer context setup
response lists the id, and a failed item with cause `radio_network` if not. -/
theorem success_fold (r : pdu_session_resource_setup_routine σ) (st : σ)
    (resp : e1ap_bearer_context_setup_response)
    (l : List cu_cp_pdu_session_res_setup_item)
    (init : cu_cp_pdu_session_resource_setup_response) (k : Nat) :
    (l.foldl (r.add_setup_result st resp) init).pdu_session_res_setup_response_items.find k =
      (if k ∈ l.map (fun i => i.pdu_session_id) then
        match resp.pdu_session_resource_setup_list.find k with
        | some acked => some (r.setup_response_item st acked k)
        | none => init.pdu_session_res_setup_response_items.find k
      else init.pdu_session_res_setup_response_items.find k) ∧
    (l.foldl (r.add_setup_result st resp) init).pdu_session_res_failed_to_setup_items.find k =
      (if k ∈ l.map (fun i => i.pdu_session_id) then
        match resp.pdu_session_resource_setup_list.find k with
        | some _ => init.pdu_session_res_failed_to_setup_items.find k
        | none => some (setup_failed_item cause_t.radio_network k)
      else init.pdu_session_res_failed_to_setup_items.find k) := by
  induction l generalizing init with
  | nil => simp
  | cons a rest ih =>
    simp only [List.foldl_cons, List.map_cons, List.mem_cons]
    rw [(ih _).1, (ih _).2]
    by_cases hk : k ∈ rest.map (fun i => i.pdu_session_id)
    · simp only [hk, if_true, or_true]
      unfold add_setup_result
      by_cases hka : k = a.pdu_session_id
      · subst hka
        cases hf : resp.pdu_session_resource_setup_list.find a.pdu_session_id <;> simp
      · cases hf : resp.pdu_session_resource_setup_list.find a.pdu_session_id <;>
          cases hf2 : resp.pdu_session_resource_setup_list.find k <;>
          simp [slotted_id_vector.find_emplace, hka]
    · simp only [hk, if_false, or_false]
      unfold add_setup_result
      by_cases hka : k = a.pdu_session_id
      · subst hka
        cases hf : resp.pdu_session_resource_setup_list.find a.pdu_session_id <;>
          simp [slotted_id_vector.find_emplace]
      · cases hf : resp.pdu_session_resource_setup_list.find a.pdu_session_id <;>
          simp [slotted_id_vector.find_emplace, hka]

/-- The loop of `handle_pdu_session_resource_setup_result(true)` leaves the
failed list as it was when the bearer context setup response lists the id of
every item. -/
theorem success_fold_failed_unchanged (r : pdu_session_resource_setup_routine σ) (st : σ)
    (resp : e1ap_bearer_context_setup_response)
    (l : List cu_cp_pdu_session_res_setup_item)
    (init : cu_cp_pdu_session_resource_setup_response)
    (h : ∀ i ∈ l, resp.pdu_session_resource_setup_list.contains i.pdu_session_id = true) :
    (l.foldl (r.add_setup_result st resp) init).pdu_session_res_failed_to_setup_items
      = init.pdu_session_res_failed_to_setup_items := by
  induction l generalizing init with
  | nil => rfl
  | cons a rest ih =>
    simp only [List.foldl_cons]
    rw [ih _ (fun i hi => h i (List.mem_cons_of_mem _ hi))]
    have ha := h a (List.mem_cons_self _ _)
    rw [slotted_id_vector.contains_eq_isSome_find] at ha
    unfold add_setup_result
    cases hf : resp.pdu_session_resource_setup_list.find a.pdu_session_id
    · rw [hf] at ha
      simp at ha
    · rfl

/-- The associated QoS flow list of a response item holds, under each flow id
the DRB manager maps to the session, the flow with that id, and nothing
else. -/
theorem associated_qos_flow_fold (flows : List qos_flow_id_t)
    (init : slotted_id_vector cu_cp_associated_qos_flow) (k : Nat) :
    (flows.foldl (fun l flow_id => l.emplace flow_id { qos_flow_id := flow_id }) init).find k =
      if k ∈ flows then some { qos_flow_id := k } else init.find k := by
  induction flows generalizing init with
  | nil => simp
  | cons a rest ih =>
    simp only [List.foldl_cons, List.mem_cons]
    rw [ih]
    by_cases hk : k ∈ rest
    · simp [hk]
    · simp only [hk, if_false, or_false]
      rw [slotted_id_vector.find_emplace]
      by_cases hka : k = a
      · simp [hka]
      · simp [hka]

/-- A run that made all five peer exchanges, each answered with success,
returns the result of `handle_pdu_session_resource_setup_result(true)`. -/
theorem run_complete (r : pdu_session_resource_setup_routine σ)
    (hlen : r.run.exchanges.map peer_exchange.step = peer_steps_in_order)
    (hs : ∀ e ∈ r.run.exchanges, e.successful = true) :
    r.run.response =
      some (r.handle_pdu_session_resource_setup_result r.planned_state
        r.bearer_context_setup_response {} true) := by
  revert hlen hs
  unfold run
  simp only []
  repeat' split
  all_goals
    simp_all [peer_exchange.step, peer_exchange.successful, peer_steps_in_order]

/-- A loop over a list passes only if its body passes on every element. -/
theorem for_each_unit_ok {α : Type} (body : α → step_result Unit) (l : List α) (u : Unit)
    (h : step_result.for_each (fun _ a => body a) () l = step_result.ok u) :
    ∀ a ∈ l, body a = step_result.ok () := by
  induction l with
  | nil => simp
  | cons x rest ih =>
    unfold step_result.for_each at h
    intro a ha
    cases hx : body x with
    | ok b =>
      rw [hx] at h
      rcases List.mem_cons.mp ha with rfl | hr
      · exact hx
      · exact ih h a hr
    | failed => rw [hx] at h; cases h
    | aborted => rw [hx] at h; cases h

/-- The initial sanity checks pass only if no requested PDU session has DRBs
and every requested QoS flow has a configured 5QI. -/
theorem initial_sanity_checks_ok (r : pdu_session_resource_setup_routine σ) (u : Unit)
    (h : r.initial_sanity_checks = step_result.ok u) :
    ∀ setup_item ∈ r.setup_msg.pdu_session_res_setup_items.elems,
      r.rrc_ue_drb_manager.get_drbs r.drb_manager_state setup_item.pdu_session_id = [] ∧
      ∀ flow_item ∈ setup_item.qos_flow_setup_request_items.elems,
        r.valid_5qi flow_item = true := by
  intro setup_item hmem
  have h1 := for_each_unit_ok r.check_setup_item _ u h setup_item hmem
  unfold check_setup_item at h1
  split at h1
  · cases h1
  · rename_i hd
    refine ⟨by simpa using hd, ?_⟩
    intro flow_item hf
    have h2 := for_each_unit_ok r.check_flow_5qi _ () h1 flow_item hf
    unfold check_flow_5qi at h2
    split at h2
    · split at h2
      · split at h2 <;> cases h2
      · split at h2 <;> cases h2
    · rename_i hv
      simpa using hv

/-- A run whose initial sanity checks do not pass makes no peer exchange, and
the response, if the run returns one, reports every requested PDU session as
failed and none as set up. -/
theorem rejected_without_peer_exchange (r : pdu_session_resource_setup_routine σ)
    (h : ∀ u, r.initial_sanity_checks ≠ step_result.ok u) :
    r.run.exchanges = [] ∧ ∀ resp, r.run.response = some resp → resp.all_failed r.setup_msg := by
  have hfail := (failure_response r r.drb_manager_state {}).1
  unfold run
  simp only []
  split
  · exact ⟨rfl, fun _ hr => by cases hr⟩
  · refine ⟨rfl, fun resp hr => ?_⟩
    simp only [Option.some.injEq] at hr
    rw [← hr]
    exact hfail
  · rename_i u hu
    exact absurd hu (h u)

/-- A request with a PDU session that already has DRBs never reaches a peer:
no peer exchange is made, and a response, if one is returned, reports every
requested PDU session as failed. -/
theorem duplicate_session_no_peer_exchange (r : pdu_session_resource_setup_routine σ)
    (setup_item : cu_cp_pdu_session_res_setup_item)
    (hmem : setup_item ∈ r.setup_msg.pdu_session_res_setup_items.elems)
    (hdup : r.rrc_ue_drb_manager.get_drbs r.drb_manager_state setup_item.pdu_session_id ≠ []) :
    r.run.exchanges = [] ∧ ∀ resp, r.run.response = some resp → resp.all_failed r.setup_msg :=
  rejected_without_peer_exchange r
    (fun u hu => hdup ((initial_sanity_checks_ok r u hu setup_item hmem).1))

/-- A request with a QoS flow whose 5QI is not configured never reaches a
peer: no peer exchange is made, and a response, if one is returned, reports
every requested PDU session as failed. -/
theorem unconfigured_5qi_no_peer_exchange (r : pdu_session_resource_setup_routine σ)
    (setup_item : cu_cp_pdu_session_res_setup_item)
    (hmem : setup_item ∈ r.setup_msg.pdu_session_res_setup_items.elems)
    (flow_item : qos_flow_setup_request_item)
    (hflow : flow_item ∈ setup_item.qos_flow_setup_request_items.elems)
    (hbad : r.valid_5qi flow_item = false) :
    r.run.exchanges = [] ∧ ∀ resp, r.run.response = some resp → resp.all_failed r.setup_msg :=
  rejected_without_peer_exchange r
    (fun u hu => by
      have := (initial_sanity_checks_ok r u hu setup_item hmem).2 flow_item hflow
      rw [hbad] at this
      cases this)

/-- C1, at a request the code cannot answer: PDU session 2 of the request
already has a DRB, but session 1, checked first, carries a flow with a dynamic
5QI descriptor only and an unconfigured 5QI, for which the sanity check reads
`non_dyn_5qi.value()` of an empty optional. The run makes no peer exchange and
returns no response. -/
theorem duplicate_session_behind_dynamic_flow_run :
    (∃ id ∈ duplicate_session_behind_dynamic_flow.setup_msg.requested_sessions,
      duplicate_session_behind_dynamic_flow.rrc_ue_drb_manager.get_drbs
        duplicate_session_behind_dynamic_flow.drb_manager_state id ≠ []) ∧
    duplicate_session_behind_dynamic_flow.run = { exchanges := [], response := none } := by
  refine ⟨⟨2, by decide, by decide⟩, by decide⟩

/-- C2, at a request the code cannot answer: the only QoS flow has a dynamic
5QI descriptor only, whose 5QI the DRB manager does not have configured. The
sanity check reads `non_dyn_5qi.value()` of an empty optional: the run makes
no peer exchange and returns no response. -/
theorem unconfigured_dynamic_5qi_run :
    (∃ setup_item ∈ unconfigured_dynamic_5qi.setup_msg.pdu_session_res_setup_items.elems,
      ∃ flow_item ∈ setup_item.qos_flow_setup_request_items.elems,
        flow_item.qos_flow_level_qos_params.qos_characteristics.dyn_5qi.bind
            (fun d => d.five_qi) = some 5 ∧
        unconfigured_dynamic_5qi.rrc_ue_drb_manager.valid_5qi
            unconfigured_dynamic_5qi.drb_manager_state 5 = false ∧
        unconfigured_dynamic_5qi.valid_5qi flow_item = false) ∧
    unconfigured_dynamic_5qi.run = { exchanges := [], response := none } := by
  refine ⟨⟨example_setup_item 1 [] [example_dyn_flow 1 (some 5)], by decide,
    example_dyn_flow 1 (some 5), by decide, by decide, by decide, by decide⟩, by decide⟩

/-- C3: whenever a peer exchange of a run is answered with failure (UE
capability transfer false, bearer context setup or modification without
success, UE context modification without success or with failed DRBs, RRC
reconfiguration false), the run returns a response that lists every PDU
session of the request as failed and none as set up, whatever the CU-UP
acknowledged in its bearer context setup response: the setup list is empty,
and for every requested PDU session the failed list holds, under the id of the
session, an item that carries this id (and the cause `protocol`). -/
theorem peer_failure_fails_all_sessions (r : pdu_session_resource_setup_routine σ)
    (e : peer_exchange) (he : e ∈ r.run.exchanges) (hf : e.successful = false) :
    ∃ resp, r.run.response = some resp ∧
      resp.all_failed r.setup_msg ∧
      resp.pdu_session_res_setup_response_items.elems = [] ∧
      ∀ id ∈ r.setup_msg.requested_sessions,
        ∃ item, resp.pdu_session_res_failed_to_setup_items.find id = some item ∧
          item.pdu_session_id = id ∧
          item.pdu_session_resource_setup_unsuccessful_transfer.cause = cause_t.protocol := by
  have hfail := (failure_response r r.drb_manager_state {}).1
  have hrep := failure_response_report r r.drb_manager_state {} _ rfl
  revert he
  unfold run
  simp only []
  repeat' split
  all_goals
    intro he
    simp only [List.mem_cons, List.mem_singleton, List.not_mem_nil, or_false] at he
  all_goals
    first
    | exact absurd he id
    | exact ⟨_, rfl, hfail, hrep.1, hrep.2.1⟩
    | (exfalso
       rcases he with rfl | rfl | rfl | rfl | rfl <;>
         simp_all [peer_exchange.successful])

/-- C3 where the CU-UP has acknowledged session 3 in its bearer context setup
response and the DU then refuses the UE context modification: the third and
last exchange of the run is answered with failure; the response has an empty
setup list, and its failed list holds under the id 3 an item that carries the
session id 3. -/
theorem peer_failure_fails_all_sessions_witness :
    scenario_du_failure.bearer_context_setup_response.pdu_session_resource_setup_list.contains 3
      = true ∧
    scenario_du_failure.run.exchanges.map peer_exchange.step =
      [peer_step.ue_capability_transfer, peer_step.bearer_context_setup,
       peer_step.ue_context_modification] ∧
    scenario_du_failure.setup_msg.requested_sessions = [3] ∧
    ∃ resp, scenario_du_failure.run.response = some resp ∧
      resp.all_failed scenario_du_failure.setup_msg ∧
      resp.pdu_session_res_setup_response_items.elems = [] ∧
      ∀ id ∈ scenario_du_failure.setup_msg.requested_sessions,
        ∃ item, resp.pdu_session_res_failed_to_setup_items.find id = some item ∧
          item.pdu_session_id = id ∧
          item.pdu_session_resource_setup_unsuccessful_transfer.cause = cause_t.protocol :=
  ⟨by decide, by decide, by decide,
    peer_failure_fails_all_sessions scenario_du_failure
      (scenario_du_failure.run.exchanges.getLast (by decide)) (List.getLast_mem _) (by decide)⟩

/-- C8: in every run the peer steps taken are an initial part of the list UE
capability transfer, bearer context setup, UE context modification, bearer
context modification, RRC reconfiguration, so each is taken at most once and
in that order; every exchange but the last was answered with success; and
after an exchange answered with failure no further exchange is made. -/
theorem peer_requests_in_order_without_retry (r : pdu_session_resource_setup_routine σ) :
    r.run.exchanges.map peer_exchange.step <+: peer_steps_in_order ∧
    (r.run.exchanges.map peer_exchange.step).Nodup ∧
    (∀ e ∈ r.run.exchanges.dropLast, e.successful = true) ∧
    (∀ pre e post, r.run.exchanges = pre ++ e :: post → e.successful = false → post = []) := by
  have h : r.run.exchanges.map peer_exchange.step <+: peer_steps_in_order ∧
      (∀ e ∈ r.run.exchanges.dropLast, e.successful = true) := by
    unfold run
    simp only []
    repeat' split
    all_goals
      simp_all [peer_exchange.step, peer_exchange.successful, peer_steps_in_order,
        List.dropLast]
  refine ⟨h.1, List.Nodup.sublist h.1.sublist (by decide), h.2, ?_⟩
  intro pre e post hx hf
  cases post with
  | nil => rfl
  | cons p rest =>
    exfalso
    have hmem : e ∈ r.run.exchanges.dropLast := by
      rw [hx]
      have : pre ++ e :: p :: rest = (pre ++ [e]) ++ (p :: rest) := by simp
      rw [this, List.dropLast_append_of_ne_nil _ (by simp)]
      simp
    rw [h.2 e hmem] at hf
    cases hf

/-- C8 on Scenario A, where all five steps are taken. -/
theorem peer_requests_in_order_without_retry_witness :
    scenario_a.run.exchanges.map peer_exchange.step <+: peer_steps_in_order ∧
    (scenario_a.run.exchanges.map peer_exchange.step).Nodup ∧
    (∀ e ∈ scenario_a.run.exchanges.dropLast, e.successful = true) ∧
    (∀ pre e post, scenario_a.run.exchanges = pre ++ e :: post →
      e.successful = false → post = []) :=
  peer_requests_in_order_without_retry scenario_a

/-- C9: a run in which all five peer steps were taken and answered with
success returns a response in which every PDU session of the request is in
exactly one list: in the setup list if and only if the bearer context setup
response of the CU-UP has an entry for it, and otherwise in the failed list.
The item of a session that is set up is found under the id of the session and
carries this id; the failed item of a session the CU-UP has no entry for is
found under the id of the session, carries this id, and has the cause
`radio_network`. -/
theorem every_session_reported_once (r : pdu_session_resource_setup_routine σ)
    (hsteps : r.run.exchanges.map peer_exchange.step = peer_steps_in_order)
    (hs : ∀ e ∈ r.run.exchanges, e.successful = true) :
    ∃ resp, r.run.response = some resp ∧
      ∀ id ∈ r.setup_msg.requested_sessions,
        resp.pdu_session_res_setup_response_items.contains id =
          r.bearer_context_setup_response.pdu_session_resource_setup_list.contains id ∧
        resp.pdu_session_res_failed_to_setup_items.contains id =
          !r.bearer_context_setup_response.pdu_session_resource_setup_list.contains id ∧
        (r.bearer_context_setup_response.pdu_session_resource_setup_list.contains id = true →
          ∃ item, resp.pdu_session_res_setup_response_items.find id = some item ∧
            item.pdu_session_id = id) ∧
        (r.bearer_context_setup_response.pdu_session_resource_setup_list.contains id = false →
          ∃ item, resp.pdu_session_res_failed_to_setup_items.find id = some item ∧
            item.pdu_session_id = id ∧
            item.pdu_session_resource_setup_unsuccessful_transfer.cause
              = cause_t.radio_network) := by
  refine ⟨_, run_complete r hsteps hs, ?_⟩
  intro id hid
  unfold handle_pdu_session_resource_setup_result
  simp only [if_true]
  have hid2 : id ∈ r.setup_msg.pdu_session_res_setup_items.elems.map
      (fun i => i.pdu_session_id) := hid
  have h := success_fold r r.planned_state r.bearer_context_setup_response
    r.setup_msg.pdu_session_res_setup_items.elems {} id
  rw [if_pos hid2, if_pos hid2] at h
  rw [slotted_id_vector.contains_eq_isSome_find, slotted_id_vector.contains_eq_isSome_find,
    slotted_id_vector.contains_eq_isSome_find, h.1, h.2]
  cases hf : r.bearer_context_setup_response.pdu_session_resource_setup_list.find id with
  | none =>
    exact ⟨rfl, rfl, fun hc => Bool.noConfusion hc, fun _ => ⟨_, rfl, rfl, rfl⟩⟩
  | some acked =>
    exact ⟨rfl, rfl, fun _ => ⟨_, rfl, rfl⟩, fun hc => Bool.noConfusion hc⟩

/-- C9 on a request for sessions 3 and 4 of which the CU-UP acknowledges
session 3 only, all five peer steps being answered with success: session 3 is
in the setup list and not in the failed list, and session 4 is in the failed
list, with an item that carries the id 4 and the cause `radio_network`, and
not in the setup list. -/
theorem every_session_reported_once_witness :
    scenario_partial_setup.setup_msg.requested_sessions = [3, 4] ∧
    scenario_partial_setup.bearer_context_setup_response.pdu_session_resource_setup_list.contains 3 = true ∧
    scenario_partial_setup.bearer_context_setup_response.pdu_session_resource_setup_list.contains 4 = false ∧
    ∃ resp, scenario_partial_setup.run.response = some resp ∧
      ∀ id ∈ scenario_partial_setup.setup_msg.requested_sessions,
        resp.pdu_session_res_setup_response_items.contains id =
          scenario_partial_setup.bearer_context_setup_response.pdu_session_resource_setup_list.contains id ∧
        resp.pdu_session_res_failed_to_setup_items.contains id =
          !scenario_partial_setup.bearer_context_setup_response.pdu_session_resource_setup_list.contains id ∧
        (scenario_partial_setup.bearer_context_setup_response.pdu_session_resource_setup_list.contains id = true →
          ∃ item, resp.pdu_session_res_setup_response_items.find id = some item ∧
            item.pdu_session_id = id) ∧
        (scenario_partial_setup.bearer_context_setup_response.pdu_session_resource_setup_list.contains id = false →
          ∃ item, resp.pdu_session_res_failed_to_setup_items.find id = some item ∧
            item.pdu_session_id = id ∧
            item.pdu_session_resource_setup_unsuccessful_transfer.cause
              = cause_t.radio_network) :=
  ⟨by decide, by decide, by decide,
    every_session_reported_once scenario_partial_setup (by decide)
      (by decide)⟩

/-- C10: in a run in which all five peer steps were taken and answered with
success, a requested PDU session for which the bearer context setup response
of the CU-UP has an entry gets a success item: stored under the session id,
with that id, with the `ng_dl_up_tnl_info` of the CU-UP's entry as downlink
transport info, and with an associated QoS flow list that holds exactly the
flows `get_mapped_qos_flows` reports for the session, each under its id. If
the CU-UP's response has an entry for every requested session, the failed
list is empty. -/
theorem acknowledged_session_is_set_up (r : pdu_session_resource_setup_routine σ)
    (hsteps : r.run.exchanges.map peer_exchange.step = peer_steps_in_order)
    (hs : ∀ e ∈ r.run.exchanges, e.successful = true)
    (id : pdu_session_id_t) (hid : id ∈ r.setup_msg.requested_sessions)
    (acked : e1ap_pdu_session_resource_setup_modification_item)
    (hacked : r.bearer_context_setup_response.pdu_session_resource_setup_list.find id
      = some acked) :
    ∃ resp item, r.run.response = some resp ∧
      resp.pdu_session_res_setup_response_items.find id = some item ∧
      item.pdu_session_id = id ∧
      item.pdu_session_resource_setup_response_transfer.dlqos_flow_per_tnl_info.up_tp_layer_info
        = acked.ng_dl_up_tnl_info ∧
      (∀ flow_id,
        item.pdu_session_resource_setup_response_transfer.dlqos_flow_per_tnl_info.associated_qos_flow_list.find
          flow_id =
          if flow_id ∈ r.rrc_ue_drb_manager.get_mapped_qos_flows r.planned_state id then
            some { qos_flow_id := flow_id }
          else none) ∧
      ((∀ other ∈ r.setup_msg.requested_sessions,
          r.bearer_context_setup_response.pdu_session_resource_setup_list.contains other = true) →
        resp.pdu_session_res_failed_to_setup_items.empty = true) := by
  refine ⟨_, r.setup_response_item r.planned_state acked id, run_complete r hsteps hs, ?_, rfl,
    rfl, ?_, ?_⟩
  · unfold handle_pdu_session_resource_setup_result
    simp only [if_true]
    have hid2 : id ∈ r.setup_msg.pdu_session_res_setup_items.elems.map
        (fun i => i.pdu_session_id) := hid
    have h := (success_fold r r.planned_state r.bearer_context_setup_response
      r.setup_msg.pdu_session_res_setup_items.elems {} id).1
    rw [if_pos hid2, hacked] at h
    exact h
  · intro flow_id
    unfold setup_response_item
    simp only
    rw [associated_qos_flow_fold]
    rfl
  · intro hall
    unfold handle_pdu_session_resource_setup_result
    simp only [if_true]
    rw [success_fold_failed_unchanged]
    · rfl
    · intro i hi
      exact hall i.pdu_session_id (List.mem_map_of_mem _ hi)

/-- C10 on Scenario A with distinguishable transport info: session 3 gets a
success item with the downlink transport info 42 the CU-UP returned and the
flows the DRB manager maps to session 3, and the failed list is empty. -/
theorem acknowledged_session_is_set_up_witness :
    ∃ resp item, scenario_a_with_transport_info.run.response = some resp ∧
      resp.pdu_session_res_setup_response_items.find 3 = some item ∧
      item.pdu_session_id = 3 ∧
      item.pdu_session_resource_setup_response_transfer.dlqos_flow_per_tnl_info.up_tp_layer_info
        = 42 ∧
      (∀ flow_id,
        item.pdu_session_resource_setup_response_transfer.dlqos_flow_per_tnl_info.associated_qos_flow_list.find
          flow_id =
          if flow_id ∈ scenario_a_with_transport_info.rrc_ue_drb_manager.get_mapped_qos_flows
              scenario_a_with_transport_info.planned_state 3 then
            some { qos_flow_id := flow_id }
          else none) ∧
      ((∀ other ∈ scenario_a_with_transport_info.setup_msg.requested_sessions,
          scenario_a_with_transport_info.bearer_context_setup_response.pdu_session_resource_setup_list.contains
            other = true) →
        resp.pdu_session_res_failed_to_setup_items.empty = true) :=
  acknowledged_session_is_set_up scenario_a_with_transport_info (by decide) (by decide) 3
    (by decide)
    { pdu_session_id := 3
      ng_dl_up_tnl_info := 42
      drb_setup_list_ng_ran :=
        ({} : slotted_id_vector e1ap_drb_setup_item_ng_ran).emplace drb_id_t.drb1
          { drb_id := drb_id_t.drb1, ul_up_transport_params := [{ up_tnl_info := 17 }] } }
    (by decide)

end pdu_session_resource_setup_routine

/-! ## Theorems: causes, checks and request contents of the routine -/

namespace slotted_id_vector

variable {T : Type}

/-- An element of a container after `emplace` was there before or is the
emplaced one. -/
theorem mem_elems_emplace (v : slotted_id_vector T) (id : Nat) (x y : T)
    (h : y ∈ (v.emplace id x).elems) : y ∈ v.elems ∨ y = x := by
  unfold emplace at h
  unfold elems at h ⊢
  split at h
  · simp only [List.map_map, List.mem_map, Function.comp] at h
    obtain ⟨e, he, hy⟩ := h
    split at hy
    · exact Or.inr hy.symm
    · exact Or.inl (List.mem_map.mpr ⟨e, he, hy⟩)
  · simp only [List.map_append, List.map_cons, List.map_nil, List.mem_append,
      List.mem_singleton] at h
    exact h

end slotted_id_vector

namespace pdu_session_resource_setup_routine

variable {σ : Type}

/-- Every item of the failed list after the loop of
`handle_pdu_session_resource_setup_result(false)` was there before or has
cause `protocol`. -/
theorem failure_fold_elems (l : List cu_cp_pdu_session_res_setup_item)
    (init : cu_cp_pdu_session_resource_setup_response)
    (item : cu_cp_pdu_session_res_setup_failed_item)
    (h : item ∈ (l.foldl add_setup_failure init).pdu_session_res_failed_to_setup_items.elems) :
    item ∈ init.pdu_session_res_failed_to_setup_items.elems ∨
      item.pdu_session_resource_setup_unsuccessful_transfer.cause = cause_t.protocol := by
  induction l generalizing init with
  | nil => exact Or.inl h
  | cons a rest ih =>
    simp only [List.foldl_cons] at h
    rcases ih _ h with h1 | h1
    · unfold add_setup_failure at h1
      rcases slotted_id_vector.mem_elems_emplace _ _ _ _ h1 with h2 | h2
      · exact Or.inl h2
      · exact Or.inr (by rw [h2]; rfl)
    · exact Or.inr h1

/-- A run that returns a response without having made all five peer exchanges
with success returns the result of
`handle_pdu_session_resource_setup_result(false)`. -/
theorem run_failed (r : pdu_session_resource_setup_routine σ)
    (resp : cu_cp_pdu_session_resource_setup_response) (hresp : r.run.response = some resp)
    (hfailed : r.run.exchanges.map peer_exchange.step ≠ peer_steps_in_order ∨
      ∃ e ∈ r.run.exchanges, e.successful = false) :
    resp = r.handle_pdu_session_resource_setup_result r.drb_manager_state {} {} false := by
  revert hresp hfailed
  unfold run
  simp only []
  repeat' split
  all_goals
    simp_all [peer_exchange.step, peer_exchange.successful, peer_steps_in_order]


/-- The loop body "Add qos info" changes neither the DRB id nor the uplink
transport list of the item. -/
theorem add_qos_info_ok (r : pdu_session_resource_setup_routine σ) (session : pdu_session_id_t)
    (item item2 : cu_cp_drbs_to_be_setup_mod_item) (flow : qos_flow_id_t)
    (h : r.add_qos_info session item flow = step_result.ok item2) :
    item2.drb_id = item.drb_id ∧
      item2.ul_up_tnl_info_to_be_setup_list = item.ul_up_tnl_info_to_be_setup_list := by
  unfold add_qos_info at h
  split at h
  · cases h
  · split at h
    · cases h
    · split at h
      · cases h
      · simp only [step_result.ok.injEq] at h
        rw [← h]
        exact ⟨rfl, rfl⟩

/-- The loop "Add qos info" changes neither the DRB id nor the uplink
transport list of the item. -/
theorem qos_loop_ok (r : pdu_session_resource_setup_routine σ) (session : pdu_session_id_t)
    (flows : List qos_flow_id_t) (item item2 : cu_cp_drbs_to_be_setup_mod_item)
    (h : step_result.for_each (r.add_qos_info session) item flows = step_result.ok item2) :
    item2.drb_id = item.drb_id ∧
      item2.ul_up_tnl_info_to_be_setup_list = item.ul_up_tnl_info_to_be_setup_list := by
  induction flows generalizing item with
  | nil =>
    unfold step_result.for_each at h
    simp only [step_result.ok.injEq] at h
    rw [h]
    exact ⟨rfl, rfl⟩
  | cons f rest ih =>
    unfold step_result.for_each at h
    cases hb : r.add_qos_info session item f with
    | ok b =>
      rw [hb] at h
      have h1 := add_qos_info_ok r session item b f hb
      have h2 := ih b h
      exact ⟨h2.1.trans h1.1, h2.2.trans h1.2⟩
    | failed => rw [hb] at h; cases h
    | aborted => rw [hb] at h; cases h

/-- The loop body over a planned DRB passes only if the bearer context setup
response passes the checks for the DRB; it then emplaces under the DRB id an
item that carries the acknowledged uplink transport info, and leaves the UE
index as it was. -/
theorem add_drb_to_setup_ok (r : pdu_session_resource_setup_routine σ)
    (req req2 : cu_cp_ue_context_modification_request) (drb_to_add : drb_id_t)
    (h : r.add_drb_to_setup req drb_to_add = step_result.ok req2) :
    r.drb_acknowledged drb_to_add = true ∧ req2.ue_index = req.ue_index ∧
      ∃ item, r.carries_acknowledged_transport drb_to_add item ∧
        req2.drbs_to_be_setup_mod_list = req.drbs_to_be_setup_mod_list.emplace drb_to_add item := by
  unfold add_drb_to_setup at h
  simp only [] at h
  split at h
  · cases h
  · split at h
    · cases h
    · rename_i acked hacked
      split at h
      · cases h
      · rename_i drb hdrb
        split at h
        · cases h
        · rename_i hfl
          split at h
          · cases h
          · rename_i hff
            split at h
            · cases h
            · rename_i hlen
              split at h
              · cases h
              · cases h
              · rename_i item hitem
                simp only [step_result.ok.injEq] at h
                have hq := qos_loop_ok r _ _ _ _ hitem
                have hlen1 : drb.ul_up_transport_params.length = 1 := by
                  simpa using hlen
                obtain ⟨p, hp⟩ := List.length_eq_one.mp hlen1
                have hack : r.drb_acknowledged drb_to_add = true := by
                  unfold drb_acknowledged
                  rw [hacked]
                  simp only [hdrb]
                  simp only [Bool.not_eq_false] at hfl hff
                  simp [hfl, hff, hlen1]
                refine ⟨hack, by rw [← h], _, ?_, by rw [← h]⟩
                refine ⟨hq.1, acked, drb, p, hacked, hdrb, hp, ?_⟩
                simp only [hq.2, hp]
                rfl

/-- The loop over the planned DRBs passes only if the bearer context setup
response passes the checks for each of them; the request then keeps its UE
index, holds under each planned DRB id an item that carries the acknowledged
uplink transport info, and is unchanged under every other id. -/
theorem prepare_loop_ok (r : pdu_session_resource_setup_routine σ) (l : List drb_id_t)
    (init req : cu_cp_ue_context_modification_request)
    (h : step_result.for_each r.add_drb_to_setup init l = step_result.ok req) :
    req.ue_index = init.ue_index ∧
      (∀ drb ∈ l, r.drb_acknowledged drb = true) ∧
      (∀ k, k ∉ l →
        req.drbs_to_be_setup_mod_list.find k = init.drbs_to_be_setup_mod_list.find k) ∧
      (∀ k ∈ l, ∃ item, req.drbs_to_be_setup_mod_list.find k = some item ∧
        r.carries_acknowledged_transport k item) := by
  induction l generalizing init with
  | nil =>
    unfold step_result.for_each at h
    simp only [step_result.ok.injEq] at h
    rw [h]
    simp
  | cons a rest ih =>
    unfold step_result.for_each at h
    cases hb : r.add_drb_to_setup init a with
    | ok b =>
      rw [hb] at h
      obtain ⟨hack, hue, item, hitem, hlist⟩ := add_drb_to_setup_ok r init b a hb
      obtain ⟨i1, i2, i3, i4⟩ := ih b h
      refine ⟨i1.trans hue, ?_, ?_, ?_⟩
      · intro drb hd
        rcases List.mem_cons.mp hd with rfl | hr
        · exact hack
        · exact i2 drb hr
      · intro k hk
        simp only [List.mem_cons, not_or] at hk
        rw [i3 k hk.2, hlist, slotted_id_vector.find_emplace_ne _ _ _ _ hk.1]
      · intro k hk
        by_cases hkr : k ∈ rest
        · exact i4 k hkr
        · have hka : k = a := by
            rcases List.mem_cons.mp hk with h1 | h1
            · exact h1
            · exact absurd h1 hkr
          subst hka
          refine ⟨item, ?_, hitem⟩
          rw [i3 k hkr, hlist, slotted_id_vector.find_emplace_self]
    | failed => rw [hb] at h; cases h
    | aborted => rw [hb] at h; cases h

/-- The UE context modification request, when the routine gets to send it. -/
theorem prepare_ue_context_mod_request_ok (r : pdu_session_resource_setup_routine σ)
    (req : cu_cp_ue_context_modification_request)
    (h : r.prepare_ue_context_mod_request = step_result.ok req) :
    req.ue_index = r.setup_msg.ue_index ∧
      (∀ drb ∈ r.drb_to_add_list, r.drb_acknowledged drb = true) ∧
      (∀ k, req.drbs_to_be_setup_mod_list.contains k = true ↔ k ∈ r.drb_to_add_list) ∧
      (∀ k ∈ r.drb_to_add_list, ∃ item, req.drbs_to_be_setup_mod_list.find k = some item ∧
        r.carries_acknowledged_transport k item) := by
  unfold prepare_ue_context_mod_request at h
  obtain ⟨h1, h2, h3, h4⟩ := prepare_loop_ok r _ _ _ h
  refine ⟨h1, h2, ?_, h4⟩
  intro k
  rw [slotted_id_vector.contains_eq_isSome_find]
  by_cases hk : k ∈ r.drb_to_add_list
  · obtain ⟨item, hi, _⟩ := h4 k hk
    simp [hi, hk]
  · rw [h3 k hk]
    simp [hk, slotted_id_vector.find_empty]

/-- What a run has established when it contacts the DU: the request sent is
the prepared one, and the bearer context setup response has its success flag
set. -/
theorem ue_context_modification_sent (r : pdu_session_resource_setup_routine σ)
    (req : cu_cp_ue_context_modification_request)
    (resp : cu_cp_ue_context_modification_response)
    (h : peer_exchange.ue_context_modification req resp ∈ r.run.exchanges) :
    r.prepare_ue_context_mod_request = step_result.ok req ∧
      resp = r.f1ap_ue_ctxt_notifier.on_ue_context_modification_request req ∧
      r.bearer_context_setup_response.success = true := by
  revert h
  unfold run
  simp only []
  repeat' split
  all_goals
    simp_all

end pdu_session_resource_setup_routine


namespace pdu_session_resource_setup_routine

variable {σ : Type}

/-- The loop over the planned DRBs keeps the ids of the request's DRB list
distinct. -/
theorem prepare_loop_nodup (r : pdu_session_resource_setup_routine σ) (l : List drb_id_t)
    (init req : cu_cp_ue_context_modification_request)
    (h : step_result.for_each r.add_drb_to_setup init l = step_result.ok req)
    (hn : (init.drbs_to_be_setup_mod_list.entries.map (fun e => e.1)).Nodup) :
    (req.drbs_to_be_setup_mod_list.entries.map (fun e => e.1)).Nodup := by
  induction l generalizing init with
  | nil =>
    unfold step_result.for_each at h
    simp only [step_result.ok.injEq] at h
    rw [← h]
    exact hn
  | cons a rest ih =>
    unfold step_result.for_each at h
    cases hb : r.add_drb_to_setup init a with
    | ok b =>
      rw [hb] at h
      obtain ⟨_, _, item, _, hlist⟩ := add_drb_to_setup_ok r init b a hb
      apply ih b h
      rw [hlist]
      exact slotted_id_vector.nodup_ids_emplace _ _ _ hn
    | failed => rw [hb] at h; cases h
    | aborted => rw [hb] at h; cases h

/-- The radio bearer configuration of the RRC reconfiguration request is the
one constructed in the last turn of the loop over the planned DRBs: it holds
the last planned DRB and no other. -/
theorem radio_bearer_cfg_last (r : pdu_session_resource_setup_routine σ)
    (resp : cu_cp_ue_context_modification_response)
    (args : cu_cp_rrc_reconfiguration_procedure_request) :
    (r.prepare_rrc_reconfig_args resp args).radio_bearer_cfg =
      match r.drb_to_add_list.getLast? with
      | none => args.radio_bearer_cfg
      | some drb_to_add =>
        some
          { drb_to_add_mod_list :=
              ({} : slotted_id_vector cu_cp_drb_to_add_mod).emplace drb_to_add
                { drb_id := drb_to_add
                  pdcp_cfg :=
                    some (r.rrc_ue_drb_manager.get_pdcp_config r.planned_state drb_to_add)
                  cn_assoc :=
                    some
                      { sdap_cfg :=
                          some
                            (r.rrc_ue_drb_manager.get_sdap_config r.planned_state
                              drb_to_add) } } } := by
  unfold prepare_rrc_reconfig_args
  simp only []
  generalize r.drb_to_add_list = l
  induction l using List.reverseRecOn with
  | nil => rfl
  | append_singleton xs x _ =>
    rw [List.foldl_append, List.getLast?_append]
    rfl


/-- The result of `handle_pdu_session_resource_setup_result(false)` marks
every requested PDU session as failed with cause `protocol`, and holds no
failed item with another cause. -/
theorem failure_response_cause (r : pdu_session_resource_setup_routine σ) (st : σ)
    (cu_up_response : e1ap_bearer_context_setup_response) :
    (∀ item ∈ (r.handle_pdu_session_resource_setup_result st cu_up_response {}
        false).pdu_session_res_failed_to_setup_items.elems,
      item.pdu_session_resource_setup_unsuccessful_transfer.cause = cause_t.protocol) ∧
    ∀ id ∈ r.setup_msg.requested_sessions,
      (r.handle_pdu_session_resource_setup_result st cu_up_response {}
        false).pdu_session_res_failed_to_setup_items.find id =
        some (setup_failed_item cause_t.protocol id) := by
  refine ⟨?_, (failure_response r st cu_up_response).2⟩
  intro item hitem
  unfold handle_pdu_session_resource_setup_result at hitem
  simp only [Bool.false_eq_true, if_false] at hitem
  rcases failure_fold_elems _ _ item hitem with h | h
  · simp [slotted_id_vector.elems] at h
  · exact h

/-- C11: whenever a run returns a response without having completed all five
peer steps with success (an early return at any step, the duplicate PDU
session of Scenario C and a failed UE capability transfer included), every
item of the failed list carries the cause `protocol`, and every requested PDU
session has such an item. -/
theorem failed_run_reports_cause_protocol (r : pdu_session_resource_setup_routine σ)
    (resp : cu_cp_pdu_session_resource_setup_response) (hresp : r.run.response = some resp)
    (hfailed : r.run.exchanges.map peer_exchange.step ≠ peer_steps_in_order ∨
      ∃ e ∈ r.run.exchanges, e.successful = false) :
    (∀ item ∈ resp.pdu_session_res_failed_to_setup_items.elems,
      item.pdu_session_resource_setup_unsuccessful_transfer.cause = cause_t.protocol) ∧
    ∀ id ∈ r.setup_msg.requested_sessions,
      resp.pdu_session_res_failed_to_setup_items.find id =
        some (setup_failed_item cause_t.protocol id) := by
  rw [run_failed r resp hresp hfailed]
  exact failure_response_cause r _ _

/-- C11 on Scenario C: session 5 already has DRB 2; the run makes no peer
exchange and the response holds one failed item, for session 5, with cause
`protocol`. -/
theorem failed_run_reports_cause_protocol_witness :
    scenario_c.run.exchanges = [] ∧
    (∀ item ∈ ({ pdu_session_res_failed_to_setup_items :=
          { entries := [(5, setup_failed_item cause_t.protocol 5)] } } :
        cu_cp_pdu_session_resource_setup_response).pdu_session_res_failed_to_setup_items.elems,
      item.pdu_session_resource_setup_unsuccessful_transfer.cause = cause_t.protocol) ∧
    ∀ id ∈ scenario_c.setup_msg.requested_sessions,
      ({ pdu_session_res_failed_to_setup_items :=
          { entries := [(5, setup_failed_item cause_t.protocol 5)] } } :
        cu_cp_pdu_session_resource_setup_response).pdu_session_res_failed_to_setup_items.find id =
        some (setup_failed_item cause_t.protocol id) :=
  ⟨by decide,
    failed_run_reports_cause_protocol scenario_c
      { pdu_session_res_failed_to_setup_items :=
          { entries := [(5, setup_failed_item cause_t.protocol 5)] } }
      (by decide) (Or.inl (by decide))⟩

/-- C12, refuted as stated, on Scenario C: the Validate step fails because
the requested PDU session 5 already has a DRB, and the response marks
session 5 failed with cause `protocol`, not `radio_network`. -/
theorem validate_failure_cause_is_not_radio_network :
    (∃ id ∈ scenario_c.setup_msg.requested_sessions,
      scenario_c.rrc_ue_drb_manager.get_drbs scenario_c.drb_manager_state id ≠ []) ∧
    scenario_c.run =
      { exchanges := []
        response :=
          some
            { pdu_session_res_failed_to_setup_items :=
                { entries := [(5, setup_failed_item cause_t.protocol 5)] } } } ∧
    (setup_failed_item cause_t.protocol 5).pdu_session_resource_setup_unsuccessful_transfer.cause
      ≠ cause_t.radio_network := by
  refine ⟨⟨5, by decide, by decide⟩, by decide, by decide⟩

/-- A loop over a list leaves execution defined if its body does so on every
element. -/
theorem for_each_unit_not_aborted {α : Type} (body : α → step_result Unit) (l : List α)
    (h : ∀ a ∈ l, body a ≠ step_result.aborted) :
    step_result.for_each (fun _ a => body a) () l ≠ step_result.aborted := by
  induction l with
  | nil =>
    intro hc
    cases hc
  | cons x rest ih =>
    unfold step_result.for_each
    cases hx : body x with
    | ok b =>
      simp only [hx]
      exact ih (fun a ha => h a (List.mem_cons_of_mem _ ha))
    | failed =>
      simp only [hx]
      intro hc
      cases hc
    | aborted => exact absurd hx (h x (List.mem_cons_self _ _))

/-- The check of a QoS flow leaves execution defined unless the flow has no
configured 5QI and carries `dyn_5qi` without `non_dyn_5qi`. -/
theorem check_flow_5qi_not_aborted (r : pdu_session_resource_setup_routine σ)
    (flow_item : qos_flow_setup_request_item)
    (h : r.valid_5qi flow_item = false →
      flow_item.qos_flow_level_qos_params.qos_characteristics.dyn_5qi.isSome = true →
      flow_item.qos_flow_level_qos_params.qos_characteristics.non_dyn_5qi.isSome = true) :
    r.check_flow_5qi flow_item ≠ step_result.aborted := by
  unfold check_flow_5qi
  split
  · rename_i hv
    split
    · rename_i hd
      have hn := h hv hd
      split
      · intro hc
        cases hc
      · rename_i hnone
        rw [hnone] at hn
        cases hn
    · split <;>
        (intro hc
         cases hc)
  · intro hc
    cases hc

/-- The initial sanity checks leave execution defined when no requested QoS
flow without a configured 5QI carries `dyn_5qi` without `non_dyn_5qi`. -/
theorem initial_sanity_checks_not_aborted (r : pdu_session_resource_setup_routine σ)
    (h : ∀ setup_item ∈ r.setup_msg.pdu_session_res_setup_items.elems,
      ∀ flow_item ∈ setup_item.qos_flow_setup_request_items.elems,
        r.valid_5qi flow_item = false →
        flow_item.qos_flow_level_qos_params.qos_characteristics.dyn_5qi.isSome = true →
        flow_item.qos_flow_level_qos_params.qos_characteristics.non_dyn_5qi.isSome = true) :
    r.initial_sanity_checks ≠ step_result.aborted := by
  unfold initial_sanity_checks
  apply for_each_unit_not_aborted r.check_setup_item
  intro setup_item hmem
  unfold check_setup_item
  split
  · intro hc
    cases hc
  · apply for_each_unit_not_aborted r.check_flow_5qi
    intro flow_item hflow
    exact check_flow_5qi_not_aborted r flow_item (h setup_item hmem flow_item hflow)

/-- A run whose initial sanity checks take the early return makes no peer
exchange and returns the result of
`handle_pdu_session_resource_setup_result(false)`. -/
theorem run_of_failed_sanity_checks (r : pdu_session_resource_setup_routine σ)
    (h : r.initial_sanity_checks = step_result.failed) :
    r.run =
      { exchanges := []
        response :=
          some (r.handle_pdu_session_resource_setup_result r.drb_manager_state {} {} false) } := by
  unfold run
  simp only [h]

/-- C12, amended: when the Validate step fails (a requested PDU session
already has DRBs, or a requested QoS flow has no configured 5QI), and no
requested QoS flow without a configured 5QI carries `dyn_5qi` without
`non_dyn_5qi`, the routine makes no peer exchange and returns a response in
which all requested PDU sessions are marked failed with cause `protocol`: the
setup list is empty; every requested session has a failed item, found under
its id, that carries this id and the cause `protocol`; and the failed list
holds nothing else (every item carries the id of a requested session and the
cause `protocol`, no two the same id). -/
theorem validate_failure_marks_protocol (r : pdu_session_resource_setup_routine σ)
    (setup_item : cu_cp_pdu_session_res_setup_item)
    (hmem : setup_item ∈ r.setup_msg.pdu_session_res_setup_items.elems)
    (hbad : r.rrc_ue_drb_manager.get_drbs r.drb_manager_state setup_item.pdu_session_id ≠ [] ∨
      ∃ flow_item ∈ setup_item.qos_flow_setup_request_items.elems,
        r.valid_5qi flow_item = false)
    (hdesc : ∀ setup_item ∈ r.setup_msg.pdu_session_res_setup_items.elems,
      ∀ flow_item ∈ setup_item.qos_flow_setup_request_items.elems,
        r.valid_5qi flow_item = false →
        flow_item.qos_flow_level_qos_params.qos_characteristics.dyn_5qi.isSome = true →
        flow_item.qos_flow_level_qos_params.qos_characteristics.non_dyn_5qi.isSome = true) :
    r.run.exchanges = [] ∧
    ∃ resp, r.run.response = some resp ∧
      resp.pdu_session_res_setup_response_items.elems = [] ∧
      (∀ id ∈ r.setup_msg.requested_sessions,
        ∃ item, resp.pdu_session_res_failed_to_setup_items.find id = some item ∧
          item.pdu_session_id = id ∧
          item.pdu_session_resource_setup_unsuccessful_transfer.cause = cause_t.protocol) ∧
      (∀ item ∈ resp.pdu_session_res_failed_to_setup_items.elems,
        item.pdu_session_id ∈ r.setup_msg.requested_sessions ∧
          item.pdu_session_resource_setup_unsuccessful_transfer.cause = cause_t.protocol) ∧
      (resp.pdu_session_res_failed_to_setup_items.elems.map
        (fun item => item.pdu_session_id)).Nodup := by
  have hnotok : ∀ u, r.initial_sanity_checks ≠ step_result.ok u := by
    intro u hu
    have hok := initial_sanity_checks_ok r u hu setup_item hmem
    rcases hbad with hdup | ⟨flow_item, hflow, hv⟩
    · exact hdup hok.1
    · rw [hok.2 flow_item hflow] at hv
      cases hv
  have hfailed : r.initial_sanity_checks = step_result.failed := by
    cases h : r.initial_sanity_checks with
    | ok u => exact absurd h (hnotok u)
    | failed => rfl
    | aborted => exact absurd h (initial_sanity_checks_not_aborted r hdesc)
  rw [run_of_failed_sanity_checks r hfailed]
  exact ⟨rfl, _, rfl, failure_response_report r _ _ _ rfl⟩

/-- C12 amended, on a request for sessions 1 and 2 in which the flow of
session 2 has the unconfigured non-dynamic 5QI 5: no peer exchange is made,
and the response marks both sessions failed with cause `protocol`. -/
theorem validate_failure_marks_protocol_witness :
    unconfigured_5qi_in_second_session.setup_msg.requested_sessions = [1, 2] ∧
    unconfigured_5qi_in_second_session.run.exchanges = [] ∧
    ∃ resp, unconfigured_5qi_in_second_session.run.response = some resp ∧
      resp.pdu_session_res_setup_response_items.elems = [] ∧
      (∀ id ∈ unconfigured_5qi_in_second_session.setup_msg.requested_sessions,
        ∃ item, resp.pdu_session_res_failed_to_setup_items.find id = some item ∧
          item.pdu_session_id = id ∧
          item.pdu_session_resource_setup_unsuccessful_transfer.cause = cause_t.protocol) ∧
      (∀ item ∈ resp.pdu_session_res_failed_to_setup_items.elems,
        item.pdu_session_id ∈ unconfigured_5qi_in_second_session.setup_msg.requested_sessions ∧
          item.pdu_session_resource_setup_unsuccessful_transfer.cause = cause_t.protocol) ∧
      (resp.pdu_session_res_failed_to_setup_items.elems.map
        (fun item => item.pdu_session_id)).Nodup :=
  ⟨by decide,
    validate_failure_marks_protocol unconfigured_5qi_in_second_session
      (example_setup_item 2 [] [example_non_dyn_flow 1 5]) (by decide)
      (Or.inr ⟨example_non_dyn_flow 1 5, by decide, by decide⟩) (by decide)⟩

/-- The DU is contacted only if the bearer context setup
response has its success flag set and passes the checks for every planned
DRB. -/
theorem du_contacted_only_if_acknowledged (r : pdu_session_resource_setup_routine σ)
    (e : peer_exchange) (he : e ∈ r.run.exchanges)
    (hstep : e.step = peer_step.ue_context_modification) :
    r.bearer_context_setup_response.success = true ∧
      ∀ drb ∈ r.drb_to_add_list, r.drb_acknowledged drb = true := by
  cases e with
  | ue_context_modification req resp =>
    obtain ⟨hprep, _, hsucc⟩ := ue_context_modification_sent r req resp he
    exact ⟨hsucc, (prepare_ue_context_mod_request_ok r req hprep).2.1⟩
  | ue_capability_transfer _ _ => cases hstep
  | bearer_context_setup _ _ => cases hstep
  | bearer_context_modification _ _ => cases hstep
  | rrc_reconfiguration _ _ => cases hstep

/-- The DU is not contacted when a check of the bearer context setup response
fails. -/
theorem du_not_contacted_on_check_failure (r : pdu_session_resource_setup_routine σ)
    (hcheck : r.bearer_context_setup_response.success = false ∨
      ∃ drb ∈ r.drb_to_add_list, r.drb_acknowledged drb = false) :
    ∀ e ∈ r.run.exchanges, e.step ≠ peer_step.ue_context_modification := by
  intro e he hstep
  obtain ⟨hs, hall⟩ := du_contacted_only_if_acknowledged r e he hstep
  rcases hcheck with h | ⟨drb, hd, h⟩
  · rw [hs] at h
    cases h
  · rw [hall drb hd] at h
    cases h

/-- The peer steps of a run that reaches the bearer context setup and does not
contact the DU are the UE capability transfer and the bearer context setup. -/
theorem steps_up_to_bearer_context_setup (r : pdu_session_resource_setup_routine σ)
    (hreached : peer_step.bearer_context_setup ∈ r.run.exchanges.map peer_exchange.step)
    (hno : ∀ e ∈ r.run.exchanges, e.step ≠ peer_step.ue_context_modification) :
    r.run.exchanges.map peer_exchange.step =
      [peer_step.ue_capability_transfer, peer_step.bearer_context_setup] := by
  revert hreached hno
  unfold run
  simp only []
  repeat' split
  all_goals
    simp_all [peer_exchange.step]

/-- C13, refuted as stated, on Scenario B: the bearer context setup response
of the CU-UP has its success flag set and omits the requested session 3, so
the check for the planned DRB 1 fails; the response holds one failed item, for
session 3, with cause `protocol`, not `radio_network`. -/
theorem scenario_b_cause_is_not_radio_network :
    scenario_b.bearer_context_setup_response.success = true ∧
    scenario_b.bearer_context_setup_response.pdu_session_resource_setup_list.contains 3
      = false ∧
    scenario_b.run.response =
      some
        { pdu_session_res_failed_to_setup_items :=
            { entries := [(3, setup_failed_item cause_t.protocol 3)] } } ∧
    (setup_failed_item cause_t.protocol 3).pdu_session_resource_setup_unsuccessful_transfer.cause
      ≠ cause_t.radio_network := by
  decide

/-- A loop whose body leaves execution defined on every element leaves
execution defined. -/
theorem for_each_not_aborted {α β : Type} (body : β → α → step_result β) (l : List α) (b : β)
    (h : ∀ b2, ∀ a ∈ l, body b2 a ≠ step_result.aborted) :
    step_result.for_each body b l ≠ step_result.aborted := by
  induction l generalizing b with
  | nil =>
    intro hc
    cases hc
  | cons x rest ih =>
    unfold step_result.for_each
    cases hx : body b x with
    | ok b2 =>
      simp only []
      exact ih b2 (fun b3 a ha => h b3 a (List.mem_cons_of_mem _ ha))
    | failed =>
      simp only []
      intro hc
      cases hc
    | aborted => exact absurd hx (h b x (List.mem_cons_self _ _))

/-- The loop body "Add qos info" leaves execution defined for a flow that the
setup request lists under the session with a `non_dyn_5qi`. -/
theorem add_qos_info_not_aborted (r : pdu_session_resource_setup_routine σ)
    (session : pdu_session_id_t) (item : cu_cp_drbs_to_be_setup_mod_item) (flow : qos_flow_id_t)
    (h : ∃ setup_item flow_item non_dyn,
      r.setup_msg.pdu_session_res_setup_items.find session = some setup_item ∧
      setup_item.qos_flow_setup_request_items.find flow = some flow_item ∧
      flow_item.qos_flow_level_qos_params.qos_characteristics.non_dyn_5qi = some non_dyn) :
    r.add_qos_info session item flow ≠ step_result.aborted := by
  obtain ⟨setup_item, flow_item, non_dyn, h1, h2, h3⟩ := h
  unfold add_qos_info
  simp only [h1, h2, h3]
  intro hc
  cases hc

/-- The loop body over the planned DRBs leaves execution defined for a DRB of
a valid PDU session whose mapped QoS flows are flows of the setup request,
listed under that session, with a `non_dyn_5qi`. -/
theorem add_drb_to_setup_not_aborted (r : pdu_session_resource_setup_routine σ)
    (ue_context_mod_request : cu_cp_ue_context_modification_request) (drb_to_add : drb_id_t)
    (hvalid : r.rrc_ue_drb_manager.get_pdu_session_id r.planned_state drb_to_add
      ≠ pdu_session_id_t.invalid)
    (hflows : ∀ flow ∈ r.rrc_ue_drb_manager.get_mapped_qos_flows_of_drb r.planned_state drb_to_add,
      ∃ setup_item flow_item non_dyn,
        r.setup_msg.pdu_session_res_setup_items.find
          (r.rrc_ue_drb_manager.get_pdu_session_id r.planned_state drb_to_add) = some setup_item ∧
        setup_item.qos_flow_setup_request_items.find flow = some flow_item ∧
        flow_item.qos_flow_level_qos_params.qos_characteristics.non_dyn_5qi = some non_dyn) :
    r.add_drb_to_setup ue_context_mod_request drb_to_add ≠ step_result.aborted := by
  have hloop := for_each_not_aborted
    (r.add_qos_info (r.rrc_ue_drb_manager.get_pdu_session_id r.planned_state drb_to_add))
    (r.rrc_ue_drb_manager.get_mapped_qos_flows_of_drb r.planned_state drb_to_add)
    { drb_id := drb_to_add }
    (fun b2 flow hflow => add_qos_info_not_aborted r _ b2 flow (hflows flow hflow))
  unfold add_drb_to_setup
  simp only [if_neg hvalid]
  repeat' split
  all_goals
    first
    | (rename_i hloop2
       exact absurd hloop2 hloop)
    | (intro hc
       cases hc)

/-- The block that prepares the UE context modification request leaves
execution defined when every planned DRB belongs to a valid PDU session and
has its mapped QoS flows among the flows of the setup request for that
session, each with a `non_dyn_5qi`. -/
theorem prepare_ue_context_mod_request_not_aborted (r : pdu_session_resource_setup_routine σ)
    (h : ∀ drb ∈ r.drb_to_add_list,
      r.rrc_ue_drb_manager.get_pdu_session_id r.planned_state drb ≠ pdu_session_id_t.invalid ∧
      ∀ flow ∈ r.rrc_ue_drb_manager.get_mapped_qos_flows_of_drb r.planned_state drb,
        ∃ setup_item flow_item non_dyn,
          r.setup_msg.pdu_session_res_setup_items.find
            (r.rrc_ue_drb_manager.get_pdu_session_id r.planned_state drb) = some setup_item ∧
          setup_item.qos_flow_setup_request_items.find flow = some flow_item ∧
          flow_item.qos_flow_level_qos_params.qos_characteristics.non_dyn_5qi = some non_dyn) :
    r.prepare_ue_context_mod_request ≠ step_result.aborted := by
  unfold prepare_ue_context_mod_request
  apply for_each_not_aborted
  intro b2 drb hdrb
  exact add_drb_to_setup_not_aborted r b2 drb (h drb hdrb).1 (h drb hdrb).2

/-- A run that reaches the bearer context setup and does not contact the DU,
with the block that prepares the UE context modification request leaving
execution defined, returns the result of
`handle_pdu_session_resource_setup_result(false)`. -/
theorem run_of_failed_cu_up_check (r : pdu_session_resource_setup_routine σ)
    (hreached : peer_step.bearer_context_setup ∈ r.run.exchanges.map peer_exchange.step)
    (hno : ∀ e ∈ r.run.exchanges, e.step ≠ peer_step.ue_context_modification)
    (hna : r.prepare_ue_context_mod_request ≠ step_result.aborted) :
    r.run.response =
      some (r.handle_pdu_session_resource_setup_result r.drb_manager_state {} {} false) := by
  revert hreached hno
  unfold run
  simp only []
  repeat' split
  all_goals
    simp_all [peer_exchange.step]

/-- C13, amended: when the routine has received the bearer context setup
response and a check of it fails (success flag false, or for a planned DRB the
PDU session or the DRB missing from the response, a non-empty failed list, or
a number of uplink transport items other than one), and every planned DRB
belongs to a valid PDU session and has its mapped QoS flows among the flows
the setup request lists for that session, each with a `non_dyn_5qi`, the
routine makes no further peer exchange and returns a response in which all
requested PDU sessions are marked failed with cause `protocol`: the setup list
is empty; every requested session has a failed item, found under its id, that
carries this id and the cause `protocol`; and the failed list holds nothing
else (every item carries the id of a requested session and the cause
`protocol`, no two the same id). -/
theorem cu_up_check_failure_marks_protocol (r : pdu_session_resource_setup_routine σ)
    (hreached : peer_step.bearer_context_setup ∈ r.run.exchanges.map peer_exchange.step)
    (hcheck : r.bearer_context_setup_response.success = false ∨
      ∃ drb ∈ r.drb_to_add_list, r.drb_acknowledged drb = false)
    (hdefined : ∀ drb ∈ r.drb_to_add_list,
      r.rrc_ue_drb_manager.get_pdu_session_id r.planned_state drb ≠ pdu_session_id_t.invalid ∧
      ∀ flow ∈ r.rrc_ue_drb_manager.get_mapped_qos_flows_of_drb r.planned_state drb,
        ∃ setup_item flow_item non_dyn,
          r.setup_msg.pdu_session_res_setup_items.find
            (r.rrc_ue_drb_manager.get_pdu_session_id r.planned_state drb) = some setup_item ∧
          setup_item.qos_flow_setup_request_items.find flow = some flow_item ∧
          flow_item.qos_flow_level_qos_params.qos_characteristics.non_dyn_5qi = some non_dyn) :
    r.run.exchanges.map peer_exchange.step =
      [peer_step.ue_capability_transfer, peer_step.bearer_context_setup] ∧
    ∃ resp, r.run.response = some resp ∧
      resp.pdu_session_res_setup_response_items.elems = [] ∧
      (∀ id ∈ r.setup_msg.requested_sessions,
        ∃ item, resp.pdu_session_res_failed_to_setup_items.find id = some item ∧
          item.pdu_session_id = id ∧
          item.pdu_session_resource_setup_unsuccessful_transfer.cause = cause_t.protocol) ∧
      (∀ item ∈ resp.pdu_session_res_failed_to_setup_items.elems,
        item.pdu_session_id ∈ r.setup_msg.requested_sessions ∧
          item.pdu_session_resource_setup_unsuccessful_transfer.cause = cause_t.protocol) ∧
      (resp.pdu_session_res_failed_to_setup_items.elems.map
        (fun item => item.pdu_session_id)).Nodup := by
  have hno := du_not_contacted_on_check_failure r hcheck
  refine ⟨steps_up_to_bearer_context_setup r hreached hno, _,
    run_of_failed_cu_up_check r hreached hno
      (prepare_ue_context_mod_request_not_aborted r hdefined), ?_⟩
  exact failure_response_report r _ _ _ rfl

/-- C13 amended, on Scenario B: session 3 is the one requested session, DRB 1
is planned for it with the requested flow 1, and the successful CU-UP response
omits session 3. The run stops after the bearer context setup and returns a
response whose failed list holds exactly one item, which carries the session
id 3 and the cause `protocol`. -/
theorem cu_up_check_failure_marks_protocol_witness :
    scenario_b.setup_msg.requested_sessions = [3] ∧
    scenario_b.bearer_context_setup_response.success = true ∧
    scenario_b.bearer_context_setup_response.pdu_session_resource_setup_list.contains 3
      = false ∧
    scenario_b.run.response.map
        (fun resp =>
          resp.pdu_session_res_failed_to_setup_items.elems.map
            (fun item =>
              (item.pdu_session_id, item.pdu_session_resource_setup_unsuccessful_transfer.cause)))
      = some [(3, cause_t.protocol)] ∧
    scenario_b.run.exchanges.map peer_exchange.step =
      [peer_step.ue_capability_transfer, peer_step.bearer_context_setup] ∧
    ∃ resp, scenario_b.run.response = some resp ∧
      resp.pdu_session_res_setup_response_items.elems = [] ∧
      (∀ id ∈ scenario_b.setup_msg.requested_sessions,
        ∃ item, resp.pdu_session_res_failed_to_setup_items.find id = some item ∧
          item.pdu_session_id = id ∧
          item.pdu_session_resource_setup_unsuccessful_transfer.cause = cause_t.protocol) ∧
      (∀ item ∈ resp.pdu_session_res_failed_to_setup_items.elems,
        item.pdu_session_id ∈ scenario_b.setup_msg.requested_sessions ∧
          item.pdu_session_resource_setup_unsuccessful_transfer.cause = cause_t.protocol) ∧
      (resp.pdu_session_res_failed_to_setup_items.elems.map
        (fun item => item.pdu_session_id)).Nodup :=
  ⟨by decide, by decide, by decide, by decide,
    cu_up_check_failure_marks_protocol scenario_b (by decide)
      (Or.inr ⟨1, by decide, by decide⟩)
      (fun drb hdrb => by
        have hlist : scenario_b.drb_to_add_list = [1] := by decide
        rw [hlist, List.mem_singleton] at hdrb
        subst hdrb
        refine ⟨by decide, fun flow hflow => ?_⟩
        have hflows : scenario_b.rrc_ue_drb_manager.get_mapped_qos_flows_of_drb
            scenario_b.planned_state 1 = [1] := by decide
        rw [hflows, List.mem_singleton] at hflow
        subst hflow
        exact ⟨example_setup_item 3 [7, 7] [example_non_dyn_flow 1 9], example_non_dyn_flow 1 9,
          { five_qi := 9 }, by decide, by decide, by decide⟩)⟩

/-- C18, at a request for which the code drops a planned DRB: DRB 1 and DRB 2
are planned and the run reaches the RRC reconfiguration step, but the radio
bearer configuration of the RRC reconfiguration request holds an entry for
DRB 2 only. -/
theorem two_planned_drbs_one_in_rrc_reconfiguration :
    scenario_two_drbs.drb_to_add_list = [1, 2] ∧
    peer_exchange.rrc_reconfiguration
        (scenario_two_drbs.prepare_rrc_reconfig_args { success := true } {}) true ∈
      scenario_two_drbs.run.exchanges ∧
    ((scenario_two_drbs.prepare_rrc_reconfig_args { success := true } {}).radio_bearer_cfg.map
      (fun cfg => cfg.drb_to_add_mod_list.entries.map (fun e => e.1))) = some [2] := by
  decide

/-- C19: in every run that reaches the RRC reconfiguration step, the master
cell group of the request is the `cell_group_cfg` the DU returned in its UE
context modification response, and the dedicated NAS message list is the list
of the NAS PDUs of the requested PDU sessions, one per session, in the
iteration order of the request's PDU session items. -/
theorem rrc_reconfiguration_carries_cell_group_and_nas
    (r : pdu_session_resource_setup_routine σ)
    (args : cu_cp_rrc_reconfiguration_procedure_request) (result : Bool)
    (h : peer_exchange.rrc_reconfiguration args result ∈ r.run.exchanges) :
    ∃ du_request du_response ies,
      peer_exchange.ue_context_modification du_request du_response ∈ r.run.exchanges ∧
      args.non_crit_ext = some ies ∧
      ies.master_cell_group = du_response.du_to_cu_rrc_info.cell_group_cfg ∧
      ies.ded_nas_msg_list =
        r.setup_msg.pdu_session_res_setup_items.elems.map
          (fun pdu_session => pdu_session.pdu_session_nas_pdu) := by
  revert h
  unfold run
  simp only []
  repeat' split
  all_goals
    intro h
    simp only [List.mem_cons, List.mem_singleton, List.not_mem_nil, or_false, reduceCtorEq,
      false_or, peer_exchange.rrc_reconfiguration.injEq] at h
  all_goals
    obtain ⟨rfl, _⟩ := h
    exact ⟨_, _, _, List.mem_cons_of_mem _ (List.mem_cons_of_mem _ (List.mem_cons_self _ _)),
      rfl, rfl, rfl⟩

/-- C19 on the request for sessions 3 and 4 with NAS PDUs `[7]` and `[8]`. -/
theorem rrc_reconfiguration_carries_cell_group_and_nas_witness :
    ∃ du_request du_response ies,
      peer_exchange.ue_context_modification du_request du_response ∈
        scenario_two_drbs.run.exchanges ∧
      (scenario_two_drbs.prepare_rrc_reconfig_args { success := true } {}).non_crit_ext
        = some ies ∧
      ies.master_cell_group = du_response.du_to_cu_rrc_info.cell_group_cfg ∧
      ies.ded_nas_msg_list =
        scenario_two_drbs.setup_msg.pdu_session_res_setup_items.elems.map
          (fun pdu_session => pdu_session.pdu_session_nas_pdu) :=
  rrc_reconfiguration_carries_cell_group_and_nas scenario_two_drbs
    (scenario_two_drbs.prepare_rrc_reconfig_args { success := true } {}) true (by decide)

/-- C20: in every run that sends the UE context modification request to the
DU, the request carries the UE index of the setup request, and its
`drbs_to_be_setup_mod_list` holds exactly one item per planned DRB: the ids of
the list are distinct and are the planned DRB ids, and the item under a
planned DRB id has that DRB id and as uplink transport list the single
`up_tnl_info` that the bearer context setup response lists for the DRB. -/
theorem ue_context_modification_request_contents (r : pdu_session_resource_setup_routine σ)
    (du_request : cu_cp_ue_context_modification_request)
    (du_response : cu_cp_ue_context_modification_response)
    (h : peer_exchange.ue_context_modification du_request du_response ∈ r.run.exchanges) :
    du_request.ue_index = r.setup_msg.ue_index ∧
    (du_request.drbs_to_be_setup_mod_list.entries.map (fun e => e.1)).Nodup ∧
    (∀ k, du_request.drbs_to_be_setup_mod_list.contains k = true ↔ k ∈ r.drb_to_add_list) ∧
    ∀ drb ∈ r.drb_to_add_list,
      ∃ item acked drb_item up_params,
        du_request.drbs_to_be_setup_mod_list.find drb = some item ∧
        item.drb_id = drb ∧
        r.bearer_context_setup_response.pdu_session_resource_setup_list.find
          (r.rrc_ue_drb_manager.get_pdu_session_id r.planned_state drb) = some acked ∧
        acked.drb_setup_list_ng_ran.find drb = some drb_item ∧
        drb_item.ul_up_transport_params = [up_params] ∧
        item.ul_up_tnl_info_to_be_setup_list = [up_params.up_tnl_info] := by
  obtain ⟨hprep, _, _⟩ := ue_context_modification_sent r du_request du_response h
  obtain ⟨h1, _, h3, h4⟩ := prepare_ue_context_mod_request_ok r du_request hprep
  refine ⟨h1, ?_, h3, ?_⟩
  · unfold prepare_ue_context_mod_request at hprep
    exact prepare_loop_nodup r _ _ _ hprep List.nodup_nil
  · intro drb hd
    obtain ⟨item, hi, hid, acked, drb_item, up, ha, hdi, hup, hul⟩ := h4 drb hd
    exact ⟨item, acked, drb_item, up, hi, hid, ha, hdi, hup, hul⟩

/-- C20 on the request for sessions 3 and 4: the request to the DU holds DRB 1
with uplink transport info 17 and DRB 2 with uplink transport info 18, the
transport infos the CU-UP returned for them. -/
theorem ue_context_modification_request_contents_witness :
    scenario_two_drbs_du_request.ue_index = scenario_two_drbs.setup_msg.ue_index ∧
    (scenario_two_drbs_du_request.drbs_to_be_setup_mod_list.entries.map (fun e => e.1)).Nodup ∧
    (∀ k, scenario_two_drbs_du_request.drbs_to_be_setup_mod_list.contains k = true ↔
      k ∈ scenario_two_drbs.drb_to_add_list) ∧
    ∀ drb ∈ scenario_two_drbs.drb_to_add_list,
      ∃ item acked drb_item up_params,
        scenario_two_drbs_du_request.drbs_to_be_setup_mod_list.find drb = some item ∧
        item.drb_id = drb ∧
        scenario_two_drbs.bearer_context_setup_response.pdu_session_resource_setup_list.find
          (scenario_two_drbs.rrc_ue_drb_manager.get_pdu_session_id
            scenario_two_drbs.planned_state drb) = some acked ∧
        acked.drb_setup_list_ng_ran.find drb = some drb_item ∧
        drb_item.ul_up_transport_params = [up_params] ∧
        item.ul_up_tnl_info_to_be_setup_list = [up_params.up_tnl_info] :=
  ue_context_modification_request_contents scenario_two_drbs scenario_two_drbs_du_request
    { success := true } (by decide)

end pdu_session_resource_setup_routine


/-! ## Theorems: the CU-CP top-level orchestrator -/

/-- The index allocated is at most the capacity. -/
theorem get_next_index_le (capacity : Nat) (used : List Nat) :
    get_next_index capacity used ≤ capacity := by
  unfold get_next_index
  cases h : (List.range capacity).find? (fun i => !used.contains i) with
  | none => exact Nat.le_refl _
  | some i =>
    have hm := List.mem_of_find?_eq_some h
    rw [List.mem_range] at hm
    exact Nat.le_of_lt hm

/-- An index allocated below the capacity is not in use. -/
theorem get_next_index_not_mem (capacity : Nat) (used : List Nat)
    (h : get_next_index capacity used ≠ capacity) : get_next_index capacity used ∉ used := by
  unfold get_next_index at h ⊢
  cases hf : (List.range capacity).find? (fun i => !used.contains i) with
  | none =>
    rw [hf] at h
    exact absurd rfl h
  | some i =>
    have hp := List.find?_some hf
    simpa using hp

/-- When every index below the capacity is in use, the sentinel is returned. -/
theorem get_next_index_full (capacity : Nat) (used : List Nat)
    (h : ∀ i, i < capacity → i ∈ used) : get_next_index capacity used = capacity := by
  unfold get_next_index
  have hf : (List.range capacity).find? (fun i => !used.contains i) = none := by
    rw [List.find?_eq_none]
    intro i hi
    rw [List.mem_range] at hi
    simpa using h i hi
  rw [hf]
  rfl

/-- A list of distinct indexes below a capacity is no longer than the
capacity. -/
theorem length_le_of_nodup_bounded (l : List Nat) (n : Nat) (hn : l.Nodup)
    (hb : ∀ i ∈ l, i < n) : l.length ≤ n := by
  have hsub : l ⊆ List.range n := fun i hi => List.mem_range.mpr (hb i hi)
  have := (List.subperm_of_subset hn hsub).length_le
  rwa [List.length_range] at this

/-- A list of distinct indexes below a capacity that is as long as the
capacity holds every index below the capacity. -/
theorem full_of_nodup_bounded (l : List Nat) (n : Nat) (hn : l.Nodup)
    (hb : ∀ i ∈ l, i < n) (hlen : l.length = n) : ∀ i, i < n → i ∈ l := by
  have hsub : l ⊆ List.range n := fun i hi => List.mem_range.mpr (hb i hi)
  have hperm : l.Perm (List.range n) :=
    (List.subperm_of_subset hn hsub).perm_of_length_le (by rw [List.length_range, hlen])
  intro i hi
  exact hperm.mem_iff.mpr (List.mem_range.mpr hi)

namespace cu_cp

/-- Adding the index allocated, when it is not the sentinel, keeps the indexes
in use distinct and below the capacity. -/
theorem append_next_index_keeps (capacity : Nat) (l : List Nat) (hn : l.Nodup)
    (hb : ∀ i ∈ l, i < capacity) (hne : get_next_index capacity l ≠ capacity) :
    (l ++ [get_next_index capacity l]).Nodup ∧
      ∀ i ∈ l ++ [get_next_index capacity l], i < capacity := by
  have hnm := get_next_index_not_mem _ _ hne
  have hle := get_next_index_le capacity l
  refine ⟨?_, ?_⟩
  · apply List.Nodup.append hn (List.nodup_singleton _)
    intro k hk hk2
    rw [List.mem_singleton] at hk2
    subst hk2
    exact hnm hk
  · intro i hi
    rcases List.mem_append.mp hi with h1 | h1
    · exact hb i h1
    · rw [List.mem_singleton] at h1
      rw [h1]
      exact Nat.lt_of_le_of_ne hle hne

/-- Handling a call or message keeps the DU indexes in use distinct and below
`MAX_NOF_DUS`, and the CU-UP indexes in use distinct and below
`MAX_NOF_CU_UPS`. -/
theorem handle_keeps_indexes (c : cu_cp) (e : cu_cp_event)
    (h : (c.du_db.Nodup ∧ ∀ i ∈ c.du_db, i < MAX_NOF_DUS) ∧
      (c.cu_up_db.Nodup ∧ ∀ i ∈ c.cu_up_db, i < MAX_NOF_CU_UPS)) :
    ((c.handle e).du_db.Nodup ∧ ∀ i ∈ (c.handle e).du_db, i < MAX_NOF_DUS) ∧
      ((c.handle e).cu_up_db.Nodup ∧ ∀ i ∈ (c.handle e).cu_up_db, i < MAX_NOF_CU_UPS) := by
  obtain ⟨⟨hd1, hd2⟩, ⟨hc1, hc2⟩⟩ := h
  cases e with
  | new_du_connection =>
    simp only [handle]
    unfold handle_new_du_connection
    simp only []
    split
    · exact ⟨⟨hd1, hd2⟩, hc1, hc2⟩
    · rename_i hne
      exact ⟨append_next_index_keeps _ _ hd1 hd2 hne, hc1, hc2⟩
  | new_cu_up_connection =>
    simp only [handle]
    unfold handle_new_cu_up_connection
    simp only []
    split
    · exact ⟨⟨hd1, hd2⟩, hc1, hc2⟩
    · rename_i hne
      exact ⟨⟨hd1, hd2⟩, append_next_index_keeps _ _ hc1 hc2 hne⟩
  | du_remove_request du_index =>
    simp only [handle]
    unfold handle_du_remove_request
    exact ⟨⟨hd1.filter _, fun i hi => hd2 i (List.mem_filter.mp hi).1⟩, hc1, hc2⟩
  | cu_up_remove_request cu_up_index =>
    simp only [handle]
    unfold handle_cu_up_remove_request
    exact ⟨⟨hd1, hd2⟩, hc1.filter _, fun i hi => hc2 i (List.mem_filter.mp hi).1⟩
  | ng_setup_response => exact ⟨⟨hd1, hd2⟩, hc1, hc2⟩
  | amf_connection_drop => exact ⟨⟨hd1, hd2⟩, hc1, hc2⟩
  | initial_ul_rrc_message du_index =>
    simp only [handle]
    unfold handle_initial_ul_rrc_message
    simp only []
    repeat' split
    all_goals exact ⟨⟨hd1, hd2⟩, hc1, hc2⟩
  | rrc_setup_complete ue_index =>
    simp only [handle]
    unfold handle_rrc_setup_complete
    repeat' split
    all_goals exact ⟨⟨hd1, hd2⟩, hc1, hc2⟩
  | ue_context_release_complete ue_index => exact ⟨⟨hd1, hd2⟩, hc1, hc2⟩

/-- After every sequence of calls and messages the DU indexes in use are
distinct and below `MAX_NOF_DUS`, and the CU-UP indexes in use are distinct
and below `MAX_NOF_CU_UPS`. -/
theorem after_keeps_indexes (events : List cu_cp_event) :
    ((after events).du_db.Nodup ∧ ∀ i ∈ (after events).du_db, i < MAX_NOF_DUS) ∧
      ((after events).cu_up_db.Nodup ∧ ∀ i ∈ (after events).cu_up_db, i < MAX_NOF_CU_UPS) := by
  unfold after
  induction events using List.reverseRecOn with
  | nil => simp
  | append_singleton es e ih =>
    rw [List.foldl_append]
    exact handle_keeps_indexes _ e ih

/-- While the AMF is disconnected, the calls and messages of attach attempts
leave the CU-CP as it is. -/
theorem attach_attempts_rejected (attempts : List cu_cp_event) (c : cu_cp)
    (hamf : c.amf_connected = false) (hatt : ∀ e ∈ attempts, e.is_attach_attempt = true) :
    attempts.foldl cu_cp.handle c = c := by
  induction attempts with
  | nil => rfl
  | cons e rest ih =>
    have he := hatt e (List.mem_cons_self _ _)
    have hstep : c.handle e = c := by
      cases e with
      | initial_ul_rrc_message du_index =>
        show c.handle_initial_ul_rrc_message du_index = c
        unfold handle_initial_ul_rrc_message
        rw [if_pos hamf]
      | rrc_setup_complete ue_index =>
        show c.handle_rrc_setup_complete ue_index = c
        unfold handle_rrc_setup_complete
        rw [if_pos hamf]
      | new_du_connection => cases he
      | du_remove_request _ => cases he
      | new_cu_up_connection => cases he
      | cu_up_remove_request _ => cases he
      | ng_setup_response => cases he
      | amf_connection_drop => cases he
      | ue_context_release_complete _ => cases he
    rw [List.foldl_cons, hstep]
    exact ih (fun e2 h2 => hatt e2 (List.mem_cons_of_mem _ h2))

/-- C15: after every sequence of calls and messages (connections, removals
and the rest), `get_nof_dus` is at most `MAX_NOF_DUS` and `get_nof_cu_ups` at
most `MAX_NOF_CU_UPS`; and a connection attempted when `MAX_NOF_DUS` DUs
(`MAX_NOF_CU_UPS` CU-UPs) are connected leaves the CU-CP, and so the count,
unchanged. -/
theorem connection_capacity_enforced (events : List cu_cp_event) :
    (after events).get_nof_dus ≤ MAX_NOF_DUS ∧
    (after events).get_nof_cu_ups ≤ MAX_NOF_CU_UPS ∧
    ((after events).get_nof_dus = MAX_NOF_DUS →
      (after (events ++ [cu_cp_event.new_du_connection])).get_nof_dus = MAX_NOF_DUS ∧
      after (events ++ [cu_cp_event.new_du_connection]) = after events) ∧
    ((after events).get_nof_cu_ups = MAX_NOF_CU_UPS →
      (after (events ++ [cu_cp_event.new_cu_up_connection])).get_nof_cu_ups = MAX_NOF_CU_UPS ∧
      after (events ++ [cu_cp_event.new_cu_up_connection]) = after events) := by
  obtain ⟨⟨hd1, hd2⟩, ⟨hc1, hc2⟩⟩ := after_keeps_indexes events
  refine ⟨length_le_of_nodup_bounded _ _ hd1 hd2, length_le_of_nodup_bounded _ _ hc1 hc2, ?_, ?_⟩
  · intro hfull
    have hall := full_of_nodup_bounded _ _ hd1 hd2 hfull
    have hsame : after (events ++ [cu_cp_event.new_du_connection]) = after events := by
      unfold after
      rw [List.foldl_append]
      show (List.foldl cu_cp.handle {} events).handle_new_du_connection = _
      unfold handle_new_du_connection
      simp only []
      rw [if_pos]
      exact get_next_index_full _ _ hall
    rw [hsame]
    exact ⟨hfull, rfl⟩
  · intro hfull
    have hall := full_of_nodup_bounded _ _ hc1 hc2 hfull
    have hsame : after (events ++ [cu_cp_event.new_cu_up_connection]) = after events := by
      unfold after
      rw [List.foldl_append]
      show (List.foldl cu_cp.handle {} events).handle_new_cu_up_connection = _
      unfold handle_new_cu_up_connection
      simp only []
      rw [if_pos]
      exact get_next_index_full _ _ hall
    rw [hsame]
    exact ⟨hfull, rfl⟩

/-- C15 after two DU connections and two CU-UP connections: both counts are
at capacity, and a third connection of either kind leaves them there. -/
theorem connection_capacity_enforced_witness :
    (after [cu_cp_event.new_du_connection, cu_cp_event.new_cu_up_connection,
        cu_cp_event.new_du_connection, cu_cp_event.new_cu_up_connection]).get_nof_dus
      = MAX_NOF_DUS ∧
    (after ([cu_cp_event.new_du_connection, cu_cp_event.new_cu_up_connection,
        cu_cp_event.new_du_connection, cu_cp_event.new_cu_up_connection] ++
        [cu_cp_event.new_du_connection])).get_nof_dus = MAX_NOF_DUS ∧
    (after ([cu_cp_event.new_du_connection, cu_cp_event.new_cu_up_connection,
        cu_cp_event.new_du_connection, cu_cp_event.new_cu_up_connection] ++
        [cu_cp_event.new_cu_up_connection])).get_nof_cu_ups = MAX_NOF_CU_UPS :=
  ⟨by decide,
    ((connection_capacity_enforced
      [cu_cp_event.new_du_connection, cu_cp_event.new_cu_up_connection,
        cu_cp_event.new_du_connection, cu_cp_event.new_cu_up_connection]).2.2.1
      (by decide)).1,
    ((connection_capacity_enforced
      [cu_cp_event.new_du_connection, cu_cp_event.new_cu_up_connection,
        cu_cp_event.new_du_connection, cu_cp_event.new_cu_up_connection]).2.2.2
      (by decide)).1⟩

/-- C16: the AMF is not connected after construction, and not after
`handle_amf_connection_drop`, which leaves the UE contexts as they are; and
while the AMF is not connected, the Initial UL RRC messages and RRC Setup
Completes of attach attempts add no UE (`get_nof_ues` is unchanged) and send
no message to the AMF. -/
theorem ue_attach_rejected_while_amf_disconnected (events attempts : List cu_cp_event)
    (hatt : ∀ e ∈ attempts, e.is_attach_attempt = true) :
    (after []).amf_is_connected = false ∧
    ((after (events ++ [cu_cp_event.amf_connection_drop])).amf_is_connected = false ∧
      (after (events ++ [cu_cp_event.amf_connection_drop])).ue_db = (after events).ue_db ∧
      (after (events ++ [cu_cp_event.amf_connection_drop])).get_nof_ues
        = (after events).get_nof_ues) ∧
    ((after events).amf_is_connected = false →
      (after (events ++ attempts)).get_nof_ues = (after events).get_nof_ues ∧
      (after (events ++ attempts)).ue_db = (after events).ue_db ∧
      (after (events ++ attempts)).ngap_sent = (after events).ngap_sent) := by
  refine ⟨rfl, ?_, ?_⟩
  · unfold after
    rw [List.foldl_append]
    exact ⟨rfl, rfl, rfl⟩
  · intro hamf
    have hsame : after (events ++ attempts) = after events := by
      unfold after
      rw [List.foldl_append]
      exact attach_attempts_rejected attempts _ hamf hatt
    rw [hsame]
    exact ⟨rfl, rfl, rfl⟩

set_option maxRecDepth 20000 in
/-- C16 on the test `when_amf_connection_drop_then_reject_ue`: a first UE
attaches through DU 0 while the AMF is connected, the AMF connection drops,
and the attach attempt of a second UE leaves one UE counted and the one
Initial UE Message of the first UE as the only message to the AMF. -/
theorem ue_attach_rejected_while_amf_disconnected_witness :
    (after [cu_cp_event.ng_setup_response, cu_cp_event.new_du_connection,
        cu_cp_event.initial_ul_rrc_message 0, cu_cp_event.rrc_setup_complete 0,
        cu_cp_event.amf_connection_drop]).get_nof_ues = 1 ∧
    (after ([cu_cp_event.ng_setup_response, cu_cp_event.new_du_connection,
        cu_cp_event.initial_ul_rrc_message 0, cu_cp_event.rrc_setup_complete 0,
        cu_cp_event.amf_connection_drop] ++
        [cu_cp_event.initial_ul_rrc_message 0, cu_cp_event.rrc_setup_complete 1])).get_nof_ues
      = (after [cu_cp_event.ng_setup_response, cu_cp_event.new_du_connection,
        cu_cp_event.initial_ul_rrc_message 0, cu_cp_event.rrc_setup_complete 0,
        cu_cp_event.amf_connection_drop]).get_nof_ues ∧
    (after ([cu_cp_event.ng_setup_response, cu_cp_event.new_du_connection,
        cu_cp_event.initial_ul_rrc_message 0, cu_cp_event.rrc_setup_complete 0,
        cu_cp_event.amf_connection_drop] ++
        [cu_cp_event.initial_ul_rrc_message 0, cu_cp_event.rrc_setup_complete 1])).ngap_sent
      = [ngap_message.init_ue_msg 0] :=
  ⟨by decide,
    ((ue_attach_rejected_while_amf_disconnected
      [cu_cp_event.ng_setup_response, cu_cp_event.new_du_connection,
        cu_cp_event.initial_ul_rrc_message 0, cu_cp_event.rrc_setup_complete 0,
        cu_cp_event.amf_connection_drop]
      [cu_cp_event.initial_ul_rrc_message 0, cu_cp_event.rrc_setup_complete 1]
      (by decide)).2.2 (by decide)).1,
    by decide⟩

end cu_cp


/-! ## Theorems: the per-UE task queue -/

/-- A list that ends in `e`, split at one of its elements: the element is `e`
itself, or the split lies in the front part. -/
theorem append_single_eq_append_cons {α : Type} (l pre post : List α) (e x : α)
    (h : l ++ [e] = pre ++ x :: post) :
    (post = [] ∧ pre = l ∧ x = e) ∨ ∃ post0, post = post0 ++ [e] ∧ l = pre ++ x :: post0 := by
  rcases List.eq_nil_or_concat post with rfl | ⟨post0, e', rfl⟩
  · left
    have h2 := List.append_inj' h rfl
    refine ⟨rfl, h2.1.symm, ?_⟩
    have h3 := h2.2
    simp only [List.cons.injEq, and_true] at h3
    exact h3.symm
  · right
    have h1 : l ++ [e] = (pre ++ x :: post0) ++ [e'] := by
      rw [h]; simp
    have h2 := List.append_inj' h1 rfl
    have h3 := h2.2
    simp only [List.cons.injEq, and_true] at h3
    exact ⟨post0, by rw [h3, List.concat_eq_append], h2.1⟩

namespace ue_task_scheduler

/-- The empty task queues are consistent. -/
theorem consistent_init : consistent {} := by
  refine ⟨?_, ?_, ?_, ?_, ?_, ?_, ?_, ?_⟩
  · intro ue; simp [queued_ids]
  · intro ue a h; simp [queued_ids] at h
  · intro e h; simp at h
  · intro ue ev h; simp at h
  · intro ue a h; simp at h
  · intro ue pre b call post h; simp at h
  · simp
  · simp

/-- Scheduling a task keeps the task queues consistent. -/
theorem consistent_schedule_async_task (s : ue_task_scheduler) (ue_index : Nat)
    (task : routine_run) (hs : s.consistent) :
    (s.schedule_async_task ue_index task).consistent := by
  unfold schedule_async_task async_task_sequencer.schedule
  split
  rotate_left
  · exact hs
  rename_i q hq
  split at hq
  rotate_left
  · simp at hq
  simp only [Prod.mk.injEq, true_and] at hq
  subst hq
  have hids : ∀ u, queued_ids
      { ue_ctrl_loop := fun u => if u = ue_index then
          { s.ue_ctrl_loop ue_index with tasks := (s.ue_ctrl_loop ue_index).tasks ++
            [{ task_id := s.next_id, calls := task.exchanges, response := task.response }] }
          else s.ue_ctrl_loop u
        next_id := s.next_id + 1
        log := s.log ++ [(ue_index, task_event.scheduled s.next_id)] } u
      = if u = ue_index then s.queued_ids u ++ [s.next_id] else s.queued_ids u := by
    intro u
    by_cases hu : u = ue_index
    · subst hu; simp [queued_ids]
    · simp [queued_ids, hu]
  refine ⟨?_, ?_, ?_, ?_, ?_, ?_, ?_, ?_⟩
  · intro ue
    rw [hids]
    split
    · rw [List.pairwise_append]
      refine ⟨hs.queue_sorted ue, by simp, ?_⟩
      intro a ha b hb
      simp only [List.mem_singleton] at hb
      subst hb
      exact hs.queue_lt ue a ha
    · exact hs.queue_sorted ue
  · intro ue a ha
    rw [hids] at ha
    simp only
    split at ha
    · rcases List.mem_append.1 ha with h | h
      · exact Nat.lt_succ_of_lt (hs.queue_lt ue a h)
      · simp only [List.mem_singleton] at h
        omega
    · exact Nat.lt_succ_of_lt (hs.queue_lt ue a ha)
  · intro e he
    simp only at he ⊢
    rcases List.mem_append.1 he with h | h
    · exact Nat.lt_succ_of_lt (hs.log_lt e h)
    · simp only [List.mem_singleton] at h
      subst h
      simp [task_event.task_id]
  · intro ue ev hev hrun a ha
    simp only at hev
    rw [hids] at ha
    rcases List.mem_append.1 hev with h | h
    · have hlt := hs.log_lt _ h
      simp only at hlt
      split at ha
      · rcases List.mem_append.1 ha with h2 | h2
        · exact hs.run_le ue ev h hrun a h2
        · simp only [List.mem_singleton] at h2
          omega
      · exact hs.run_le ue ev h hrun a ha
    · simp only [List.mem_singleton, Prod.mk.injEq] at h
      rw [h.2] at hrun
      simp [task_event.is_run] at hrun
  · intro ue a ha
    simp only at ha ⊢
    rw [hids]
    rcases List.mem_append.1 ha with h | h
    · rcases hs.scheduled_kept ue a h with h2 | ⟨r, h2⟩
      · left
        split
        · exact List.mem_append_left _ h2
        · exact h2
      · exact Or.inr ⟨r, List.mem_append_left _ h2⟩
    · simp only [List.mem_singleton, Prod.mk.injEq, task_event.scheduled.injEq] at h
      left
      rw [if_pos h.1, h.2]
      simp
  · intro ue pre b call post hlog a hab ha
    simp only at hlog ha
    rcases append_single_eq_append_cons _ _ _ _ _ hlog with ⟨_, _, h⟩ | ⟨post0, _, h⟩
    · simp at h
    · have hb : b < s.next_id := by
        have := hs.log_lt (ue, task_event.peer_request b call) (by rw [h]; simp)
        simpa [task_event.task_id] using this
      rcases List.mem_append.1 ha with h2 | h2
      · exact hs.serialized ue pre b call post0 h a hab h2
      · simp only [List.mem_singleton, Prod.mk.injEq, task_event.scheduled.injEq] at h2
        omega
  · simp only
    rw [List.pairwise_append]
    refine ⟨hs.run_sorted, by simp, ?_⟩
    intro e1 _ e2 h2
    simp only [List.mem_singleton] at h2
    subst h2
    intro _ _ h
    simp [task_event.is_run] at h
  · simp only
    rw [List.pairwise_append]
    refine ⟨hs.scheduled_sorted, by simp, ?_⟩
    intro e1 h1 e2 h2
    simp only [List.mem_singleton] at h2
    subst h2
    intro _ _
    exact hs.log_lt e1 h1

/-- A step of the task at the head of the queue of a UE keeps the task queues
consistent: the task stays at the head, or it returns and leaves the queue. -/
theorem consistent_of_run_step (s s' : ue_task_scheduler) (ue_index b : Nat)
    (ids : List Nat) (ev : task_event) (hs : s.consistent)
    (hq : s.queued_ids ue_index = b :: ids)
    (hnext : s'.next_id = s.next_id)
    (hlog : s'.log = s.log ++ [(ue_index, ev)])
    (hrun : ev.is_run = true) (hid : ev.task_id = b)
    (hother : ∀ u, u ≠ ue_index → s'.queued_ids u = s.queued_ids u)
    (hcase : s'.queued_ids ue_index = b :: ids ∨
      (s'.queued_ids ue_index = ids ∧ ∃ r, ev = task_event.returned b r)) :
    s'.consistent := by
  have hsorted := hs.queue_sorted ue_index
  rw [hq, List.pairwise_cons] at hsorted
  have hbmem : b ∈ s.queued_ids ue_index := by rw [hq]; simp
  have hsub : ∀ u a, a ∈ s'.queued_ids u → a ∈ s.queued_ids u := by
    intro u a ha
    by_cases hu : u = ue_index
    · subst hu
      rcases hcase with h | ⟨h, _⟩
      · rw [hq, ← h]; exact ha
      · rw [hq]; rw [h] at ha; exact List.mem_cons_of_mem _ ha
    · rw [← hother u hu]; exact ha
  have hle : ∀ a ∈ s.queued_ids ue_index, b ≤ a := by
    intro a ha
    rw [hq] at ha
    rcases List.mem_cons.1 ha with h | h
    · omega
    · exact Nat.le_of_lt (hsorted.1 a h)
  refine ⟨?_, ?_, ?_, ?_, ?_, ?_, ?_, ?_⟩
  · intro u
    by_cases hu : u = ue_index
    · subst hu
      rcases hcase with h | ⟨h, _⟩
      · rw [h, ← hq]; exact hs.queue_sorted u
      · rw [h]; exact hsorted.2
    · rw [hother u hu]; exact hs.queue_sorted u
  · intro u a ha
    rw [hnext]
    exact hs.queue_lt u a (hsub u a ha)
  · intro e he
    rw [hnext]
    rw [hlog] at he
    rcases List.mem_append.1 he with h | h
    · exact hs.log_lt e h
    · simp only [List.mem_singleton] at h
      subst h
      simp only [hid]
      exact hs.queue_lt ue_index b hbmem
  · intro u ev' hev hrun' a ha
    rw [hlog] at hev
    have ha' := hsub u a ha
    rcases List.mem_append.1 hev with h | h
    · exact hs.run_le u ev' h hrun' a ha'
    · simp only [List.mem_singleton, Prod.mk.injEq] at h
      obtain ⟨rfl, rfl⟩ := h
      rw [hid]
      exact hle a ha'
  · intro u a ha
    rw [hlog] at ha ⊢
    have hold : (u, task_event.scheduled a) ∈ s.log := by
      rcases List.mem_append.1 ha with h | h
      · exact h
      · simp only [List.mem_singleton, Prod.mk.injEq] at h
        rw [← h.2] at hrun
        simp [task_event.is_run] at hrun
    rcases hs.scheduled_kept u a hold with h | ⟨r, h⟩
    · by_cases hu : u = ue_index
      · subst hu
        rcases hcase with h2 | ⟨h2, r, hr⟩
        · left; rw [h2, ← hq]; exact h
        · rw [hq] at h
          rcases List.mem_cons.1 h with h3 | h3
          · right
            refine ⟨r, ?_⟩
            rw [hr, h3]
            simp
          · left; rw [h2]; exact h3
      · left; rw [hother u hu]; exact h
    · exact Or.inr ⟨r, List.mem_append_left _ h⟩
  · intro u pre c call post hsplit a hac ha
    rw [hlog] at hsplit ha
    have hold : (u, task_event.scheduled a) ∈ s.log := by
      rcases List.mem_append.1 ha with h | h
      · exact h
      · simp only [List.mem_singleton, Prod.mk.injEq] at h
        rw [← h.2] at hrun
        simp [task_event.is_run] at hrun
    rcases append_single_eq_append_cons _ _ _ _ _ hsplit with ⟨_, hpre, h⟩ | ⟨post0, _, h⟩
    · simp only [Prod.mk.injEq] at h
      obtain ⟨rfl, hev⟩ := h
      have hcb : c = b := by rw [← hid, ← hev]; rfl
      subst hpre
      rcases hs.scheduled_kept u a hold with h2 | h2
      · have := hle a h2
        omega
      · exact h2
    · exact hs.serialized u pre c call post0 h a hac hold
  · rw [hlog, List.pairwise_append]
    refine ⟨hs.run_sorted, by simp, ?_⟩
    intro e1 h1 e2 h2
    simp only [List.mem_singleton] at h2
    subst h2
    intro hu hrun1 _
    simp only [hid]
    simp only at hu
    have h1' : (ue_index, e1.2) ∈ s.log := by rw [← hu]; exact h1
    exact hs.run_le ue_index e1.2 h1' hrun1 b hbmem
  · rw [hlog, List.pairwise_append]
    refine ⟨hs.scheduled_sorted, by simp, ?_⟩
    intro e1 _ e2 h2
    simp only [List.mem_singleton] at h2
    subst h2
    intro _ h
    simp only at h
    rw [hrun] at h
    exact absurd h (by decide)

/-- The three outcomes of a resumption: nothing to run, a peer request of the
task at the head, or the return of the task at the head. -/
theorem resume_cases (q : async_task_sequencer) :
    (q.tasks = [] ∧ q.resume = (none, q)) ∨
    (∃ task pending call calls, q.tasks = task :: pending ∧ task.calls = call :: calls ∧
      q.resume = (some (task_event.peer_request task.task_id call),
        { q with tasks := { task with calls := calls } :: pending })) ∨
    (∃ task pending, q.tasks = task :: pending ∧ task.calls = [] ∧
      q.resume = (some (task_event.returned task.task_id task.response),
        { q with tasks := pending })) := by
  rcases q with ⟨n, tasks⟩
  cases tasks with
  | nil => left; simp [async_task_sequencer.resume]
  | cons task pending =>
    rcases task with ⟨i, calls, response⟩
    cases calls with
    | nil => exact Or.inr (Or.inr ⟨_, _, rfl, rfl, rfl⟩)
    | cons call calls => exact Or.inr (Or.inl ⟨_, _, _, _, rfl, rfl, rfl⟩)

/-- Resuming the loop of a UE keeps the task queues consistent. -/
theorem consistent_resume (s : ue_task_scheduler) (ue_index : Nat) (hs : s.consistent) :
    (s.resume ue_index).consistent := by
  unfold resume
  rcases resume_cases (s.ue_ctrl_loop ue_index) with
    ⟨_, h⟩ | ⟨task, pending, call, calls, htasks, _, h⟩ | ⟨task, pending, htasks, _, h⟩
  · rw [h]; exact hs
  · rw [h]
    refine consistent_of_run_step s _ ue_index task.task_id
      (pending.map (fun t => t.task_id)) _ hs ?_ rfl rfl rfl rfl ?_ ?_
    · simp [queued_ids, htasks]
    · intro u hu; simp [queued_ids, hu]
    · left; simp [queued_ids]
  · rw [h]
    refine consistent_of_run_step s _ ue_index task.task_id
      (pending.map (fun t => t.task_id)) _ hs ?_ rfl rfl rfl rfl ?_ ?_
    · simp [queued_ids, htasks]
    · intro u hu; simp [queued_ids, hu]
    · right; exact ⟨by simp [queued_ids], _, rfl⟩

/-- Every event keeps the task queues consistent. -/
theorem consistent_handle (s : ue_task_scheduler) (e : scheduler_event) (hs : s.consistent) :
    (s.handle e).consistent := by
  cases e with
  | schedule_async_task ue_index task => exact consistent_schedule_async_task s ue_index task hs
  | resume ue_index => exact consistent_resume s ue_index hs

/-- The task queues are consistent after every sequence of events. -/
theorem consistent_after (events : List scheduler_event) : (after events).consistent := by
  unfold after
  induction events using List.reverseRecOn with
  | nil => exact consistent_init
  | append_singleton events e ih =>
    rw [List.foldl_append]
    exact consistent_handle _ e ih

/-- C17: after every sequence of schedulings and resumptions, if a task of
a UE issues a peer request and a task with a smaller ticket (scheduled
earlier) was scheduled for the same UE, then the earlier task has returned its
response before that request, every later step of a task of that UE belongs to
a task with a ticket at least as large, the steps of the tasks of one UE are
logged in ticket order (FIFO), and tickets are given in scheduling order. -/
theorem same_ue_tasks_never_interleave (events : List scheduler_event) (ue a b : Nat)
    (pre post : List (Nat × task_event)) (call : peer_exchange)
    (ha : (ue, task_event.scheduled a) ∈ (after events).log) (hab : a < b)
    (hsplit : (after events).log = pre ++ (ue, task_event.peer_request b call) :: post) :
    (∃ r, (ue, task_event.returned a r) ∈ pre) ∧
    (∀ ev, (ue, ev) ∈ post → ev.is_run = true → b ≤ ev.task_id) ∧
    (after events).log.Pairwise (fun e1 e2 => e1.1 = e2.1 → e1.2.is_run = true →
      e2.2.is_run = true → e1.2.task_id ≤ e2.2.task_id) ∧
    (after events).log.Pairwise (fun e1 e2 => e1.2.is_run = false →
      e2.2.is_run = false → e1.2.task_id < e2.2.task_id) := by
  have hs := consistent_after events
  refine ⟨hs.serialized ue pre b call post hsplit a hab ha, ?_, hs.run_sorted,
    hs.scheduled_sorted⟩
  intro ev hev hrun
  have h := hs.run_sorted
  rw [hsplit, List.pairwise_append, List.pairwise_cons] at h
  exact h.2.1.1 (ue, ev) hev rfl rfl hrun

/-- C17 on two setup requests scheduled for UE 0: the first peer request of
the second one is the eleventh event, after the return of the first one. -/
theorem same_ue_tasks_never_interleave_witness :
    (∃ r, (0, task_event.returned 0 r) ∈ (after two_setup_requests_for_one_ue).log.take 10) ∧
    (∀ ev, (0, ev) ∈ (after two_setup_requests_for_one_ue).log.drop 11 →
      ev.is_run = true → 1 ≤ ev.task_id) ∧
    (after two_setup_requests_for_one_ue).log.Pairwise (fun e1 e2 => e1.1 = e2.1 →
      e1.2.is_run = true → e2.2.is_run = true → e1.2.task_id ≤ e2.2.task_id) ∧
    (after two_setup_requests_for_one_ue).log.Pairwise (fun e1 e2 => e1.2.is_run = false →
      e2.2.is_run = false → e1.2.task_id < e2.2.task_id) :=
  same_ue_tasks_never_interleave two_setup_requests_for_one_ue 0 0 1
    ((after two_setup_requests_for_one_ue).log.take 10)
    ((after two_setup_requests_for_one_ue).log.drop 11)
    (peer_exchange.ue_capability_transfer {} true) (by decide) (by decide) (by decide)

end ue_task_scheduler



/-! ## Theorems: contents of the E1AP requests of the routine -/

namespace pdu_session_resource_setup_routine

variable {σ : Type}

/-- The DRB item that `fill_e1ap_bearer_context_modification_request` builds
from a DRB item of the DU's response. -/
theorem drb_to_modify_list_find (drbs_setup_mod_list : List cu_cp_drbs_setup_modified_item)
    (hn : (drbs_setup_mod_list.map (fun i => i.drb_id)).Nodup)
    (drb_item : cu_cp_drbs_setup_modified_item) (hd : drb_item ∈ drbs_setup_mod_list) :
    (drbs_setup_mod_list.foldl
        (fun (d : slotted_id_vector e1ap_drb_to_modify_item_ng_ran) drb_item =>
          d.emplace drb_item.drb_id
            { drb_id := drb_item.drb_id
              dl_up_params :=
                drb_item.dl_up_tnl_info_to_be_setup_list.map
                  (fun dl_up_param =>
                    { up_tnl_info := dl_up_param.dl_up_tnl_info
                      cell_group_id := 0 }) }) {}).find drb_item.drb_id =
      some
        { drb_id := drb_item.drb_id
          dl_up_params :=
            drb_item.dl_up_tnl_info_to_be_setup_list.map
              (fun dl_up_param =>
                { up_tnl_info := dl_up_param.dl_up_tnl_info
                  cell_group_id := 0 }) } :=
  slotted_id_vector.find_foldl_emplace_of_nodup (fun i => i.drb_id) _ drbs_setup_mod_list {} hn
    drb_item hd

/-- A DU that answers a UE context modification request which asks for no DRB
with DRB items of its own: in the run of
`scenario_du_reports_drbs_without_session` no DRB is planned, the CU-UP lists
no PDU session, the DU's answer lists DRB 1 and DRB 2, and the bearer context
modification request that is sent holds no PDU session item. -/
theorem unrequested_du_drbs_have_no_session_item :
    scenario_du_reports_drbs_without_session.drb_to_add_list = [] ∧
    ∃ du_request request response,
      peer_exchange.ue_context_modification du_request example_du_response ∈
        scenario_du_reports_drbs_without_session.run.exchanges ∧
      peer_exchange.bearer_context_modification request response ∈
        scenario_du_reports_drbs_without_session.run.exchanges ∧
      du_request.drbs_to_be_setup_mod_list.elems = [] ∧
      example_du_response.drbs_setup_mod_list.contains 1 = true ∧
      request.ng_ran_bearer_context_mod_request =
        some { pdu_session_res_to_modify_list := {} } := by
  exact ⟨by decide, { ue_index := 0 },
    { ue_index := 0
      ng_ran_bearer_context_mod_request := some { pdu_session_res_to_modify_list := {} } },
    { success := true }, by decide, by decide, by decide, by decide, rfl⟩

/-- The request built by `fill_e1ap_bearer_context_modification_request`
carries the UE index of the setup request and holds PDU session items under
exactly the session ids of the CU-UP's bearer context setup response; when the
DRB ids of the DU's `drbs_setup_mod_list` are distinct, the item built for a
session of the CU-UP's response holds, for a DRB item of the DU, an entry under
the same DRB id, with that DRB id and with one `dl_up_params` element per
`dl_up_tnl_info` of the DU, in the same order and with the same transport
info. -/
theorem fill_modification_request_items (r : pdu_session_resource_setup_routine σ)
    (du_response : cu_cp_ue_context_modification_response)
    (e1ap_request : e1ap_bearer_context_modification_request)
    (hn : (du_response.drbs_setup_mod_list.elems.map (fun i => i.drb_id)).Nodup) :
    (r.fill_e1ap_bearer_context_modification_request du_response e1ap_request).ue_index
      = r.setup_msg.ue_index ∧
    ∃ e1ap_bearer_context_mod,
      (r.fill_e1ap_bearer_context_modification_request du_response
        e1ap_request).ng_ran_bearer_context_mod_request = some e1ap_bearer_context_mod ∧
      (∀ k, e1ap_bearer_context_mod.pdu_session_res_to_modify_list.contains k = true ↔
        k ∈ r.bearer_context_setup_response.pdu_session_resource_setup_list.elems.map
          (fun pdu_session => pdu_session.pdu_session_id)) ∧
      ∀ pdu_session ∈ r.bearer_context_setup_response.pdu_session_resource_setup_list.elems,
        ∃ e1ap_mod_item,
          e1ap_bearer_context_mod.pdu_session_res_to_modify_list.find
            pdu_session.pdu_session_id = some e1ap_mod_item ∧
          e1ap_mod_item.pdu_session_id = pdu_session.pdu_session_id ∧
          ∀ drb_item ∈ du_response.drbs_setup_mod_list.elems,
            ∃ e1ap_drb_item,
              e1ap_mod_item.drb_to_modify_list_ng_ran.find drb_item.drb_id
                = some e1ap_drb_item ∧
              e1ap_drb_item.drb_id = drb_item.drb_id ∧
              e1ap_drb_item.dl_up_params.map (fun p => p.up_tnl_info) =
                drb_item.dl_up_tnl_info_to_be_setup_list.map (fun p => p.dl_up_tnl_info) := by
  refine ⟨rfl, _, rfl, ?_, ?_⟩
  · intro k
    rw [slotted_id_vector.contains_foldl_emplace
      (fun (p : e1ap_pdu_session_resource_setup_modification_item) => p.pdu_session_id)]
    simp [slotted_id_vector.contains_empty]
  · intro pdu_session hp
    have hfind := slotted_id_vector.find_foldl_emplace
      (fun (p : e1ap_pdu_session_resource_setup_modification_item) => p.pdu_session_id)
      (fun p =>
        ({ pdu_session_id := p.pdu_session_id
           drb_to_modify_list_ng_ran :=
             du_response.drbs_setup_mod_list.elems.foldl
               (fun (d : slotted_id_vector e1ap_drb_to_modify_item_ng_ran) drb_item =>
                 d.emplace drb_item.drb_id
                   { drb_id := drb_item.drb_id
                     dl_up_params :=
                       drb_item.dl_up_tnl_info_to_be_setup_list.map
                         (fun dl_up_param =>
                           { up_tnl_info := dl_up_param.dl_up_tnl_info
                             cell_group_id := 0 }) }) {} } :
          e1ap_pdu_session_res_to_modify_item))
      r.bearer_context_setup_response.pdu_session_resource_setup_list.elems {}
      pdu_session.pdu_session_id
    cases hlast : r.bearer_context_setup_response.pdu_session_resource_setup_list.elems.reverse.find?
        (fun x => x.pdu_session_id == pdu_session.pdu_session_id) with
    | none =>
      rw [List.find?_eq_none] at hlast
      have := hlast pdu_session (List.mem_reverse.mpr hp)
      simp at this
    | some last =>
      rw [hlast] at hfind
      have hid : last.pdu_session_id = pdu_session.pdu_session_id := by
        have := List.find?_some hlast
        simpa using this
      refine ⟨_, hfind, hid, ?_⟩
      intro drb_item hd
      refine ⟨_, drb_to_modify_list_find _ hn drb_item hd, rfl, ?_⟩
      simp [List.map_map, Function.comp]

/-- What a run has established when it sends the bearer context modification
request: the request is the one that
`fill_e1ap_bearer_context_modification_request` builds from the DU's answer. -/
theorem bearer_context_modification_sent (r : pdu_session_resource_setup_routine σ)
    (du_request : cu_cp_ue_context_modification_request)
    (du_response : cu_cp_ue_context_modification_response)
    (request : e1ap_bearer_context_modification_request)
    (response : e1ap_bearer_context_modification_response)
    (hdu : peer_exchange.ue_context_modification du_request du_response ∈ r.run.exchanges)
    (hx : peer_exchange.bearer_context_modification request response ∈ r.run.exchanges) :
    request = r.fill_e1ap_bearer_context_modification_request du_response {} := by
  revert hdu hx
  unfold run
  simp only []
  repeat' split
  all_goals
    simp_all

/-- C21: in a run that sends the bearer context modification request, the
request carries the UE index of the setup request, and it conveys the downlink
transport info of the DU: for every DRB item of the DU's `drbs_setup_mod_list`
that answers a DRB the routine asked for (the DU's DRB ids being distinct), the
request holds, in the PDU session item built from the CU-UP's entry for the
PDU session of the DRB, a `drb_to_modify` entry under the same DRB id, with
that DRB id, whose `dl_up_params` list has one element per `dl_up_tnl_info`
entry of the DU for the DRB, in the same order and with the same transport
info. -/
theorem modification_request_conveys_dl_transport (r : pdu_session_resource_setup_routine σ)
    (du_request : cu_cp_ue_context_modification_request)
    (du_response : cu_cp_ue_context_modification_response)
    (request : e1ap_bearer_context_modification_request)
    (response : e1ap_bearer_context_modification_response)
    (hdu : peer_exchange.ue_context_modification du_request du_response ∈ r.run.exchanges)
    (hx : peer_exchange.bearer_context_modification request response ∈ r.run.exchanges)
    (hn : (du_response.drbs_setup_mod_list.elems.map (fun i => i.drb_id)).Nodup)
    (drb_item : cu_cp_drbs_setup_modified_item)
    (hd : drb_item ∈ du_response.drbs_setup_mod_list.elems)
    (hasked : drb_item.drb_id ∈ r.drb_to_add_list) :
    request.ue_index = r.setup_msg.ue_index ∧
    ∃ e1ap_bearer_context_mod acked e1ap_mod_item e1ap_drb_item,
      request.ng_ran_bearer_context_mod_request = some e1ap_bearer_context_mod ∧
      r.bearer_context_setup_response.pdu_session_resource_setup_list.find
        (r.rrc_ue_drb_manager.get_pdu_session_id r.planned_state drb_item.drb_id) = some acked ∧
      e1ap_bearer_context_mod.pdu_session_res_to_modify_list.find acked.pdu_session_id
        = some e1ap_mod_item ∧
      e1ap_mod_item.pdu_session_id = acked.pdu_session_id ∧
      e1ap_mod_item.drb_to_modify_list_ng_ran.find drb_item.drb_id = some e1ap_drb_item ∧
      e1ap_drb_item.drb_id = drb_item.drb_id ∧
      e1ap_drb_item.dl_up_params.map (fun p => p.up_tnl_info) =
        drb_item.dl_up_tnl_info_to_be_setup_list.map (fun p => p.dl_up_tnl_info) := by
  have hreq := bearer_context_modification_sent r du_request du_response request response hdu hx
  obtain ⟨hprep, _, _⟩ := ue_context_modification_sent r du_request du_response hdu
  obtain ⟨_, _, _, hitems⟩ := prepare_ue_context_mod_request_ok r du_request hprep
  obtain ⟨_, _, _, acked, _, _, hacked, _⟩ := hitems drb_item.drb_id hasked
  obtain ⟨hue, e1ap_bearer_context_mod, hmod, _, hsessions⟩ :=
    fill_modification_request_items r du_response {} hn
  obtain ⟨e1ap_mod_item, hfind, hid, hdrbs⟩ :=
    hsessions acked (slotted_id_vector.mem_elems_of_find _ _ _ hacked)
  obtain ⟨e1ap_drb_item, hdrb, hdrb_id, hparams⟩ := hdrbs drb_item hd
  rw [hreq]
  exact ⟨hue, e1ap_bearer_context_mod, acked, e1ap_mod_item, e1ap_drb_item, hmod, hacked, hfind,
    hid, hdrb, hdrb_id, hparams⟩

/-- C21 on the request for sessions 3 and 4, for which DRB 1 and DRB 2 are
planned: the DU answers with the downlink transport infos 51 and 52 for DRB 2,
which belongs to session 4, and the bearer context modification request that
is sent holds under session 4 an entry for DRB 2 with these two transport
infos, in this order. -/
theorem modification_request_conveys_dl_transport_witness :
    scenario_two_drbs_du_answers.drb_to_add_list = [1, 2] ∧
    scenario_two_drbs_du_answers.rrc_ue_drb_manager.get_pdu_session_id
      scenario_two_drbs_du_answers.planned_state 2 = 4 ∧
    (scenario_two_drbs_du_answers.fill_e1ap_bearer_context_modification_request
      example_du_response {}).ue_index = scenario_two_drbs_du_answers.setup_msg.ue_index ∧
    ∃ e1ap_bearer_context_mod acked e1ap_mod_item e1ap_drb_item,
      (scenario_two_drbs_du_answers.fill_e1ap_bearer_context_modification_request
        example_du_response {}).ng_ran_bearer_context_mod_request
        = some e1ap_bearer_context_mod ∧
      scenario_two_drbs_du_answers.bearer_context_setup_response.pdu_session_resource_setup_list.find
        (scenario_two_drbs_du_answers.rrc_ue_drb_manager.get_pdu_session_id
          scenario_two_drbs_du_answers.planned_state 2) = some acked ∧
      e1ap_bearer_context_mod.pdu_session_res_to_modify_list.find acked.pdu_session_id
        = some e1ap_mod_item ∧
      e1ap_mod_item.pdu_session_id = acked.pdu_session_id ∧
      e1ap_mod_item.drb_to_modify_list_ng_ran.find 2 = some e1ap_drb_item ∧
      e1ap_drb_item.drb_id = 2 ∧
      e1ap_drb_item.dl_up_params.map (fun p => p.up_tnl_info) = [51, 52] :=
  ⟨by decide, by decide,
    modification_request_conveys_dl_transport scenario_two_drbs_du_answers
      scenario_two_drbs_du_request example_du_response
      (scenario_two_drbs_du_answers.fill_e1ap_bearer_context_modification_request
        example_du_response {})
      { success := true } (by decide) (by decide) (by decide)
      { drb_id := 2
        dl_up_tnl_info_to_be_setup_list := [{ dl_up_tnl_info := 51 }, { dl_up_tnl_info := 52 }] }
      (by decide) (by decide)⟩


/-- C22: the bearer context setup request carries the ciphering and integrity
algorithms and the encryption and integrity keys of `security_cfg`, and the UE
DL aggregate maximum bit rate and the serving PLMN of the setup request; when
the requested PDU sessions have distinct ids, its PDU session list holds
exactly one item per requested session, in the order of the request, stored
under the session's id and carrying the session's id, type, S-NSSAI and uplink
NG-U transport info. -/
theorem setup_request_copies_security_and_sessions (r : pdu_session_resource_setup_routine σ)
    (hn : r.setup_msg.requested_sessions.Nodup) :
    r.bearer_context_setup_request.security_info.security_algorithm.ciphering_algo
      = r.security_cfg.cipher_algo ∧
    r.bearer_context_setup_request.security_info.security_algorithm.integrity_protection_algorithm
      = r.security_cfg.integ_algo ∧
    r.bearer_context_setup_request.security_info.up_security_key.encryption_key
      = r.security_cfg.k_up_enc ∧
    r.bearer_context_setup_request.security_info.up_security_key.integrity_protection_key
      = r.security_cfg.k_up_int ∧
    r.bearer_context_setup_request.ue_dl_aggregate_maximum_bit_rate
      = r.setup_msg.ue_aggregate_maximum_bit_rate_dl ∧
    r.bearer_context_setup_request.serving_plmn = r.setup_msg.serving_plmn ∧
    r.bearer_context_setup_request.pdu_session_res_to_setup_list.entries.map (fun e => e.1)
      = r.setup_msg.requested_sessions ∧
    r.bearer_context_setup_request.pdu_session_res_to_setup_list.elems.map
        (fun i => (i.pdu_session_id, i.pdu_session_type, i.snssai, i.ng_ul_up_tnl_info))
      = r.setup_msg.pdu_session_res_setup_items.elems.map
        (fun s => (s.pdu_session_id, s.pdu_session_type, s.s_nssai, s.ul_ngu_up_tnl_info)) := by
  have hentries :
      r.bearer_context_setup_request.pdu_session_res_to_setup_list.entries =
        r.setup_msg.pdu_session_res_setup_items.elems.map
          (fun s => (s.pdu_session_id, r.fill_e1ap_pdu_session_item "ue" s)) := by
    have h := slotted_id_vector.entries_foldl_emplace_of_nodup
      (fun (s : cu_cp_pdu_session_res_setup_item) => s.pdu_session_id)
      (fun s => r.fill_e1ap_pdu_session_item "ue" s)
      r.setup_msg.pdu_session_res_setup_items.elems {} hn
      (fun _ _ => slotted_id_vector.contains_empty _)
    simp only [List.nil_append] at h
    exact h
  refine ⟨rfl, rfl, rfl, rfl, rfl, rfl, ?_, ?_⟩
  · rw [hentries, List.map_map]
    rfl
  · unfold slotted_id_vector.elems
    rw [hentries, List.map_map, List.map_map]
    rfl

/-- C22 on `scenario_with_security_context`: algorithms 2 and 1, the two keys,
the bit rate 1000 and the PLMN are in the request, which lists session 3
(`ipv4`, S-NSSAI 1, transport info 70) and session 4 (`ipv6`, S-NSSAI 2,
transport info 71). -/
theorem setup_request_copies_security_and_sessions_witness :
    scenario_with_security_context.bearer_context_setup_request.security_info.security_algorithm
      = { ciphering_algo := 2, integrity_protection_algorithm := 1 } ∧
    scenario_with_security_context.bearer_context_setup_request.security_info.up_security_key
      = { encryption_key := [1, 2], integrity_protection_key := [3, 4] } ∧
    scenario_with_security_context.bearer_context_setup_request.ue_dl_aggregate_maximum_bit_rate
      = 1000 ∧
    scenario_with_security_context.bearer_context_setup_request.serving_plmn = "00101" ∧
    scenario_with_security_context.bearer_context_setup_request.pdu_session_res_to_setup_list.elems.map
        (fun i => (i.pdu_session_id, i.pdu_session_type, i.snssai, i.ng_ul_up_tnl_info))
      = [(3, "ipv4", 1, 70), (4, "ipv6", 2, 71)] := by
  have h := setup_request_copies_security_and_sessions scenario_with_security_context
    (by decide)
  exact ⟨by decide, by decide, h.2.2.2.2.1, h.2.2.2.2.2.1, h.2.2.2.2.2.2.2⟩


/-- Whatever a flow with a dynamic 5QI descriptor only carries, the routine
reads `non_dyn_5qi.value()`: in the initial sanity checks when the 5QI is not
configured, and otherwise in the loop "Add qos info". -/
theorem dynamic_only_flow_aborts (r : pdu_session_resource_setup_routine σ)
    (flow_item : qos_flow_setup_request_item)
    (hdyn : flow_item.qos_flow_level_qos_params.qos_characteristics.dyn_5qi.isSome = true)
    (hnon : flow_item.qos_flow_level_qos_params.qos_characteristics.non_dyn_5qi = none) :
    (r.valid_5qi flow_item = false → r.check_flow_5qi flow_item = step_result.aborted) ∧
    ∀ session drb_setup_mod_item setup_item,
      r.setup_msg.pdu_session_res_setup_items.find session = some setup_item →
      setup_item.qos_flow_setup_request_items.find flow_item.qos_flow_id = some flow_item →
      r.add_qos_info session drb_setup_mod_item flow_item.qos_flow_id = step_result.aborted := by
  constructor
  · intro hv
    unfold check_flow_5qi
    rw [if_pos hv, if_pos hdyn, hnon]
  · intro session item setup_item hs hf
    unfold add_qos_info
    rw [hs]
    simp only [hf, hnon]

/-- C24 at the failing inputs: a flow with a dynamic 5QI descriptor only and
an unconfigured 5QI, or no 5QI value, stops the run in the initial sanity
checks, before any peer exchange and without a response; with the configured
5QI 9 the sanity checks pass, the UE capability transfer and the bearer
context setup are made, and the run stops without a response while the DRB's
QoS info for the DU request is built. -/
theorem dynamic_5qi_flow_reads_absent_non_dyn_5qi :
    (unconfigured_dynamic_5qi.run.exchanges = [] ∧
      unconfigured_dynamic_5qi.run.response = none) ∧
    (dynamic_5qi_without_value.run.exchanges = [] ∧
      dynamic_5qi_without_value.run.response = none) ∧
    (configured_dynamic_5qi.initial_sanity_checks = step_result.ok () ∧
      configured_dynamic_5qi.run.exchanges.map peer_exchange.step =
        [peer_step.ue_capability_transfer, peer_step.bearer_context_setup] ∧
      configured_dynamic_5qi.prepare_ue_context_mod_request = step_result.aborted ∧
      configured_dynamic_5qi.run.response = none) := by
  decide

/-- Every planned DRB is listed under every PDU session of the bearer context
setup request, with the QoS flows of that session. -/
theorem planned_drbs_under_every_session (r : pdu_session_resource_setup_routine σ)
    (setup_item : cu_cp_pdu_session_res_setup_item)
    (hmem : setup_item ∈ r.setup_msg.pdu_session_res_setup_items.elems)
    (drb : drb_id_t) (hdrb : drb ∈ r.drb_to_add_list) :
    ∃ item, r.bearer_context_setup_request.pdu_session_res_to_setup_list.find
        setup_item.pdu_session_id = some item ∧
      item.drb_to_setup_list_ng_ran.contains drb = true := by
  have hfind := slotted_id_vector.find_foldl_emplace
    (fun (s : cu_cp_pdu_session_res_setup_item) => s.pdu_session_id)
    (fun s => r.fill_e1ap_pdu_session_item "ue" s)
    r.setup_msg.pdu_session_res_setup_items.elems {} setup_item.pdu_session_id
  cases hlast : r.setup_msg.pdu_session_res_setup_items.elems.reverse.find?
      (fun x => x.pdu_session_id == setup_item.pdu_session_id) with
  | none =>
    rw [List.find?_eq_none] at hlast
    have := hlast setup_item (List.mem_reverse.mpr hmem)
    simp at this
  | some last =>
    rw [hlast] at hfind
    refine ⟨_, hfind, ?_⟩
    unfold fill_e1ap_pdu_session_item
    simp only
    rw [slotted_id_vector.contains_foldl_emplace (fun (d : drb_id_t) => d)]
    left
    simpa using hdrb

/-- C25 at the failing input `scenario_two_drbs`: DRB 2 is planned for PDU
session 4 with QoS flow 2, and the bearer context setup request lists it under
session 3 as well, there with the QoS flow 1 of session 3. -/
theorem planned_drb_listed_under_foreign_session :
    scenario_two_drbs.drb_to_add_list = [1, 2] ∧
    scenario_two_drbs.rrc_ue_drb_manager.get_pdu_session_id
      scenario_two_drbs.planned_state 2 = 4 ∧
    scenario_two_drbs.rrc_ue_drb_manager.get_mapped_qos_flows_of_drb
      scenario_two_drbs.planned_state 2 = [2] ∧
    ((scenario_two_drbs.bearer_context_setup_request.pdu_session_res_to_setup_list.find 3).bind
      (fun item => item.drb_to_setup_list_ng_ran.find 2)).map
        (fun drb => drb.qos_flow_info_to_be_setup.entries.map (fun e => e.1)) = some [1] ∧
    (scenario_two_drbs.bearer_context_setup_request.pdu_session_res_to_setup_list.elems.map
      (fun item => item.drb_to_setup_list_ng_ran.entries.map (fun e => e.1))) =
        [[1, 2], [1, 2]] := by
  decide

end pdu_session_resource_setup_routine

end srs_cu_cp

/-! ## Theorems: DU UE manager -/

namespace srs_du

namespace du_ue_manager

/-- The search loop of `handle_ue_create_request` ends on the lowest free
index, when there is a free index. -/
theorem ue_idx_candidate_lowest (MAX_NOF_DU_UES : Nat) (s : du_ue_manager) (i : Nat)
    (hfree : s.is_free i = true) :
    s.is_free (s.ue_idx_candidate MAX_NOF_DU_UES) = true ∧
    s.ue_idx_candidate MAX_NOF_DU_UES ≤ i ∧
    ∀ j, j < s.ue_idx_candidate MAX_NOF_DU_UES → s.is_free j = false := by
  have hi : i < s.ue_ctrl_loop.length := by
    unfold is_free at hfree
    cases hget : s.ue_ctrl_loop.get? i with
    | none => rw [hget] at hfree; simp at hfree
    | some loop =>
      rw [List.get?_eq_some] at hget
      exact hget.1
  unfold ue_idx_candidate
  cases hfind : (List.range s.ue_ctrl_loop.length).find? (fun i => s.is_free i) with
  | none =>
    rw [List.find?_eq_none] at hfind
    have := hfind i (List.mem_range.mpr hi)
    simp [hfree] at this
  | some c =>
    simp only
    rw [List.find?_range_eq_some] at hfind
    obtain ⟨hc, _, hlow⟩ := hfind
    refine ⟨hc, ?_, ?_⟩
    · by_contra hlt
      have := hlow i (Nat.lt_of_not_le hlt)
      simp [hfree] at this
    · intro j hj
      have := hlow j hj
      simpa using this

/-- When no index is free the search loop leaves `ue_idx_candidate` at
`MAX_NOF_DU_UES`. -/
theorem ue_idx_candidate_full (MAX_NOF_DU_UES : Nat) (s : du_ue_manager)
    (hfull : ∀ i, i < s.ue_ctrl_loop.length → s.is_free i = false) :
    s.ue_idx_candidate MAX_NOF_DU_UES = MAX_NOF_DU_UES := by
  unfold ue_idx_candidate
  have : (List.range s.ue_ctrl_loop.length).find? (fun i => s.is_free i) = none := by
    rw [List.find?_eq_none]
    intro i hi
    rw [hfull i (List.mem_range.mp hi)]
    simp
  rw [this]

/-- C23: when some UE index is free (not in the UE database, and no task in
its control loop), `handle_ue_create_request` schedules the UE creation
procedure, for the lowest such index and on the control loop of that index;
every lower index is in the UE database or has a task in its control loop,
and nothing else changes. -/
theorem ue_creation_scheduled_on_lowest_free_index (MAX_NOF_DU_UES : Nat)
    (s : du_ue_manager) (msg : ul_ccch_indication_message) (i : Nat)
    (hfree : s.is_free i = true) :
    ∃ ue_index,
      ue_index ≤ i ∧
      s.ue_db_contains ue_index = false ∧
      s.ue_ctrl_loop.get? ue_index = some [] ∧
      (∀ j, j < ue_index →
        s.ue_db_contains j = true ∨
          ∃ loop, s.ue_ctrl_loop.get? j = some loop ∧ loop ≠ []) ∧
      s.handle_ue_create_request MAX_NOF_DU_UES msg =
        some
          { s with
            ue_ctrl_loop :=
              s.ue_ctrl_loop.set ue_index
                [du_ue_task.ue_creation_procedure ue_index msg] } := by
  obtain ⟨hc, hle, hlow⟩ := ue_idx_candidate_lowest MAX_NOF_DU_UES s i hfree
  have hget : s.ue_db_contains (s.ue_idx_candidate MAX_NOF_DU_UES) = false ∧
      s.ue_ctrl_loop.get? (s.ue_idx_candidate MAX_NOF_DU_UES) = some [] := by
    unfold is_free at hc
    cases hg : s.ue_ctrl_loop.get? (s.ue_idx_candidate MAX_NOF_DU_UES) with
    | none => rw [hg] at hc; simp at hc
    | some loop =>
      rw [hg] at hc
      simp only [Bool.and_eq_true, Bool.not_eq_true', List.isEmpty_iff] at hc
      rw [hc.2]
      exact ⟨hc.1, rfl⟩
  refine ⟨s.ue_idx_candidate MAX_NOF_DU_UES, hle, hget.1, hget.2, ?_, ?_⟩
  · intro j hj
    have hlen : s.ue_idx_candidate MAX_NOF_DU_UES < s.ue_ctrl_loop.length := by
      have := hget.2
      rw [List.get?_eq_some] at this
      exact this.1
    have hjf := hlow j hj
    unfold is_free at hjf
    cases hg : s.ue_ctrl_loop.get? j with
    | none =>
      rw [List.get?_eq_none] at hg
      omega
    | some loop =>
      rw [hg] at hjf
      cases hcont : s.ue_db_contains j with
      | true => exact Or.inl rfl
      | false =>
        right
        refine ⟨loop, rfl, ?_⟩
        intro hl
        rw [hcont, hl] at hjf
        simp at hjf
  · unfold handle_ue_create_request
    simp only [hget.2, List.nil_append]

/-- C23 on a manager with UE 0 in the database and a task pending on the loop
of index 1: the UE creation procedure goes to index 2. -/
theorem ue_creation_scheduled_on_lowest_free_index_witness :
    ∃ ue_index,
      ue_index ≤ 3 ∧
      example_du_ue_manager.ue_db_contains ue_index = false ∧
      example_du_ue_manager.ue_ctrl_loop.get? ue_index = some [] ∧
      (∀ j, j < ue_index →
        example_du_ue_manager.ue_db_contains j = true ∨
          ∃ loop, example_du_ue_manager.ue_ctrl_loop.get? j = some loop ∧ loop ≠ []) ∧
      example_du_ue_manager.handle_ue_create_request 4 {} =
        some
          { example_du_ue_manager with
            ue_ctrl_loop :=
              example_du_ue_manager.ue_ctrl_loop.set ue_index
                [du_ue_task.ue_creation_procedure ue_index {}] } :=
  ue_creation_scheduled_on_lowest_free_index 4 example_du_ue_manager {} 3 (by decide)

/-- With a control loop for every index below `MAX_NOF_DU_UES` and no index
free, `handle_ue_create_request` indexes `ue_ctrl_loop` at `MAX_NOF_DU_UES`,
where the array has no element. -/
theorem handle_ue_create_request_full (MAX_NOF_DU_UES : Nat) (s : du_ue_manager)
    (msg : ul_ccch_indication_message) (hlen : s.ue_ctrl_loop.length = MAX_NOF_DU_UES)
    (hfull : ∀ i, i < MAX_NOF_DU_UES → s.is_free i = false) :
    s.ue_idx_candidate MAX_NOF_DU_UES = MAX_NOF_DU_UES ∧
    s.ue_ctrl_loop.get? MAX_NOF_DU_UES = none ∧
    s.handle_ue_create_request MAX_NOF_DU_UES msg = none := by
  have hc := ue_idx_candidate_full MAX_NOF_DU_UES s (by rw [hlen]; exact hfull)
  have hg : s.ue_ctrl_loop.get? MAX_NOF_DU_UES = none := by
    rw [List.get?_eq_none]
    omega
  refine ⟨hc, hg, ?_⟩
  unfold handle_ue_create_request
  simp only [hc, hg]

/-- C28 at the failing input `full_du_ue_manager`: with four control loops and
every index taken, the candidate index stays at `MAX_NOF_DU_UES` = 4 and the
request indexes `ue_ctrl_loop` there, outside the array. -/
theorem ue_create_request_indexes_out_of_bounds :
    full_du_ue_manager.ue_ctrl_loop.length = 4 ∧
    (∀ i, i < 4 → full_du_ue_manager.is_free i = false) ∧
    full_du_ue_manager.ue_idx_candidate 4 = 4 ∧
    full_du_ue_manager.ue_ctrl_loop.get? 4 = none ∧
    full_du_ue_manager.handle_ue_create_request 4 {} = none := by
  decide

/-- For an RNTI that is not in the RNTI map, `find_rnti` reads `it->second`
of the end iterator. -/
theorem find_rnti_absent (s : du_ue_manager) (rnti : rnti_t)
    (h : ∀ e ∈ s.rnti_to_ue_index, e.1 ≠ rnti) : s.find_rnti rnti = none := by
  unfold find_rnti
  have : s.rnti_to_ue_index.find? (fun e => e.1 == rnti) = none := by
    rw [List.find?_eq_none]
    intro e he
    simpa using h e he
  rw [this]

/-- The value `find_rnti` returns is never the null pointer: the branch that
returns it is taken only after `it->second` of the end iterator was read. -/
theorem find_rnti_never_null (s : du_ue_manager) (rnti : rnti_t) :
    s.find_rnti rnti ≠ some none := by
  unfold find_rnti
  split
  · simp
  · rename_i it _
    split
    · rename_i hc
      unfold ue_db_contains at hc
      unfold ue_db_find
      cases hf : s.ue_db.find? (fun e => e.1 == it.2) with
      | none =>
        rw [List.find?_eq_none] at hf
        rw [List.any_eq_true] at hc
        obtain ⟨e, he, hk⟩ := hc
        exact absurd hk (hf e he)
      | some e => simp
    · simp

/-- C27 at the failing input: in the constructed manager, and in a manager
that holds UE 0 with RNTI 17921, the lookup of an RNTI that is not in the RNTI
map is not defined; the lookup of RNTI 17921 returns the context of UE 0. -/
theorem find_rnti_of_unknown_rnti_undefined :
    (du_ue_manager.init 4).find_rnti 17921 = none ∧
    example_du_ue_manager.find_rnti 17930 = none ∧
    example_du_ue_manager.find_rnti 17921 = some (some { ue_index := 0, rnti := 17921 }) := by
  decide

end du_ue_manager


namespace du_ue_manager

/-- The constructed manager has consistent indexes. -/
theorem indexes_consistent_init (MAX_NOF_DU_UES : Nat) :
    (init MAX_NOF_DU_UES).indexes_consistent := by
  refine ⟨?_, ?_, ?_, ?_, ?_⟩
  · intro rnti ue_index h; simp [init] at h
  · intro ue_index u h; simp [init] at h
  · intro ue_index u h; simp [init] at h
  · simp [init]
  · simp [init]

/-- The tests of `add_ue`: when they pass, the UE index is valid and new to
the database and the RNTI is valid and new to the RNTI map. -/
theorem add_ue_cases (MAX_NOF_DU_UES : Nat) (INVALID_RNTI : rnti_t) (s : du_ue_manager)
    (ue_ctx : du_ue) :
    ((is_du_ue_index_valid MAX_NOF_DU_UES ue_ctx.ue_index = false ∨
        ue_ctx.rnti = INVALID_RNTI ∨ s.ue_db_contains ue_ctx.ue_index = true ∨
        ∃ ue_index, (ue_ctx.rnti, ue_index) ∈ s.rnti_to_ue_index) ∧
      s.add_ue MAX_NOF_DU_UES INVALID_RNTI ue_ctx = (none, s)) ∨
    (is_du_ue_index_valid MAX_NOF_DU_UES ue_ctx.ue_index = true ∧
      ue_ctx.rnti ≠ INVALID_RNTI ∧
      (∀ e ∈ s.ue_db, e.1 ≠ ue_ctx.ue_index) ∧
      (∀ e ∈ s.rnti_to_ue_index, e.1 ≠ ue_ctx.rnti) ∧
      s.add_ue MAX_NOF_DU_UES INVALID_RNTI ue_ctx =
        (some ue_ctx,
          { s with
            ue_db := s.ue_db ++ [(ue_ctx.ue_index, ue_ctx)]
            rnti_to_ue_index := s.rnti_to_ue_index ++ [(ue_ctx.rnti, ue_ctx.ue_index)] })) := by
  unfold add_ue
  split
  · rename_i h1
    left
    refine ⟨?_, rfl⟩
    simp only [Bool.or_eq_true, Bool.not_eq_true', beq_iff_eq] at h1
    rcases h1 with h | h
    · exact Or.inl h
    · exact Or.inr (Or.inl h)
  · rename_i h1
    simp only [Bool.or_eq_true, Bool.not_eq_true', beq_iff_eq, not_or, Bool.not_eq_false] at h1
    split
    · rename_i h2
      left
      refine ⟨?_, rfl⟩
      simp only [Bool.or_eq_true, decide_eq_true_eq] at h2
      rcases h2 with h | h
      · exact Or.inr (Or.inr (Or.inl h))
      · right; right; right
        obtain ⟨e, he⟩ := List.length_pos_iff_exists_mem.mp h
        rw [List.mem_filter] at he
        refine ⟨e.2, ?_⟩
        have : e.1 = ue_ctx.rnti := by simpa using he.2
        rw [← this]
        exact he.1
    · rename_i h2
      simp only [Bool.or_eq_true, decide_eq_true_eq, not_or, Bool.not_eq_true, not_lt,
        Nat.le_zero_eq, List.length_eq_zero] at h2
      right
      refine ⟨h1.1, h1.2, ?_, ?_, rfl⟩
      · intro e he hk
        have hc : s.ue_db_contains ue_ctx.ue_index = true := by
          unfold ue_db_contains
          rw [List.any_eq_true]
          exact ⟨e, he, by simpa using hk⟩
        rw [h2.1] at hc
        exact Bool.noConfusion hc
      · intro e he hk
        have hm : e ∈ s.rnti_to_ue_index.filter (fun e => e.1 == ue_ctx.rnti) := by
          rw [List.mem_filter]
          exact ⟨he, by simpa using hk⟩
        rw [h2.2] at hm
        simp at hm

/-- The method `add_ue` keeps the indexes consistent. -/
theorem indexes_consistent_add_ue (MAX_NOF_DU_UES : Nat) (INVALID_RNTI : rnti_t)
    (s : du_ue_manager) (ue_ctx : du_ue) (hs : s.indexes_consistent) :
    (s.add_ue MAX_NOF_DU_UES INVALID_RNTI ue_ctx).2.indexes_consistent := by
  rcases add_ue_cases MAX_NOF_DU_UES INVALID_RNTI s ue_ctx with
    ⟨_, h⟩ | ⟨_, _, hidx, hrnti, h⟩
  · rw [h]; exact hs
  rw [h]
  simp only
  refine ⟨?_, ?_, ?_, ?_, ?_⟩
  · intro rnti ue_index hm
    rcases List.mem_append.1 hm with h1 | h1
    · obtain ⟨u, hu, hr⟩ := hs.rnti_entry_has_ue rnti ue_index h1
      exact ⟨u, List.mem_append_left _ hu, hr⟩
    · simp only [List.mem_singleton, Prod.mk.injEq] at h1
      refine ⟨ue_ctx, ?_, h1.1.symm⟩
      rw [h1.2]
      simp
  · intro ue_index u hm
    rw [List.filter_append]
    rcases List.mem_append.1 hm with h1 | h1
    · rw [hs.ue_has_one_rnti_entry ue_index u h1]
      have hne : ue_ctx.ue_index ≠ ue_index := fun hk => hidx _ h1 hk.symm
      simp [hne]
    · simp only [List.mem_singleton, Prod.mk.injEq] at h1
      rw [h1.1, h1.2]
      have hnone : s.rnti_to_ue_index.filter (fun e => e.2 == ue_ctx.ue_index) = [] := by
        rw [List.filter_eq_nil_iff]
        intro e he hk
        obtain ⟨u, hu, _⟩ := hs.rnti_entry_has_ue e.1 e.2 he
        apply hidx _ hu
        simpa using hk
      rw [hnone]
      simp
  · intro ue_index u hm
    rcases List.mem_append.1 hm with h1 | h1
    · exact hs.ue_under_own_index ue_index u h1
    · simp only [List.mem_singleton, Prod.mk.injEq] at h1
      rw [h1.1, h1.2]
  · rw [List.map_append, List.nodup_append]
    refine ⟨hs.ue_db_ids_distinct, by simp, ?_⟩
    intro a ha hb
    simp only [List.map_cons, List.map_nil, List.mem_singleton] at hb
    obtain ⟨e, he, hk⟩ := List.mem_map.1 ha
    exact hidx e he (hk.trans hb)
  · rw [List.map_append, List.nodup_append]
    refine ⟨hs.rntis_distinct, by simp, ?_⟩
    intro a ha hb
    simp only [List.map_cons, List.map_nil, List.mem_singleton] at hb
    obtain ⟨e, he, hk⟩ := List.mem_map.1 ha
    exact hrnti e he (hk.trans hb)

/-- Two entries of a list with distinct first components that agree in the
first component are equal. -/
theorem eq_of_nodup_fst {α β : Type} (l : List (α × β)) (hn : (l.map (fun e => e.1)).Nodup)
    (a : α) (b c : β) (hb : (a, b) ∈ l) (hc : (a, c) ∈ l) : b = c := by
  have := List.inj_on_of_nodup_map hn hb hc rfl
  exact (Prod.mk.injEq _ _ _ _ ▸ this).2

/-- The removal task keeps the indexes consistent. -/
theorem indexes_consistent_ue_removal_task (s s2 : du_ue_manager) (ue_index : du_ue_index_t)
    (hs : s.indexes_consistent) (h : s.ue_removal_task ue_index = some s2) :
    s2.indexes_consistent := by
  unfold ue_removal_task at h
  cases hf : s.ue_db_find ue_index with
  | none => rw [hf] at h; simp at h
  | some u0 =>
    rw [hf] at h
    simp only [Option.some.injEq] at h
    subst h
    have hu0 : (ue_index, u0) ∈ s.ue_db := by
      unfold ue_db_find at hf
      cases hfe : s.ue_db.find? (fun e => e.1 == ue_index) with
      | none => rw [hfe] at hf; simp at hf
      | some e =>
        rw [hfe] at hf
        simp only [Option.map_some', Option.some.injEq] at hf
        have hk : e.1 = ue_index := by
          have := List.find?_some hfe
          simpa using this
        have hm := List.mem_of_find?_eq_some hfe
        rw [← hk, ← hf]
        exact hm
    have hentry : (u0.rnti, ue_index) ∈ s.rnti_to_ue_index := by
      have := hs.ue_has_one_rnti_entry ue_index u0 hu0
      have hm : (u0.rnti, ue_index) ∈ s.rnti_to_ue_index.filter (fun e => e.2 == ue_index) := by
        rw [this]; simp
      exact (List.mem_filter.1 hm).1
    refine ⟨?_, ?_, ?_, ?_, ?_⟩
    · intro rnti idx hm
      simp only [List.mem_filter, Bool.not_eq_true', beq_eq_false_iff_ne, ne_eq] at hm
      obtain ⟨u, hu, hr⟩ := hs.rnti_entry_has_ue rnti idx hm.1
      refine ⟨u, ?_, hr⟩
      simp only [List.mem_filter, Bool.not_eq_true', beq_eq_false_iff_ne, ne_eq]
      refine ⟨hu, ?_⟩
      intro hk
      subst hk
      have := eq_of_nodup_fst s.ue_db hs.ue_db_ids_distinct idx u u0 hu hu0
      apply hm.2
      rw [← hr, this]
    · intro idx u hm
      simp only [List.mem_filter, Bool.not_eq_true', beq_eq_false_iff_ne, ne_eq] at hm
      have hone := hs.ue_has_one_rnti_entry idx u hm.1
      rw [List.filter_filter]
      have hswap : s.rnti_to_ue_index.filter (fun a => (a.2 == idx && !(a.1 == u0.rnti)))
          = (s.rnti_to_ue_index.filter (fun e => e.2 == idx)).filter
              (fun e => !(e.1 == u0.rnti)) := by
        rw [List.filter_filter]
        apply List.filter_congr
        intro e _
        exact Bool.and_comm _ _
      rw [hswap, hone]
      have hne : u.rnti ≠ u0.rnti := by
        intro hk
        have hm2 : (u.rnti, idx) ∈ s.rnti_to_ue_index := by
          have hm3 : (u.rnti, idx) ∈ s.rnti_to_ue_index.filter (fun e => e.2 == idx) := by
            rw [hone]; simp
          exact (List.mem_filter.1 hm3).1
        rw [hk] at hm2
        exact hm.2 (eq_of_nodup_fst s.rnti_to_ue_index hs.rntis_distinct u0.rnti idx ue_index
          hm2 hentry)
      simp [hne]
    · intro idx u hm
      exact hs.ue_under_own_index idx u (List.mem_filter.1 hm).1
    · exact (hs.ue_db_ids_distinct).sublist (List.Sublist.map _ (List.filter_sublist _))
    · exact (hs.rntis_distinct).sublist (List.Sublist.map _ (List.filter_sublist _))

/-- The indexes are consistent in every state of the UE store that a sequence
of events leads to. -/
theorem indexes_consistent_after (MAX_NOF_DU_UES : Nat) (INVALID_RNTI : rnti_t)
    (events : List ue_store_event) (s : du_ue_manager)
    (h : after MAX_NOF_DU_UES INVALID_RNTI events = some s) : s.indexes_consistent := by
  unfold after at h
  induction events using List.reverseRecOn generalizing s with
  | nil =>
    simp only [List.foldl_nil, Option.some.injEq] at h
    rw [← h]
    exact indexes_consistent_init MAX_NOF_DU_UES
  | append_singleton events e ih =>
    rw [List.foldl_append] at h
    simp only [List.foldl_cons, List.foldl_nil] at h
    cases hprev : events.foldl
        (fun s e => s.bind (fun s => s.handle MAX_NOF_DU_UES INVALID_RNTI e))
        (some (init MAX_NOF_DU_UES)) with
    | none => rw [hprev] at h; simp at h
    | some s1 =>
      rw [hprev] at h
      simp only [Option.some_bind] at h
      have hs1 := ih s1 hprev
      cases e with
      | add_ue ue_ctx =>
        simp only [handle, Option.some.injEq] at h
        rw [← h]
        exact indexes_consistent_add_ue MAX_NOF_DU_UES INVALID_RNTI s1 ue_ctx hs1
      | ue_removal_task ue_index =>
        simp only [handle] at h
        exact indexes_consistent_ue_removal_task s1 s ue_index hs1 h

/-- C26: in every state that calls of `add_ue` and runs of the removal task
lead to from the constructed manager, the RNTI map and the UE database
describe the same UEs (`indexes_consistent`), and `add_ue` returns null and
leaves the manager unchanged when the UE index is invalid, the RNTI is
`INVALID_RNTI`, the UE index is in the database, or the RNTI is in the RNTI
map. -/
theorem ue_store_indexes_stay_consistent (MAX_NOF_DU_UES : Nat) (INVALID_RNTI : rnti_t)
    (events : List ue_store_event) (s : du_ue_manager)
    (h : after MAX_NOF_DU_UES INVALID_RNTI events = some s) (ue_ctx : du_ue) :
    s.indexes_consistent ∧
    ((is_du_ue_index_valid MAX_NOF_DU_UES ue_ctx.ue_index = false ∨
        ue_ctx.rnti = INVALID_RNTI ∨ s.ue_db_contains ue_ctx.ue_index = true ∨
        ∃ ue_index, (ue_ctx.rnti, ue_index) ∈ s.rnti_to_ue_index) →
      s.add_ue MAX_NOF_DU_UES INVALID_RNTI ue_ctx = (none, s)) := by
  refine ⟨indexes_consistent_after MAX_NOF_DU_UES INVALID_RNTI events s h, ?_⟩
  intro hrej
  rcases add_ue_cases MAX_NOF_DU_UES INVALID_RNTI s ue_ctx with
    ⟨_, hadd⟩ | ⟨hv, hr, hidx, hrnti, _⟩
  · exact hadd
  · exfalso
    rcases hrej with h1 | h1 | h1 | ⟨ue_index, h1⟩
    · rw [hv] at h1; exact Bool.noConfusion h1
    · exact hr h1
    · unfold ue_db_contains at h1
      rw [List.any_eq_true] at h1
      obtain ⟨e, he, hk⟩ := h1
      exact hidx e he (by simpa using hk)
    · exact hrnti _ h1 rfl

/-- C26 on `example_ue_store_events`, with four UE indexes and the invalid
RNTI 0: after the removal of UE 0 the database holds UE 1 and the RNTI map
its RNTI; a context with the UE index 1 is refused. -/
theorem ue_store_indexes_stay_consistent_witness :
    after 4 0 example_ue_store_events = some example_ue_store ∧
    example_ue_store.indexes_consistent ∧
    ((is_du_ue_index_valid 4 1 = false ∨ 17930 = 0 ∨
        example_ue_store.ue_db_contains 1 = true ∨
        ∃ ue_index, (17930, ue_index) ∈ example_ue_store.rnti_to_ue_index) →
      example_ue_store.add_ue 4 0 { ue_index := 1, rnti := 17930 } =
        (none, example_ue_store)) :=
  ⟨by decide,
    ue_store_indexes_stay_consistent 4 0 example_ue_store_events example_ue_store (by decide)
      { ue_index := 1, rnti := 17930 }⟩

end du_ue_manager

end srs_du

/-! ## Theorems: UE configuration procedure of the DU -/

namespace srs_du

namespace ue_configuration_procedure

/-- A DRB id that the bearer manager counts can be looked up. -/
theorem drbs_at_of_count (b : du_ue_bearer_manager) (drb_id : drb_id_t)
    (h : b.drbs_count drb_id ≠ 0) : ∃ drb, b.drbs_at drb_id = some drb := by
  unfold du_ue_bearer_manager.drbs_count at h
  unfold du_ue_bearer_manager.drbs_at
  cases hf : b.drbs_.find? (fun e => e.1 == drb_id) with
  | none =>
    exfalso
    apply h
    rw [List.length_eq_zero, List.filter_eq_nil_iff]
    rw [List.find?_eq_none] at hf
    exact hf
  | some e => exact ⟨e.2, rfl⟩

/-- The loop of `make_ue_config_response` puts each requested DRB in one list:
in `drbs_failed_to_setup` when the UE has no DRB under its id, and in
`drbs_setup` otherwise. -/
theorem response_loop (ue : du_ue) (l : List f1ap_drb_to_setup)
    (init : f1ap_ue_context_update_response) :
    ∃ resp, l.foldlM (add_drb_to_response ue) init = some resp ∧
      resp.result = init.result ∧
      resp.drbs_failed_to_setup = init.drbs_failed_to_setup ++
        (l.filter (fun drb_req => ue.bearers.drbs_count drb_req.drb_id == 0)).map
          (fun drb_req => drb_req.drb_id) ∧
      resp.drbs_setup.length = init.drbs_setup.length +
        (l.filter (fun drb_req => !(ue.bearers.drbs_count drb_req.drb_id == 0))).length := by
  induction l generalizing init with
  | nil => exact ⟨init, rfl, rfl, by simp, by simp⟩
  | cons drb_req rest ih =>
    rw [List.foldlM_cons]
    unfold add_drb_to_response
    by_cases hc : (ue.bearers.drbs_count drb_req.drb_id == 0) = true
    · rw [if_pos hc]
      simp only [Option.some_bind, Option.bind_eq_bind]
      obtain ⟨resp, h1, h2, h3, h4⟩ := ih
        { init with drbs_failed_to_setup := init.drbs_failed_to_setup ++ [drb_req.drb_id] }
      refine ⟨resp, h1, h2, ?_, ?_⟩
      · rw [h3]; simp [hc]
      · rw [h4]; simp [hc]
    · rw [if_neg hc]
      have hc2 : ue.bearers.drbs_count drb_req.drb_id ≠ 0 := by simpa using hc
      obtain ⟨drb, hd⟩ := drbs_at_of_count ue.bearers drb_req.drb_id hc2
      rw [hd]
      simp only [Option.some_bind, Option.bind_eq_bind]
      obtain ⟨resp, h1, h2, h3, h4⟩ := ih
        { init with
          drbs_setup :=
            init.drbs_setup ++
              [{ drb_id := drb.drb_id, dluptnl_info_list := drb.dluptnl_info_list }] }
      refine ⟨resp, h1, h2, ?_, ?_⟩
      · rw [h3]; simp [hc]
      · rw [h4]; simp [hc]; omega

/-- C29 at the failing input `drb_setup_for_existing_drb`: the loop of
`update_ue_context` leaves the existing DRB 1 as it was, with its uplink
transport info 5, and creates DRB 2; the response lists DRB 1, with the
downlink transport info 6 of the DRB that existed, and DRB 2 in `drbs_setup`,
and `drbs_failed_to_setup` is empty. Where the DRBs are new
(`drb_setup_with_failures`), DRB 1 without uplink transport info and DRB 3,
which `create_drb` does not create, are reported as failed. -/
theorem refused_drb_modification_reported_as_setup :
    (drb_setup_for_existing_drb.create_du_ue_drbs.map
        (fun ue => ue.bearers.drbs_.map (fun e => (e.1, e.2.uluptnl_info_list)))
      = some [(1, [5]), (2, [10])]) ∧
    drb_setup_for_existing_drb.run =
      some
        { result := true
          drbs_setup :=
            [{ drb_id := 1, dluptnl_info_list := [6] },
             { drb_id := 2, dluptnl_info_list := [102] }]
          drbs_failed_to_setup := [] } ∧
    drb_setup_with_failures.run =
      some
        { result := true
          drbs_setup := [{ drb_id := 2, dluptnl_info_list := [102] }]
          drbs_failed_to_setup := [1, 3] } := by
  decide

end ue_configuration_procedure

end srs_du

/-! ## Theorems: DCI payload sizes -/

/-- The function `log2_ceil` returns at most 32. -/
theorem log2_ceil_le (value : Nat) : log2_ceil value ≤ 32 := by
  unfold log2_ceil
  cases h : (List.range 32).find? (fun n => decide (value ≤ 2 ^ n)) with
  | none => simp
  | some n =>
    have := List.mem_of_find?_eq_some h
    rw [List.mem_range] at this
    simp only [Option.getD_some]
    omega

/-- Step 0 aligns the format 0_0 of the common search space with the format
1_0, whatever the bandwidths are. -/
theorem format0_0_common_size_total (config : dci_size_config) :
    (format0_0_common_size config).total =
      (dci_f1_0_bits_before_padding
        (if config.coreset0_bw ≠ 0 then config.coreset0_bw
          else config.dl_bwp_initial_bw)).total := by
  unfold format0_0_common_size
  generalize (if config.coreset0_bw ≠ 0 then config.coreset0_bw
    else config.dl_bwp_initial_bw) = n_dl
  generalize dci_f0_0_bits_before_padding config.ul_bwp_initial_bw = f0
  generalize dci_f1_0_bits_before_padding n_dl = f1
  simp only
  split_ifs <;> (try simp only []) <;> omega

/-- Step 1 aligns the fallback formats of the UE-specific search space. -/
theorem fallback_ue_sizes_total (config : dci_size_config) :
    (fallback_ue_sizes config).1.total = (fallback_ue_sizes config).2.total := by
  unfold fallback_ue_sizes
  generalize dci_f0_0_bits_before_padding config.ul_bwp_active_bw = f0
  generalize dci_f1_0_bits_before_padding config.dl_bwp_active_bw = f1
  simp only
  split_ifs <;> (try simp only []) <;> omega

/-- The truncation of Step 0 removes at most the bits of the frequency domain
resource assignment field, and leaves the field with the bits that are not
removed. -/
theorem format0_0_common_truncation (config : dci_size_config) :
    format0_0_common_truncated_bits config ≤
      (dci_f0_0_bits_before_padding config.ul_bwp_initial_bw).frequency_resource ∧
    (format0_0_common_size config).frequency_resource =
      (dci_f0_0_bits_before_padding config.ul_bwp_initial_bw).frequency_resource -
        format0_0_common_truncated_bits config := by
  have hle := log2_ceil_le (config.ul_bwp_initial_bw * (config.ul_bwp_initial_bw + 1) % 2 ^ 32 / 2)
  unfold format0_0_common_truncated_bits format0_0_common_size
  generalize (if config.coreset0_bw ≠ 0 then config.coreset0_bw
    else config.dl_bwp_initial_bw) = n_dl
  simp only [dci_f0_0_bits_before_padding, dci_f1_0_bits_before_padding]
  generalize log2_ceil (config.ul_bwp_initial_bw * (config.ul_bwp_initial_bw + 1) % 2 ^ 32 / 2)
    = fr0 at hle ⊢
  generalize log2_ceil (n_dl * (n_dl + 1) % 2 ^ 32 / 2) = fr1
  split_ifs <;> (try simp only []) <;> omega

/-- A check that returns `false` early passes when its condition does not hold
and the checks after it pass. -/
theorem early_return_false (c : Prop) [Decidable c] (b : Bool) :
    (if c then false else b) = true ↔ ¬c ∧ b = true := by
  by_cases hc : c <;> simp [hc]

/-- What `validate_dci_size_config` has checked when it accepts. -/
theorem validate_dci_size_config_checks (config : dci_size_config)
    (h : validate_dci_size_config config = true) :
    (0 < config.dl_bwp_initial_bw ∧ config.dl_bwp_initial_bw ≤ MAX_RB) ∧
    (0 < config.ul_bwp_initial_bw ∧ config.ul_bwp_initial_bw ≤ MAX_RB) ∧
    config.coreset0_bw ≤ MAX_RB ∧
    config.sul_configured = false ∧
    ((config.dci_0_0_and_1_0_ue_ss = true ∨ config.dci_0_1_and_1_1_ue_ss = true) →
      (0 < config.dl_bwp_active_bw ∧ config.dl_bwp_active_bw ≤ MAX_RB) ∧
      (0 < config.ul_bwp_active_bw ∧ config.ul_bwp_active_bw ≤ MAX_RB)) ∧
    (config.dci_0_1_and_1_1_ue_ss = true → validate_non_fallback config = true) := by
  unfold validate_dci_size_config at h
  split_ifs at h with h1 h2 h3 h4 h5
  · simp only [Bool.or_eq_true, decide_eq_true_eq, beq_iff_eq, not_or, Bool.and_eq_true,
      not_and, not_lt, Bool.not_eq_true] at h1 h2 h3 h4
    refine ⟨⟨by omega, by omega⟩, ⟨by omega, by omega⟩, by omega, h3, ?_, fun _ => h⟩
    intro _
    have := h4 (Or.inr h5)
    omega
  · simp only [Bool.or_eq_true, decide_eq_true_eq, beq_iff_eq, not_or, Bool.and_eq_true,
      not_and, not_lt, Bool.not_eq_true] at h1 h2 h3 h4 h5
    refine ⟨⟨by omega, by omega⟩, ⟨by omega, by omega⟩, by omega, h3, ?_, ?_⟩
    · intro hss
      have := h4 hss
      omega
    · intro hss
      rw [h5] at hss
      exact Bool.noConfusion hss

/-- What the checks "pertaining to non-fallback DCI formats" have checked
when they pass. -/
theorem validate_non_fallback_checks (config : dci_size_config)
    (h : validate_non_fallback config = true) :
    (config.nof_ul_bwp_rrc ≤ 4 ∧ config.nof_dl_bwp_rrc ≤ 4) ∧
    (0 < config.nof_ul_time_domain_res ∧ config.nof_ul_time_domain_res ≤ 16) ∧
    (0 < config.nof_dl_time_domain_res ∧ config.nof_dl_time_domain_res ≤ 16) ∧
    config.report_trigger_size ≤ 6 ∧
    config.nof_aperiodic_zp_csi ≤ 3 ∧
    (0 < config.nof_pdsch_ack_timings ∧ config.nof_pdsch_ack_timings ≤ 8) ∧
    (config.transform_precoding_enabled = true →
      config.pusch_dmrs_A_type ≠ some dmrs_config_type.type2 ∧
      config.pusch_dmrs_B_type ≠ some dmrs_config_type.type2) ∧
    (config.pdsch_harq_ack_cb = pdsch_harq_ack_codebook.dynamic →
      config.dynamic_dual_harq_ack_cb.isSome = true) ∧
    validate_rb_groups config.pusch_res_allocation_type config.nof_ul_rb_groups = true ∧
    validate_rb_groups config.pdsch_res_allocation_type config.nof_dl_rb_groups = true ∧
    (config.pdsch_res_allocation_type ≠ resource_allocation.resource_allocation_type_0 →
      config.interleaved_vrb_prb_mapping.isSome = true) ∧
    validate_tx_config config = true := by
  unfold validate_non_fallback at h
  simp only [early_return_false] at h
  obtain ⟨h1, h2, h3, h4, h5, h6, h7, h8, h9, h10, h11, h12, h⟩ := h
  simp only [Bool.or_eq_true, decide_eq_true_eq, beq_iff_eq, not_or, Bool.and_eq_true,
    not_and, not_lt, Bool.not_eq_true, Bool.not_eq_true', bne_iff_ne, ne_eq,
    Bool.not_eq_false] at h1 h2 h3 h4 h5 h6 h7 h8 h9 h10 h11 h12
  refine ⟨⟨by omega, by omega⟩, ⟨by omega, by omega⟩, ⟨by omega, by omega⟩, by omega, by omega,
    ⟨by omega, by omega⟩, ?_, ?_, h10, h11, ?_, h⟩
  · intro ht
    constructor
    · intro hA
      have := h7 ht
      simp [hA] at this
    · intro hB
      have := h8 ht
      simp [hB] at this
  · intro hd
    have := h9 hd
    cases hv : config.dynamic_dual_harq_ack_cb with
    | none => rw [hv] at this; simp at this
    | some v => rfl
  · intro hp
    have := h12 hp
    cases hv : config.interleaved_vrb_prb_mapping with
    | none => rw [hv] at this; simp at this
    | some v => rfl

/-- What the checks on the transmission configuration have checked when they
pass: one PUSCH layer for non-codebook based transmission, rank 1 on one SRS
port for codebook based transmission. -/
theorem validate_tx_config_checks (config : dci_size_config)
    (h : validate_tx_config config = true) :
    ((config.tx_config_non_codebook = true ∧ config.pusch_max_layers = some 1 ∧
        (0 < config.nof_srs_resources ∧ config.nof_srs_resources ≤ 4)) ∨
      (config.tx_config_non_codebook = false ∧ config.max_rank = some 1 ∧
        config.nof_srs_ports = some 1 ∧
        (0 < config.nof_srs_resources ∧ config.nof_srs_resources ≤ 2))) ∧
    validate_after_tx_config config = true := by
  unfold validate_tx_config at h
  cases hnc : config.tx_config_non_codebook with
  | true =>
    rw [hnc] at h
    simp only [if_true, early_return_false] at h
    obtain ⟨h1, h2, h3⟩ := h
    refine ⟨Or.inl ⟨rfl, ?_, ?_⟩, h3⟩
    · cases hl : config.pusch_max_layers with
      | none => rw [hl] at h1; simp at h1
      | some l =>
        rw [hl] at h1
        simp only [bne_iff_ne, ne_eq, Decidable.not_not] at h1
        rw [h1]
    · simp only [Bool.or_eq_true, beq_iff_eq, decide_eq_true_eq, not_or, not_lt] at h2
      omega
  | false =>
    rw [hnc] at h
    simp only [Bool.false_eq_true, if_false] at h
    cases hr : config.max_rank with
    | none => rw [hr] at h; simp at h
    | some r =>
      rw [hr] at h
      simp only [early_return_false] at h
      obtain ⟨h1, h2⟩ := h
      cases hp : config.nof_srs_ports with
      | none => rw [hp] at h2; simp at h2
      | some p =>
        rw [hp] at h2
        simp only [early_return_false] at h2
        obtain ⟨h3, h4, h5⟩ := h2
        simp only [Bool.or_eq_true, beq_iff_eq, decide_eq_true_eq, not_or, not_lt] at h1 h3 h4
        by_cases hp1 : p = 1
        · rw [if_pos hp1] at h5
          refine ⟨Or.inr ⟨rfl, ?_, ?_, ?_⟩, h5⟩
          · congr 1; omega
          · rw [hp1]
          · omega
        · rw [if_neg hp1] at h5
          exact Bool.noConfusion h5

/-- What the checks after the transmission configuration have checked when
they pass. -/
theorem validate_after_tx_config_checks (config : dci_size_config)
    (h : validate_after_tx_config config = true) :
    (config.ptrs_uplink_configured = true → config.transform_precoding_enabled = false →
      config.tx_config_non_codebook = false ∧ ∀ r, config.max_rank = some r → r ≤ 1) ∧
    ((config.pusch_dmrs_A_type.isSome = true ∧ config.pusch_dmrs_A_max_len.isSome = true) ∨
      (config.pusch_dmrs_B_type.isSome = true ∧ config.pusch_dmrs_B_max_len.isSome = true)) ∧
    ((config.pdsch_dmrs_A_type.isSome = true ∧ config.pdsch_dmrs_A_max_len.isSome = true) ∨
      (config.pdsch_dmrs_B_type.isSome = true ∧ config.pdsch_dmrs_B_max_len.isSome = true)) ∧
    (∀ value, config.max_cbg_tb_pusch = some value → valid_max_cbg value = true) ∧
    (∀ value, config.max_cbg_tb_pdsch = some value → valid_max_cbg value = true) := by
  unfold validate_after_tx_config at h
  simp only [early_return_false] at h
  obtain ⟨h1, h2, h3, h4, h5, _⟩ := h
  refine ⟨?_, ?_, ?_, ?_, ?_⟩
  · intro hp ht
    rw [hp, ht] at h1
    simp only [Bool.not_false, Bool.and_self, Bool.true_and, Bool.or_eq_true, not_or,
      Bool.not_eq_true] at h1
    refine ⟨h1.1, ?_⟩
    intro r hr
    rw [hr] at h1
    simpa using h1.2
  · cases hA : config.pusch_dmrs_A_type.isSome <;> cases hAl : config.pusch_dmrs_A_max_len.isSome <;>
      cases hB : config.pusch_dmrs_B_type.isSome <;>
      cases hBl : config.pusch_dmrs_B_max_len.isSome <;>
      simp [hA, hAl, hB, hBl] at h2 ⊢
  · cases hA : config.pdsch_dmrs_A_type.isSome <;> cases hAl : config.pdsch_dmrs_A_max_len.isSome <;>
      cases hB : config.pdsch_dmrs_B_type.isSome <;>
      cases hBl : config.pdsch_dmrs_B_max_len.isSome <;>
      simp [hA, hAl, hB, hBl] at h3 ⊢
  · intro value hv
    rw [hv] at h4
    simpa using h4
  · intro value hv
    rw [hv] at h5
    simpa using h5

/-- The number of RBGs that `validate_dci_size_config` accepts passes the
assertions on it. -/
theorem assert_rb_groups_of_validate (res_allocation_type : resource_allocation)
    (nof_rb_groups : Option Nat)
    (h : validate_rb_groups res_allocation_type nof_rb_groups = true) :
    assert_rb_groups res_allocation_type nof_rb_groups = true := by
  unfold validate_rb_groups at h
  unfold assert_rb_groups
  split_ifs at h ⊢
  · cases nof_rb_groups with
    | none => simp at h
    | some groups =>
      simp only [Bool.not_eq_true', Bool.or_eq_false_iff, decide_eq_false_iff_not, not_lt,
        beq_eq_false_iff_ne, ne_eq] at h
      simp only [Bool.and_eq_true, decide_eq_true_eq]
      omega
  · rfl

/-- A transmission configuration that `validate_dci_size_config` accepts
passes the assertions on it and on PT-RS. -/
theorem assert_tx_config_of_validate (config : dci_size_config)
    (h : validate_tx_config config = true) :
    assert_tx_config config = true ∧ assert_ptrs config = true := by
  obtain ⟨htx, hafter⟩ := validate_tx_config_checks config h
  obtain ⟨hptrs, _⟩ := validate_after_tx_config_checks config hafter
  unfold assert_tx_config assert_ptrs
  rcases htx with ⟨hnc, hl, hs⟩ | ⟨hnc, hr, hp, hs⟩
  · rw [hnc, hl]
    constructor
    · simp only [if_true, Bool.and_eq_true, decide_eq_true_eq, beq_iff_eq]
      exact ⟨⟨⟨by omega, by omega⟩, hs⟩, trivial⟩
    · cases hpt : config.ptrs_uplink_configured with
      | false => simp
      | true =>
        cases htp : config.transform_precoding_enabled with
        | true => simp
        | false =>
          have := (hptrs hpt htp).1
          rw [hnc] at this
          exact Bool.noConfusion this
  · rw [hnc, hr, hp]
    constructor
    · simp only [Bool.false_eq_true, if_false, Bool.and_eq_true, decide_eq_true_eq, beq_iff_eq,
        Bool.or_eq_true]
      exact ⟨⟨by omega, by omega⟩, ⟨⟨⟨⟨Or.inl (Or.inl trivial), by omega⟩, hs⟩,
        Or.inl trivial⟩, trivial⟩⟩
    · simp

/-- A configuration that passes the checks "pertaining to non-fallback DCI
formats" passes the assertions "for non-fallback DCI formats". -/
theorem assert_non_fallback_of_validate (config : dci_size_config)
    (h : validate_non_fallback config = true) : assert_non_fallback config = true := by
  obtain ⟨h1, h2, h3, h4, h5, h6, h7, h8, h9, h10, h11, h12⟩ :=
    validate_non_fallback_checks config h
  obtain ⟨_, hafter⟩ := validate_tx_config_checks config h12
  obtain ⟨_, hd1, hd2, hc1, hc2⟩ := validate_after_tx_config_checks config hafter
  obtain ⟨ht1, ht2⟩ := assert_tx_config_of_validate config h12
  unfold assert_non_fallback
  rw [assert_rb_groups_of_validate _ _ h9, assert_rb_groups_of_validate _ _ h10, ht1, ht2]
  simp only [Bool.and_eq_true, decide_eq_true_eq, Bool.and_true, Bool.or_eq_true,
    Bool.not_eq_true', bne_iff_ne, ne_eq, beq_iff_eq]
  refine ⟨⟨⟨⟨⟨⟨⟨⟨⟨⟨⟨⟨⟨⟨h1.1, h1.2⟩, h2⟩, h3⟩, h5⟩, h6⟩, h4⟩, ?_⟩, ?_⟩, ?_⟩, ?_⟩, ?_⟩, ?_⟩,
    hd1⟩, hd2⟩
  · cases hv : config.max_cbg_tb_pusch with
    | none => rfl
    | some value => exact hc1 value hv
  · cases hv : config.max_cbg_tb_pdsch with
    | none => rfl
    | some value => exact hc2 value hv
  · cases ht : config.transform_precoding_enabled with
    | false => exact Or.inl (Or.inl rfl)
    | true => exact Or.inr (h7 ht).1
  · cases ht : config.transform_precoding_enabled with
    | false => exact Or.inl (Or.inl rfl)
    | true => exact Or.inr (h7 ht).2
  · by_cases hd : config.pdsch_harq_ack_cb = pdsch_harq_ack_codebook.dynamic
    · exact Or.inr (h8 hd)
    · exact Or.inl hd
  · by_cases hp : config.pdsch_res_allocation_type =
        resource_allocation.resource_allocation_type_0
    · exact Or.inl hp
    · exact Or.inr (h11 hp)

/-- A configuration that `validate_dci_size_config` accepts passes every
assertion of `assert_dci_size_config`. -/
theorem assert_dci_size_config_of_validate (config : dci_size_config)
    (h : validate_dci_size_config config = true) : assert_dci_size_config config = true := by
  obtain ⟨h1, h2, h3, h4, h5, h6⟩ := validate_dci_size_config_checks config h
  unfold assert_dci_size_config assert_all_formats
  simp only [Bool.and_eq_true, decide_eq_true_eq, Bool.not_eq_true']
  refine ⟨⟨⟨⟨⟨h1, h2⟩, h3⟩, h4⟩, ?_⟩, ?_⟩
  · split
    · rename_i hss
      unfold assert_fallback_ue_ss
      simp only [Bool.and_eq_true, decide_eq_true_eq]
      exact h5 (Or.inl hss)
    · rfl
  · split
    · rename_i hss
      exact assert_non_fallback_of_validate config (h6 hss)
    · rfl

/-- The BWP indicator field size passes its assertion for up to four BWPs. -/
theorem bwp_indicator_size_some (nof_bwp_rrc : Nat) (h : nof_bwp_rrc ≤ 4) :
    ∃ size, bwp_indicator_size nof_bwp_rrc = some size := by
  interval_cases nof_bwp_rrc
  · exact ⟨0, by decide⟩
  · exact ⟨1, by decide⟩
  · exact ⟨2, by decide⟩
  · exact ⟨2, by decide⟩
  · exact ⟨2, by decide⟩

/-- The frequency domain resource assignment field size is defined for the
numbers of RBGs that `validate_dci_size_config` accepts. -/
theorem freq_resource_assignment_size_some (res_allocation_type : resource_allocation)
    (nof_rb_groups : Option Nat) (nof_prb_bwp : Nat)
    (h : validate_rb_groups res_allocation_type nof_rb_groups = true) :
    ∃ size, freq_resource_assignment_size res_allocation_type nof_rb_groups nof_prb_bwp
      = some size := by
  unfold validate_rb_groups at h
  unfold freq_resource_assignment_size
  cases res_allocation_type with
  | resource_allocation_type_1 => exact ⟨_, rfl⟩
  | resource_allocation_type_0 =>
    cases nof_rb_groups with
    | none => simp at h
    | some groups => exact ⟨_, rfl⟩
  | dynamic_switch =>
    cases nof_rb_groups with
    | none => simp at h
    | some groups => exact ⟨_, rfl⟩

/-- The UL antenna ports field size of a DM-RS configuration is defined
unless transform precoding comes with DM-RS type 2. -/
theorem ul_dmrs_ports_size_some (dmrs_type : dmrs_config_type) (dmrs_len : dmrs_max_length)
    (transform_precoding : Bool)
    (h : transform_precoding = true → dmrs_type ≠ dmrs_config_type.type2) :
    ∃ size, ul_dmrs_ports_size dmrs_type dmrs_len transform_precoding = some size := by
  cases transform_precoding <;> cases dmrs_type <;> cases dmrs_len <;>
    first
    | exact ⟨_, rfl⟩
    | exact absurd rfl (h rfl)

/-- The antenna ports field size of the DCI format 0_1 is defined when
transform precoding does not come with DM-RS type 2. -/
theorem ul_ports_size_some (dmrs_A_type : Option dmrs_config_type)
    (dmrs_A_max_len : Option dmrs_max_length) (dmrs_B_type : Option dmrs_config_type)
    (dmrs_B_max_len : Option dmrs_max_length) (transform_precoding_enabled : Bool)
    (hA : transform_precoding_enabled = true → dmrs_A_type ≠ some dmrs_config_type.type2)
    (hB : transform_precoding_enabled = true → dmrs_B_type ≠ some dmrs_config_type.type2) :
    ∃ size, ul_ports_size dmrs_A_type dmrs_A_max_len dmrs_B_type dmrs_B_max_len
      transform_precoding_enabled = some size := by
  have hAs : ∃ a, (match dmrs_A_type, dmrs_A_max_len with
      | some t, some l => ul_dmrs_ports_size t l transform_precoding_enabled
      | _, _ => some 0) = some a := by
    cases dmrs_A_type with
    | none => exact ⟨0, rfl⟩
    | some t =>
      cases dmrs_A_max_len with
      | none => exact ⟨0, rfl⟩
      | some l =>
        exact ul_dmrs_ports_size_some t l transform_precoding_enabled
          (fun ht hk => hA ht (by rw [hk]))
  have hBs : ∃ b, (match dmrs_B_type, dmrs_B_max_len with
      | some t, some l => ul_dmrs_ports_size t l transform_precoding_enabled
      | _, _ => some 0) = some b := by
    cases dmrs_B_type with
    | none => exact ⟨0, rfl⟩
    | some t =>
      cases dmrs_B_max_len with
      | none => exact ⟨0, rfl⟩
      | some l =>
        exact ul_dmrs_ports_size_some t l transform_precoding_enabled
          (fun ht hk => hB ht (by rw [hk]))
  obtain ⟨a, ha⟩ := hAs
  obtain ⟨b, hb⟩ := hBs
  unfold ul_ports_size
  simp only [ha, hb]
  exact ⟨_, rfl⟩

/-- The sizes of the non-fallback formats are defined for a configuration
that passes the checks "pertaining to non-fallback DCI formats". -/
theorem non_fallback_bits_before_padding_some (config : dci_size_config)
    (h : validate_non_fallback config = true) :
    (∃ size, dci_f0_1_bits_before_padding config = some size) ∧
    (∃ size, dci_f1_1_bits_before_padding config = some size) := by
  obtain ⟨h1, _, _, _, _, _, h7, h8, h9, h10, _, _⟩ := validate_non_fallback_checks config h
  obtain ⟨bu, hbu⟩ := bwp_indicator_size_some config.nof_ul_bwp_rrc h1.1
  obtain ⟨bd, hbd⟩ := bwp_indicator_size_some config.nof_dl_bwp_rrc h1.2
  obtain ⟨fu, hfu⟩ := freq_resource_assignment_size_some config.pusch_res_allocation_type
    config.nof_ul_rb_groups config.ul_bwp_active_bw h9
  obtain ⟨fd, hfd⟩ := freq_resource_assignment_size_some config.pdsch_res_allocation_type
    config.nof_dl_rb_groups config.dl_bwp_active_bw h10
  obtain ⟨ap, hap⟩ := ul_ports_size_some config.pusch_dmrs_A_type config.pusch_dmrs_A_max_len
    config.pusch_dmrs_B_type config.pusch_dmrs_B_max_len config.transform_precoding_enabled
    (fun ht => (h7 ht).1) (fun ht => (h7 ht).2)
  constructor
  · unfold dci_f0_1_bits_before_padding
    simp only [hbu, hfu, hap, Option.bind_eq_bind, Option.some_bind, Option.pure_def]
    by_cases hd : config.pdsch_harq_ack_cb = pdsch_harq_ack_codebook.dynamic
    · have := h8 hd
      cases hv : config.dynamic_dual_harq_ack_cb with
      | none => rw [hv] at this; simp at this
      | some v =>
        simp only [hd, if_true, Option.map_some', Option.some_bind]
        exact ⟨_, rfl⟩
    · simp only [hd, if_false]
      exact ⟨_, rfl⟩
  · unfold dci_f1_1_bits_before_padding
    simp only [hbd, hfd, Option.bind_eq_bind, Option.some_bind, Option.pure_def]
    exact ⟨_, rfl⟩

/-- A value that is returned on both branches of a test has a property that
both branch values have. -/
theorem exists_of_ite_some {α : Type} (c : Prop) [Decidable c] (a b : α) (P : α → Prop)
    (ha : P a) (hb : P b) : ∃ s, (if c then some a else some b) = some s ∧ P s := by
  by_cases hc : c
  · exact ⟨a, by rw [if_pos hc], ha⟩
  · exact ⟨b, by rw [if_neg hc], hb⟩

/-- C30: for every configuration that `validate_dci_size_config` accepts,
`get_dci_sizes` fails no assertion and reads no empty optional, and the sizes
it returns are aligned: the formats 0_0 and 1_0 of the common search space
have the same total payload size, and so have the fallback formats of the
UE-specific search space when they are configured; the truncation of the
frequency domain resource assignment field of the format 0_0 removes no more
bits than the field has, and leaves it with the remaining bits. -/
theorem get_dci_sizes_aligned (config : dci_size_config)
    (h : validate_dci_size_config config = true) :
    ∃ sizes, get_dci_sizes config = some sizes ∧
      sizes.format0_0_common_size.total = sizes.format1_0_common_size.total ∧
      (config.dci_0_0_and_1_0_ue_ss = true →
        ∃ format0_0_ue_size format1_0_ue_size,
          sizes.format0_0_ue_size = some format0_0_ue_size ∧
          sizes.format1_0_ue_size = some format1_0_ue_size ∧
          format0_0_ue_size.total = format1_0_ue_size.total) ∧
      format0_0_common_truncated_bits config ≤
        (dci_f0_0_bits_before_padding config.ul_bwp_initial_bw).frequency_resource ∧
      sizes.format0_0_common_size.frequency_resource =
        (dci_f0_0_bits_before_padding config.ul_bwp_initial_bw).frequency_resource -
          format0_0_common_truncated_bits config := by
  have ha := assert_dci_size_config_of_validate config h
  have h0 := format0_0_common_size_total config
  have h1 := fallback_ue_sizes_total config
  have ht := format0_0_common_truncation config
  obtain ⟨_, _, _, _, _, h6⟩ := validate_dci_size_config_checks config h
  unfold get_dci_sizes
  generalize (if config.coreset0_bw ≠ 0 then config.coreset0_bw
    else config.dl_bwp_initial_bw) = n_dl at h0 ⊢
  cases hn : config.dci_0_1_and_1_1_ue_ss with
  | false =>
    cases hu : config.dci_0_0_and_1_0_ue_ss with
    | false =>
      simp only [ha, h0, Option.bind_eq_bind, Option.some_bind, Option.pure_def,
        Bool.true_eq_false, Bool.false_eq_true, if_false, if_true, ne_eq, not_true_eq_false,
        Option.map_some']
      apply exists_of_ite_some
      · exact ⟨h0, fun hc => absurd hc (by decide), ht.1, ht.2⟩
      · exact ⟨h0, fun hc => absurd hc (by decide), ht.1, ht.2⟩
    | true =>
      simp only [ha, h0, h1, Option.bind_eq_bind, Option.some_bind, Option.pure_def,
        Bool.true_eq_false, Bool.false_eq_true, if_false, if_true, ne_eq, not_true_eq_false,
        Option.map_some']
      apply exists_of_ite_some
      · exact ⟨h0, fun _ => ⟨_, _, rfl, rfl, h0⟩, ht.1, ht.2⟩
      · exact ⟨h0, fun _ => ⟨_, _, rfl, rfl, h1⟩, ht.1, ht.2⟩
  | true =>
    obtain ⟨⟨f01, hf01⟩, ⟨f11, hf11⟩⟩ := non_fallback_bits_before_padding_some config (h6 hn)
    cases hu : config.dci_0_0_and_1_0_ue_ss with
    | false =>
      simp only [ha, h0, hf01, hf11, Option.bind_eq_bind, Option.some_bind, Option.pure_def,
        Bool.true_eq_false, Bool.false_eq_true, if_false, if_true, ne_eq, not_true_eq_false,
        Option.map_some']
      apply exists_of_ite_some
      · exact ⟨h0, fun hc => absurd hc (by decide), ht.1, ht.2⟩
      · exact ⟨h0, fun hc => absurd hc (by decide), ht.1, ht.2⟩
    | true =>
      simp only [ha, h0, h1, hf01, hf11, Option.bind_eq_bind, Option.some_bind,
        Option.pure_def, Bool.true_eq_false, Bool.false_eq_true, if_false, if_true, ne_eq,
        not_true_eq_false, Option.map_some']
      apply exists_of_ite_some
      · exact ⟨h0, fun _ => ⟨_, _, rfl, rfl, h0⟩, ht.1, ht.2⟩
      · exact ⟨h0, fun _ => ⟨_, _, rfl, rfl, h1⟩, ht.1, ht.2⟩

/-- C30 on `non_fallback_dci_size_config`: the configuration is accepted, the
formats 0_0 and 1_0 have 35 bits in the common search space and, after Step 4,
in the UE-specific search space, and one bit of the 16 bits of the frequency
domain resource assignment field of the format 0_0 is truncated. -/
theorem get_dci_sizes_aligned_witness :
    validate_dci_size_config non_fallback_dci_size_config = true ∧
    format0_0_common_truncated_bits non_fallback_dci_size_config = 1 ∧
    (get_dci_sizes non_fallback_dci_size_config).map
        (fun sizes =>
          (sizes.format0_0_common_size.total, sizes.format1_0_common_size.total,
            sizes.format0_0_common_size.frequency_resource,
            sizes.format0_0_ue_size.map (fun s => s.total),
            sizes.format1_0_ue_size.map (fun s => s.total)))
      = some (35, 35, 15, some 35, some 35) ∧
    ∃ sizes, get_dci_sizes non_fallback_dci_size_config = some sizes ∧
      sizes.format0_0_common_size.total = sizes.format1_0_common_size.total ∧
      (non_fallback_dci_size_config.dci_0_0_and_1_0_ue_ss = true →
        ∃ format0_0_ue_size format1_0_ue_size,
          sizes.format0_0_ue_size = some format0_0_ue_size ∧
          sizes.format1_0_ue_size = some format1_0_ue_size ∧
          format0_0_ue_size.total = format1_0_ue_size.total) ∧
      format0_0_common_truncated_bits non_fallback_dci_size_config ≤
        (dci_f0_0_bits_before_padding
          non_fallback_dci_size_config.ul_bwp_initial_bw).frequency_resource ∧
      sizes.format0_0_common_size.frequency_resource =
        (dci_f0_0_bits_before_padding
          non_fallback_dci_size_config.ul_bwp_initial_bw).frequency_resource -
          format0_0_common_truncated_bits non_fallback_dci_size_config :=
  ⟨by decide, by decide, by decide,
    get_dci_sizes_aligned non_fallback_dci_size_config (by decide)⟩

end srsran
